import Mathlib

/-!
Verification of kapankov/RWLock (src/rwlock.h): a binary `Semaphore` built on a
mutex and condition variable, and a `RWLock` class offering shared/exclusive
acquisition under one of three fairness modes (`ReadersPriority`,
`WritersPriority`, `FairOrder`).

The code is embedded shallowly:

* `Semaphore` is its `m_avail` counter (a `size_t`; modelled as `Nat`, since no
  claim depends on 64-bit wrap-around).  `Semaphore::Acquire` is the partial
  step `Semaphore.tryAcquire` (`none` = the caller blocks on the condition
  variable); `Semaphore::Release` is `Semaphore.release`.
* The `RWLock` object is the record `RWLock` holding the mode, the four
  semaphores and the two `long` counters (modelled as `Int`).
* Each private method body is transliterated into a first-order micro-program
  (`Prog`) whose atomic statements are exactly the statements of the C++ code:
  semaphore acquire/release and the combined increment/decrement-and-test of a
  counter (these run under the corresponding mutex semaphore in every variant,
  so one atomic step each is faithful).
* A sequential interpreter `runTr` executes a micro-program to completion on a
  lock state, returning `none` if some semaphore acquire would block, together
  with the trace of gate operations performed — used for the per-variant
  functional claims.
* A small-step relation `TStep`/`SysStep` executes one atomic statement of one
  thread out of a multiset of threads — used for the interleaving claims
  (mutual exclusion, balanced accounting).
-/

/-- `Semaphore::m_avail`: `size_t m_avail{ 1 }` (binary semaphore). -/
def Semaphore.init : Nat := 1

/-- `Semaphore::Acquire`: wait on `m_cv` until `m_avail > 0`, then `m_avail--`.
`none` means the caller blocks (no matching release has happened). -/
def Semaphore.tryAcquire (avail : Nat) : Option Nat :=
  if 0 < avail then some (avail - 1) else none

/-- `Semaphore::Release`: `m_avail++` (then `notify_one`, which has no effect on
the counter itself). -/
def Semaphore.release (avail : Nat) : Nat := avail + 1

@[simp] theorem Semaphore.tryAcquire_eq_some {n a : Nat} :
    Semaphore.tryAcquire n = some a ↔ 0 < n ∧ a = n - 1 := by
  unfold Semaphore.tryAcquire
  split <;> simp_all
  omega

@[simp] theorem Semaphore.tryAcquire_eq_none {n : Nat} :
    Semaphore.tryAcquire n = none ↔ n = 0 := by
  unfold Semaphore.tryAcquire
  split <;> simp_all
  omega

/-- `RWLockMode`: the enumeration of operating modes. -/
inductive RWLockMode where
  | ReadersPriority
  | WritersPriority
  | FairOrder
deriving DecidableEq, Repr

/-- The `RWLock` object state: the mode, the four member semaphores
(each represented by its `m_avail` counter) and the two `long` counters. -/
structure RWLock where
  m_mode : RWLockMode
  m_order : Nat
  m_resource : Nat
  m_rmutex : Nat
  m_wmutex : Nat
  m_readcount : Int
  m_writecount : Int
deriving DecidableEq, Repr

/-- `RWLock::RWLock(RWLockMode mode = FairOrder)`: all semaphores start
available (`m_avail = 1`), both counters start at 0. -/
def RWLock.new (mode : RWLockMode := RWLockMode.FairOrder) : RWLock :=
  { m_mode := mode
    m_order := Semaphore.init
    m_resource := Semaphore.init
    m_rmutex := Semaphore.init
    m_wmutex := Semaphore.init
    m_readcount := 0
    m_writecount := 0 }

/-- Names of the four member semaphores of `RWLock`. -/
inductive Gate where
  | order
  | resource
  | rmutex
  | wmutex
deriving DecidableEq, Repr

/-- Read a member semaphore's availability counter. -/
@[simp] def RWLock.gate (s : RWLock) : Gate → Nat
  | Gate.order => s.m_order
  | Gate.resource => s.m_resource
  | Gate.rmutex => s.m_rmutex
  | Gate.wmutex => s.m_wmutex

/-- Write a member semaphore's availability counter. -/
@[simp] def RWLock.setGate (s : RWLock) : Gate → Nat → RWLock
  | Gate.order, v => { s with m_order := v }
  | Gate.resource, v => { s with m_resource := v }
  | Gate.rmutex, v => { s with m_rmutex := v }
  | Gate.wmutex, v => { s with m_wmutex := v }

/-- One observable event of a method body: a semaphore operation or a counter
update (`enterCS` marks the user's critical section between an acquire call and
the matching release call). -/
inductive MicroOp where
  | acq (g : Gate)
  | rel (g : Gate)
  | incRead
  | decRead
  | incWrite
  | decWrite
  | enterCS
deriving DecidableEq, Repr

/-- First-order micro-programs: the statements of the `RWLock` method bodies.
`incReadBr k₁ k₂` is `if (++m_readcount == 1) then continue as k₁ else as k₂`,
and similarly for the other counter statements; `cs k` marks the caller's
critical section between an acquire and the matching release. -/
inductive Prog where
  | done
  | acq (g : Gate) (k : Prog)
  | rel (g : Gate) (k : Prog)
  | incReadBr (k₁ k₂ : Prog)
  | decReadBr (k₁ k₂ : Prog)
  | incWriteBr (k₁ k₂ : Prog)
  | decWriteBr (k₁ k₂ : Prog)
  | cs (k : Prog)
deriving DecidableEq, Repr

/-- `RWLock::AcquireExclusive1` (ReadersPriority): `m_resource.Acquire();`. -/
def acquireExclusive1P (k : Prog) : Prog := Prog.acq Gate.resource k

/-- `RWLock::AcquireExclusive2` (WritersPriority):
`m_wmutex.Acquire(); if (++m_writecount == 1) m_order.Acquire();
m_wmutex.Release(); m_resource.Acquire();`. -/
def acquireExclusive2P (k : Prog) : Prog :=
  Prog.acq Gate.wmutex
    (Prog.incWriteBr
      (Prog.acq Gate.order (Prog.rel Gate.wmutex (Prog.acq Gate.resource k)))
      (Prog.rel Gate.wmutex (Prog.acq Gate.resource k)))

/-- `RWLock::AcquireExclusive3` (FairOrder):
`m_order.Acquire(); m_resource.Acquire(); m_order.Release();`. -/
def acquireExclusive3P (k : Prog) : Prog :=
  Prog.acq Gate.order (Prog.acq Gate.resource (Prog.rel Gate.order k))

/-- `RWLock::ReleaseExclusive1`: `m_resource.Release();`. -/
def releaseExclusive1P (k : Prog) : Prog := Prog.rel Gate.resource k

/-- `RWLock::ReleaseExclusive2`:
`m_resource.Release(); m_wmutex.Acquire(); if (--m_writecount == 0)
m_order.Release(); m_wmutex.Release();`. -/
def releaseExclusive2P (k : Prog) : Prog :=
  Prog.rel Gate.resource
    (Prog.acq Gate.wmutex
      (Prog.decWriteBr
        (Prog.rel Gate.order (Prog.rel Gate.wmutex k))
        (Prog.rel Gate.wmutex k)))

/-- `RWLock::ReleaseExclusive3`: `m_resource.Release();`. -/
def releaseExclusive3P (k : Prog) : Prog := Prog.rel Gate.resource k

/-- `RWLock::AcquireShared1` (ReadersPriority):
`m_rmutex.Acquire(); if (++m_readcount == 1) m_resource.Acquire();
m_rmutex.Release();`. -/
def acquireShared1P (k : Prog) : Prog :=
  Prog.acq Gate.rmutex
    (Prog.incReadBr
      (Prog.acq Gate.resource (Prog.rel Gate.rmutex k))
      (Prog.rel Gate.rmutex k))

/-- `RWLock::AcquireShared2` (WritersPriority):
`m_order.Acquire(); m_rmutex.Acquire(); if (++m_readcount == 1)
m_resource.Acquire(); m_rmutex.Release(); m_order.Release();`. -/
def acquireShared2P (k : Prog) : Prog :=
  Prog.acq Gate.order
    (Prog.acq Gate.rmutex
      (Prog.incReadBr
        (Prog.acq Gate.resource (Prog.rel Gate.rmutex (Prog.rel Gate.order k)))
        (Prog.rel Gate.rmutex (Prog.rel Gate.order k))))

/-- `RWLock::AcquireShared3` (FairOrder):
`m_order.Acquire(); m_rmutex.Acquire(); if (++m_readcount == 1)
m_resource.Acquire(); m_order.Release(); m_rmutex.Release();`. -/
def acquireShared3P (k : Prog) : Prog :=
  Prog.acq Gate.order
    (Prog.acq Gate.rmutex
      (Prog.incReadBr
        (Prog.acq Gate.resource (Prog.rel Gate.order (Prog.rel Gate.rmutex k)))
        (Prog.rel Gate.order (Prog.rel Gate.rmutex k))))

/-- `RWLock::ReleaseShared1`:
`m_rmutex.Acquire(); if (--m_readcount == 0) m_resource.Release();
m_rmutex.Release();`. -/
def releaseShared1P (k : Prog) : Prog :=
  Prog.acq Gate.rmutex
    (Prog.decReadBr
      (Prog.rel Gate.resource (Prog.rel Gate.rmutex k))
      (Prog.rel Gate.rmutex k))

/-- `RWLock::ReleaseShared2`: textually identical body to `ReleaseShared1`. -/
def releaseShared2P (k : Prog) : Prog :=
  Prog.acq Gate.rmutex
    (Prog.decReadBr
      (Prog.rel Gate.resource (Prog.rel Gate.rmutex k))
      (Prog.rel Gate.rmutex k))

/-- `RWLock::ReleaseShared3`: textually identical body to `ReleaseShared1`. -/
def releaseShared3P (k : Prog) : Prog :=
  Prog.acq Gate.rmutex
    (Prog.decReadBr
      (Prog.rel Gate.resource (Prog.rel Gate.rmutex k))
      (Prog.rel Gate.rmutex k))

/-- `RWLock::AcquireExclusive`: `switch (m_mode)` with `ReadersPriority` and
`WritersPriority` cases and a `default` branch. -/
def acquireExclusiveP (m : RWLockMode) (k : Prog) : Prog :=
  match m with
  | RWLockMode.ReadersPriority => acquireExclusive1P k
  | RWLockMode.WritersPriority => acquireExclusive2P k
  | _ => acquireExclusive3P k

/-- `RWLock::ReleaseExclusive`: the mode switch. -/
def releaseExclusiveP (m : RWLockMode) (k : Prog) : Prog :=
  match m with
  | RWLockMode.ReadersPriority => releaseExclusive1P k
  | RWLockMode.WritersPriority => releaseExclusive2P k
  | _ => releaseExclusive3P k

/-- `RWLock::AcquireShared`: the mode switch. -/
def acquireSharedP (m : RWLockMode) (k : Prog) : Prog :=
  match m with
  | RWLockMode.ReadersPriority => acquireShared1P k
  | RWLockMode.WritersPriority => acquireShared2P k
  | _ => acquireShared3P k

/-- `RWLock::ReleaseShared`: the mode switch. -/
def releaseSharedP (m : RWLockMode) (k : Prog) : Prog :=
  match m with
  | RWLockMode.ReadersPriority => releaseShared1P k
  | RWLockMode.WritersPriority => releaseShared2P k
  | _ => releaseShared3P k

/-- A reader's whole interaction with the lock: `AcquireShared();`, the read
(critical section), `ReleaseShared();`, each call dispatched on the mode. -/
def readerSession (m : RWLockMode) : Prog :=
  acquireSharedP m (Prog.cs (releaseSharedP m Prog.done))

/-- A writer's whole interaction with the lock: `AcquireExclusive();`, the
write (critical section), `ReleaseExclusive();`. -/
def writerSession (m : RWLockMode) : Prog :=
  acquireExclusiveP m (Prog.cs (releaseExclusiveP m Prog.done))

/-- Sequential interpreter: run a micro-program atomically to completion on a
lock state, recording the trace of events.  `none` means some semaphore
acquire found the semaphore unavailable, i.e. the caller blocks. -/
def runTr : Prog → RWLock → Option (RWLock × List MicroOp)
  | Prog.done, s => some (s, [])
  | Prog.acq g k, s =>
      match Semaphore.tryAcquire (s.gate g) with
      | none => none
      | some a =>
          (runTr k (s.setGate g a)).map (fun r => (r.1, MicroOp.acq g :: r.2))
  | Prog.rel g k, s =>
      (runTr k (s.setGate g (Semaphore.release (s.gate g)))).map
        (fun r => (r.1, MicroOp.rel g :: r.2))
  | Prog.incReadBr k₁ k₂, s =>
      if s.m_readcount + 1 = 1 then
        (runTr k₁ { s with m_readcount := s.m_readcount + 1 }).map
          (fun r => (r.1, MicroOp.incRead :: r.2))
      else
        (runTr k₂ { s with m_readcount := s.m_readcount + 1 }).map
          (fun r => (r.1, MicroOp.incRead :: r.2))
  | Prog.decReadBr k₁ k₂, s =>
      if s.m_readcount - 1 = 0 then
        (runTr k₁ { s with m_readcount := s.m_readcount - 1 }).map
          (fun r => (r.1, MicroOp.decRead :: r.2))
      else
        (runTr k₂ { s with m_readcount := s.m_readcount - 1 }).map
          (fun r => (r.1, MicroOp.decRead :: r.2))
  | Prog.incWriteBr k₁ k₂, s =>
      if s.m_writecount + 1 = 1 then
        (runTr k₁ { s with m_writecount := s.m_writecount + 1 }).map
          (fun r => (r.1, MicroOp.incWrite :: r.2))
      else
        (runTr k₂ { s with m_writecount := s.m_writecount + 1 }).map
          (fun r => (r.1, MicroOp.incWrite :: r.2))
  | Prog.decWriteBr k₁ k₂, s =>
      if s.m_writecount - 1 = 0 then
        (runTr k₁ { s with m_writecount := s.m_writecount - 1 }).map
          (fun r => (r.1, MicroOp.decWrite :: r.2))
      else
        (runTr k₂ { s with m_writecount := s.m_writecount - 1 }).map
          (fun r => (r.1, MicroOp.decWrite :: r.2))
  | Prog.cs k, s =>
      (runTr k s).map (fun r => (r.1, MicroOp.enterCS :: r.2))

/-- Effect-only view of `runTr`. -/
def run (p : Prog) (s : RWLock) : Option RWLock := (runTr p s).map (fun r => r.1)

/-!
## Small-step concurrent semantics

One thread's single atomic statement.  A thread is identified with its
remaining micro-program; the global state is the lock plus a multiset of
threads.
-/

/-- One atomic statement of one thread: semaphore operations (an acquire fires
only when the semaphore is available — otherwise the thread stays blocked),
counter increments/decrements with their branch, and leaving the critical
section. -/
inductive TStep : RWLock → Prog → RWLock → Prog → Prop where
  | acq (s : RWLock) (g : Gate) (k : Prog) (a : Nat) :
      Semaphore.tryAcquire (s.gate g) = some a →
      TStep s (Prog.acq g k) (s.setGate g a) k
  | rel (s : RWLock) (g : Gate) (k : Prog) :
      TStep s (Prog.rel g k) (s.setGate g (Semaphore.release (s.gate g))) k
  | incRead_eq (s : RWLock) (k₁ k₂ : Prog) : s.m_readcount + 1 = 1 →
      TStep s (Prog.incReadBr k₁ k₂) { s with m_readcount := s.m_readcount + 1 } k₁
  | incRead_ne (s : RWLock) (k₁ k₂ : Prog) : s.m_readcount + 1 ≠ 1 →
      TStep s (Prog.incReadBr k₁ k₂) { s with m_readcount := s.m_readcount + 1 } k₂
  | decRead_eq (s : RWLock) (k₁ k₂ : Prog) : s.m_readcount - 1 = 0 →
      TStep s (Prog.decReadBr k₁ k₂) { s with m_readcount := s.m_readcount - 1 } k₁
  | decRead_ne (s : RWLock) (k₁ k₂ : Prog) : s.m_readcount - 1 ≠ 0 →
      TStep s (Prog.decReadBr k₁ k₂) { s with m_readcount := s.m_readcount - 1 } k₂
  | incWrite_eq (s : RWLock) (k₁ k₂ : Prog) : s.m_writecount + 1 = 1 →
      TStep s (Prog.incWriteBr k₁ k₂) { s with m_writecount := s.m_writecount + 1 } k₁
  | incWrite_ne (s : RWLock) (k₁ k₂ : Prog) : s.m_writecount + 1 ≠ 1 →
      TStep s (Prog.incWriteBr k₁ k₂) { s with m_writecount := s.m_writecount + 1 } k₂
  | decWrite_eq (s : RWLock) (k₁ k₂ : Prog) : s.m_writecount - 1 = 0 →
      TStep s (Prog.decWriteBr k₁ k₂) { s with m_writecount := s.m_writecount - 1 } k₁
  | decWrite_ne (s : RWLock) (k₁ k₂ : Prog) : s.m_writecount - 1 ≠ 0 →
      TStep s (Prog.decWriteBr k₁ k₂) { s with m_writecount := s.m_writecount - 1 } k₂
  | leaveCS (s : RWLock) (k : Prog) :
      TStep s (Prog.cs k) s k

/-- Global state: the lock object and the multiset of thread states. -/
structure Sys where
  lock : RWLock
  threads : Multiset Prog

/-- Global step: one thread fires one atomic statement, or an idle thread
starts a new reader or writer session (the session's calls dispatch on the
lock's construction-time mode, exactly as the `switch` statements do). -/
inductive SysStep : Sys → Sys → Prop where
  | thread (a b : Sys) (t t' : Prog) (rest : Multiset Prog) :
      a.threads = t ::ₘ rest → b.threads = t' ::ₘ rest →
      TStep a.lock t b.lock t' → SysStep a b
  | startReader (a b : Sys) (rest : Multiset Prog) :
      b.lock = a.lock → a.threads = Prog.done ::ₘ rest →
      b.threads = readerSession a.lock.m_mode ::ₘ rest → SysStep a b
  | startWriter (a b : Sys) (rest : Multiset Prog) :
      b.lock = a.lock → a.threads = Prog.done ::ₘ rest →
      b.threads = writerSession a.lock.m_mode ::ₘ rest → SysStep a b

/-- Initial global state: a freshly constructed lock and `n` idle threads. -/
def initSys (m : RWLockMode) (n : Nat) : Sys :=
  { lock := RWLock.new m, threads := Multiset.replicate n Prog.done }

/-- Reachability from the initial state under arbitrary interleaving. -/
def Reachable (m : RWLockMode) (n : Nat) (sys : Sys) : Prop :=
  Relation.ReflTransGen SysStep (initSys m n) sys

/-!
## Thread locations

Each intermediate point of the session programs, named for use in the
invariants.  A location is the program remaining from that point on.
-/

/-- After `ReleaseShared`'s `m_resource.Release()`: about to release rmutex. -/
def relRm : Prog := Prog.rel Gate.rmutex Prog.done

/-- In `ReleaseShared`, the reader count reached 0: about to release the
resource semaphore. -/
def relRes : Prog := Prog.rel Gate.resource relRm

/-- In `ReleaseShared`, holding rmutex: about to decrement `m_readcount`. -/
def decR : Prog := Prog.decReadBr relRes relRm

/-- About to call `ReleaseShared` (same body in all three modes). -/
def rsProg : Prog := Prog.acq Gate.rmutex decR

/-- A reader inside its critical section. -/
def csR : Prog := Prog.cs rsProg

/-- A writer (modes 1 and 3) about to release the resource semaphore in
`ReleaseExclusive`. -/
def relE : Prog := Prog.rel Gate.resource Prog.done

/-- A writer (modes 1 and 3) inside its critical section. -/
def csW : Prog := Prog.cs relE

/-- `AcquireShared1`/`AcquireShared3` after the resource branch: about to
release rmutex and start reading. -/
def relRmCs : Prog := Prog.rel Gate.rmutex csR

/-- `AcquireShared1`, first reader: about to acquire the resource semaphore. -/
def a12 : Prog := Prog.acq Gate.resource relRmCs

/-- `AcquireShared1`, holding rmutex: about to increment `m_readcount`. -/
def a11 : Prog := Prog.incReadBr a12 relRmCs

/-- Start of a ReadersPriority reader session. -/
def a10 : Prog := Prog.acq Gate.rmutex a11

/-- Start of a ReadersPriority writer session. -/
def w10 : Prog := Prog.acq Gate.resource csW

/-- All thread locations of a ReadersPriority run. -/
def locs1 : List Prog :=
  [a10, a11, a12, relRmCs, csR, rsProg, decR, relRes, relRm,
   w10, csW, relE, Prog.done]

/-- Every thread is at a location of the given list. -/
def MemInv (locs : List Prog) (ts : Multiset Prog) : Prop :=
  ∀ p ∈ ts, p ∈ locs

/-- The numeric invariant of a ReadersPriority run.  Writing `#x` for the
number of threads at location `x`: rmutex is held exactly by the threads
between its acquire and release; `m_readcount` counts the threads between the
increment and the decrement; the resource semaphore is unavailable exactly
while a writer holds it or a reader session is open (and never both); a thread
about to release the resource in `ReleaseShared` saw the count reach zero; the
order and wmutex semaphores and `m_writecount` are never touched. -/
def Num1 (s : RWLock) (ts : Multiset Prog) : Prop :=
  s.m_rmutex +
    (Multiset.count a11 ts + Multiset.count a12 ts + Multiset.count relRmCs ts +
     Multiset.count decR ts + Multiset.count relRes ts + Multiset.count relRm ts) = 1 ∧
  s.m_readcount =
    ((Multiset.count a12 ts + Multiset.count relRmCs ts + Multiset.count csR ts +
      Multiset.count rsProg ts + Multiset.count decR ts : Nat) : Int) ∧
  s.m_resource + (Multiset.count csW ts + Multiset.count relE ts) ≤ 1 ∧
  (s.m_resource + (Multiset.count csW ts + Multiset.count relE ts) = 1 ↔
    Multiset.count relRmCs ts + Multiset.count csR ts + Multiset.count rsProg ts +
    Multiset.count decR ts + Multiset.count relRes ts = 0) ∧
  (1 ≤ Multiset.count relRes ts →
    Multiset.count a12 ts + Multiset.count relRmCs ts + Multiset.count csR ts +
    Multiset.count rsProg ts + Multiset.count decR ts = 0) ∧
  s.m_order = 1 ∧ s.m_wmutex = 1 ∧ s.m_writecount = 0

theorem memInv_update {locs : List Prog} {t t' : Prog} {rest : Multiset Prog}
    (h : MemInv locs (t ::ₘ rest)) (h' : t' ∈ locs) :
    MemInv locs (t' ::ₘ rest) := by
  intro p hp
  rcases Multiset.mem_cons.mp hp with rfl | hp
  · exact h'
  · exact h p (Multiset.mem_cons_of_mem hp)


/-- `ReleaseShared2` tail in `AcquireShared2`: about to release the order
semaphore after registering (WritersPriority reader). -/
def b25 : Prog := Prog.rel Gate.order csR

/-- `AcquireShared2` after the resource branch: about to release rmutex. -/
def b24 : Prog := Prog.rel Gate.rmutex b25

/-- `AcquireShared2`, first reader: about to acquire the resource semaphore. -/
def b23 : Prog := Prog.acq Gate.resource b24

/-- `AcquireShared2`, holding order and rmutex: about to increment
`m_readcount`. -/
def b22 : Prog := Prog.incReadBr b23 b24

/-- `AcquireShared2`, holding order: about to acquire rmutex. -/
def b21 : Prog := Prog.acq Gate.rmutex b22

/-- Start of a WritersPriority reader session. -/
def b20 : Prog := Prog.acq Gate.order b21

/-- `ReleaseExclusive2`: about to release wmutex and finish. -/
def v10 : Prog := Prog.rel Gate.wmutex Prog.done

/-- `ReleaseExclusive2`, the writer count reached 0: about to release the
order semaphore. -/
def v9 : Prog := Prog.rel Gate.order v10

/-- `ReleaseExclusive2`, holding wmutex: about to decrement `m_writecount`. -/
def v8 : Prog := Prog.decWriteBr v9 v10

/-- `ReleaseExclusive2` after releasing the resource: about to acquire
wmutex. -/
def v7 : Prog := Prog.acq Gate.wmutex v8

/-- About to call `ReleaseExclusive2`, i.e. release the resource semaphore. -/
def v6 : Prog := Prog.rel Gate.resource v7

/-- A WritersPriority writer inside its critical section. -/
def csW2 : Prog := Prog.cs v6

/-- `AcquireExclusive2` after releasing wmutex: about to acquire the resource
semaphore. -/
def v4 : Prog := Prog.acq Gate.resource csW2

/-- `AcquireExclusive2` after the order branch: about to release wmutex. -/
def v3 : Prog := Prog.rel Gate.wmutex v4

/-- `AcquireExclusive2`, first writer: about to acquire the order semaphore. -/
def v2 : Prog := Prog.acq Gate.order v3

/-- `AcquireExclusive2`, holding wmutex: about to increment `m_writecount`. -/
def v1 : Prog := Prog.incWriteBr v2 v3

/-- Start of a WritersPriority writer session. -/
def v0 : Prog := Prog.acq Gate.wmutex v1

/-- All thread locations of a WritersPriority run. -/
def locs2 : List Prog :=
  [b20, b21, b22, b23, b24, b25, csR, rsProg, decR, relRes, relRm,
   v0, v1, v2, v3, v4, csW2, v6, v7, v8, v9, v10, Prog.done]

/-- `AcquireShared3` after the resource branch: about to release the order
semaphore (before rmutex — the FairOrder peculiarity). -/
def c34 : Prog := Prog.rel Gate.order relRmCs

/-- `AcquireShared3`, first reader: about to acquire the resource semaphore. -/
def c33 : Prog := Prog.acq Gate.resource c34

/-- `AcquireShared3`, holding order and rmutex: about to increment
`m_readcount`. -/
def c32 : Prog := Prog.incReadBr c33 c34

/-- `AcquireShared3`, holding order: about to acquire rmutex. -/
def c31 : Prog := Prog.acq Gate.rmutex c32

/-- Start of a FairOrder reader session. -/
def c30 : Prog := Prog.acq Gate.order c31

/-- `AcquireExclusive3` after acquiring the resource: about to release the
order semaphore and start writing. -/
def x2 : Prog := Prog.rel Gate.order csW

/-- `AcquireExclusive3`, holding order: about to acquire the resource
semaphore. -/
def x1 : Prog := Prog.acq Gate.resource x2

/-- Start of a FairOrder writer session. -/
def x0 : Prog := Prog.acq Gate.order x1

/-- All thread locations of a FairOrder run. -/
def locs3 : List Prog :=
  [c30, c31, c32, c33, c34, relRmCs, csR, rsProg, decR, relRes, relRm,
   x0, x1, x2, csW, relE, Prog.done]

/-- The numeric invariant of a WritersPriority run: rmutex and wmutex are held
exactly by the threads between their acquire and release; the two counters
count the threads between increment and decrement; the order semaphore is
unavailable exactly while a reader holds it individually or the writer block
(first writer acquired it, last will release it) holds it; the resource
semaphore is unavailable exactly while a writer holds it or a reader session
is open; a thread about to release the resource in `ReleaseShared` saw the
reader count reach zero; a thread about to release order in
`ReleaseExclusive2` saw the writer count reach zero. -/
def Num2 (s : RWLock) (ts : Multiset Prog) : Prop :=
  s.m_rmutex +
    (Multiset.count b22 ts + Multiset.count b23 ts + Multiset.count b24 ts +
     Multiset.count decR ts + Multiset.count relRes ts + Multiset.count relRm ts) = 1 ∧
  s.m_wmutex +
    (Multiset.count v1 ts + Multiset.count v2 ts + Multiset.count v3 ts +
     Multiset.count v8 ts + Multiset.count v9 ts + Multiset.count v10 ts) = 1 ∧
  s.m_readcount =
    ((Multiset.count b23 ts + Multiset.count b24 ts + Multiset.count b25 ts +
      Multiset.count csR ts + Multiset.count rsProg ts + Multiset.count decR ts : Nat) : Int) ∧
  s.m_writecount =
    ((Multiset.count v2 ts + Multiset.count v3 ts + Multiset.count v4 ts +
      Multiset.count csW2 ts + Multiset.count v6 ts + Multiset.count v7 ts +
      Multiset.count v8 ts : Nat) : Int) ∧
  s.m_order +
    (Multiset.count b21 ts + Multiset.count b22 ts + Multiset.count b23 ts +
     Multiset.count b24 ts + Multiset.count b25 ts) ≤ 1 ∧
  (s.m_order +
    (Multiset.count b21 ts + Multiset.count b22 ts + Multiset.count b23 ts +
     Multiset.count b24 ts + Multiset.count b25 ts) = 1 ↔
    Multiset.count v3 ts + Multiset.count v4 ts + Multiset.count csW2 ts +
    Multiset.count v6 ts + Multiset.count v7 ts + Multiset.count v8 ts +
    Multiset.count v9 ts = 0) ∧
  s.m_resource + (Multiset.count csW2 ts + Multiset.count v6 ts) ≤ 1 ∧
  (s.m_resource + (Multiset.count csW2 ts + Multiset.count v6 ts) = 1 ↔
    Multiset.count b24 ts + Multiset.count b25 ts + Multiset.count csR ts +
    Multiset.count rsProg ts + Multiset.count decR ts + Multiset.count relRes ts = 0) ∧
  (1 ≤ Multiset.count relRes ts →
    Multiset.count b23 ts + Multiset.count b24 ts + Multiset.count b25 ts +
    Multiset.count csR ts + Multiset.count rsProg ts + Multiset.count decR ts = 0) ∧
  (1 ≤ Multiset.count v9 ts →
    Multiset.count v2 ts + Multiset.count v3 ts + Multiset.count v4 ts +
    Multiset.count csW2 ts + Multiset.count v6 ts + Multiset.count v7 ts +
    Multiset.count v8 ts = 0)

/-- The numeric invariant of a FairOrder run: rmutex is held exactly by the
threads between its acquire and release; the order semaphore is held
individually by each entering reader or writer between its acquire and
release; `m_readcount` counts the threads between increment and decrement;
the resource semaphore is unavailable exactly while a writer holds it or a
reader session is open; a thread about to release the resource in
`ReleaseShared` saw the count reach zero; wmutex and `m_writecount` are never
touched. -/
def Num3 (s : RWLock) (ts : Multiset Prog) : Prop :=
  s.m_rmutex +
    (Multiset.count c32 ts + Multiset.count c33 ts + Multiset.count c34 ts +
     Multiset.count relRmCs ts + Multiset.count decR ts + Multiset.count relRes ts +
     Multiset.count relRm ts) = 1 ∧
  s.m_order +
    (Multiset.count c31 ts + Multiset.count c32 ts + Multiset.count c33 ts +
     Multiset.count c34 ts + Multiset.count x1 ts + Multiset.count x2 ts) = 1 ∧
  s.m_readcount =
    ((Multiset.count c33 ts + Multiset.count c34 ts + Multiset.count relRmCs ts +
      Multiset.count csR ts + Multiset.count rsProg ts + Multiset.count decR ts : Nat) : Int) ∧
  s.m_resource +
    (Multiset.count x2 ts + Multiset.count csW ts + Multiset.count relE ts) ≤ 1 ∧
  (s.m_resource +
    (Multiset.count x2 ts + Multiset.count csW ts + Multiset.count relE ts) = 1 ↔
    Multiset.count c34 ts + Multiset.count relRmCs ts + Multiset.count csR ts +
    Multiset.count rsProg ts + Multiset.count decR ts + Multiset.count relRes ts = 0) ∧
  (1 ≤ Multiset.count relRes ts →
    Multiset.count c33 ts + Multiset.count c34 ts + Multiset.count relRmCs ts +
    Multiset.count csR ts + Multiset.count rsProg ts + Multiset.count decR ts = 0) ∧
  s.m_wmutex = 1 ∧ s.m_writecount = 0



/-- Inversion: the only step from an acquire statement fires when the
semaphore is available and decrements it. -/
theorem tstep_acq {s s' : RWLock} {g : Gate} {k t' : Prog}
    (h : TStep s (Prog.acq g k) s' t') :
    t' = k ∧ 0 < s.gate g ∧ s' = s.setGate g (s.gate g - 1) := by
  cases h with
  | acq _ _ a htry =>
      rw [Semaphore.tryAcquire_eq_some] at htry
      exact ⟨rfl, htry.1, by rw [htry.2]⟩

/-- Inversion: a release statement increments the semaphore. -/
theorem tstep_rel {s s' : RWLock} {g : Gate} {k t' : Prog}
    (h : TStep s (Prog.rel g k) s' t') :
    t' = k ∧ s' = s.setGate g (s.gate g + 1) := by
  cases h with
  | rel _ _ => exact ⟨rfl, rfl⟩

/-- Inversion of `if (++m_readcount == 1)`. -/
theorem tstep_incRead {s s' : RWLock} {k₁ k₂ t' : Prog}
    (h : TStep s (Prog.incReadBr k₁ k₂) s' t') :
    s' = { s with m_readcount := s.m_readcount + 1 } ∧
      ((s.m_readcount + 1 = 1 ∧ t' = k₁) ∨ (s.m_readcount + 1 ≠ 1 ∧ t' = k₂)) := by
  cases h with
  | incRead_eq _ _ hc => exact ⟨rfl, Or.inl ⟨hc, rfl⟩⟩
  | incRead_ne _ _ hc => exact ⟨rfl, Or.inr ⟨hc, rfl⟩⟩

/-- Inversion of `if (--m_readcount == 0)`. -/
theorem tstep_decRead {s s' : RWLock} {k₁ k₂ t' : Prog}
    (h : TStep s (Prog.decReadBr k₁ k₂) s' t') :
    s' = { s with m_readcount := s.m_readcount - 1 } ∧
      ((s.m_readcount - 1 = 0 ∧ t' = k₁) ∨ (s.m_readcount - 1 ≠ 0 ∧ t' = k₂)) := by
  cases h with
  | decRead_eq _ _ hc => exact ⟨rfl, Or.inl ⟨hc, rfl⟩⟩
  | decRead_ne _ _ hc => exact ⟨rfl, Or.inr ⟨hc, rfl⟩⟩

/-- Inversion of `if (++m_writecount == 1)`. -/
theorem tstep_incWrite {s s' : RWLock} {k₁ k₂ t' : Prog}
    (h : TStep s (Prog.incWriteBr k₁ k₂) s' t') :
    s' = { s with m_writecount := s.m_writecount + 1 } ∧
      ((s.m_writecount + 1 = 1 ∧ t' = k₁) ∨ (s.m_writecount + 1 ≠ 1 ∧ t' = k₂)) := by
  cases h with
  | incWrite_eq _ _ hc => exact ⟨rfl, Or.inl ⟨hc, rfl⟩⟩
  | incWrite_ne _ _ hc => exact ⟨rfl, Or.inr ⟨hc, rfl⟩⟩

/-- Inversion of `if (--m_writecount == 0)`. -/
theorem tstep_decWrite {s s' : RWLock} {k₁ k₂ t' : Prog}
    (h : TStep s (Prog.decWriteBr k₁ k₂) s' t') :
    s' = { s with m_writecount := s.m_writecount - 1 } ∧
      ((s.m_writecount - 1 = 0 ∧ t' = k₁) ∨ (s.m_writecount - 1 ≠ 0 ∧ t' = k₂)) := by
  cases h with
  | decWrite_eq _ _ hc => exact ⟨rfl, Or.inl ⟨hc, rfl⟩⟩
  | decWrite_ne _ _ hc => exact ⟨rfl, Or.inr ⟨hc, rfl⟩⟩

/-- Inversion: leaving the critical section changes no lock state. -/
theorem tstep_cs {s s' : RWLock} {k t' : Prog}
    (h : TStep s (Prog.cs k) s' t') : s' = s ∧ t' = k := by
  cases h with
  | leaveCS _ => exact ⟨rfl, rfl⟩

/-- Inversion: a finished thread takes no step. -/
theorem tstep_done {s s' : RWLock} {t' : Prog}
    (h : TStep s Prog.done s' t') : False := by
  cases h

/-! Count bookkeeping lemmas: how each location count changes when one
thread at a given location is replaced.  Generated mechanically; each is an
instance of `Multiset.count_cons_self` or `Multiset.count_cons_of_ne`. -/

theorem cc_a11_a10 (r : Multiset Prog) : Multiset.count a11 (a10 ::ₘ r) = Multiset.count a11 r := Multiset.count_cons_of_ne (by decide) r

theorem cc_a11_a11 (r : Multiset Prog) : Multiset.count a11 (a11 ::ₘ r) = Multiset.count a11 r + 1 := Multiset.count_cons_self a11 r

theorem cc_a11_a12 (r : Multiset Prog) : Multiset.count a11 (a12 ::ₘ r) = Multiset.count a11 r := Multiset.count_cons_of_ne (by decide) r

theorem cc_a11_relRmCs (r : Multiset Prog) : Multiset.count a11 (relRmCs ::ₘ r) = Multiset.count a11 r := Multiset.count_cons_of_ne (by decide) r

theorem cc_a11_csR (r : Multiset Prog) : Multiset.count a11 (csR ::ₘ r) = Multiset.count a11 r := Multiset.count_cons_of_ne (by decide) r

theorem cc_a11_rsProg (r : Multiset Prog) : Multiset.count a11 (rsProg ::ₘ r) = Multiset.count a11 r := Multiset.count_cons_of_ne (by decide) r

theorem cc_a11_decR (r : Multiset Prog) : Multiset.count a11 (decR ::ₘ r) = Multiset.count a11 r := Multiset.count_cons_of_ne (by decide) r

theorem cc_a11_relRes (r : Multiset Prog) : Multiset.count a11 (relRes ::ₘ r) = Multiset.count a11 r := Multiset.count_cons_of_ne (by decide) r

theorem cc_a11_relRm (r : Multiset Prog) : Multiset.count a11 (relRm ::ₘ r) = Multiset.count a11 r := Multiset.count_cons_of_ne (by decide) r

theorem cc_a11_w10 (r : Multiset Prog) : Multiset.count a11 (w10 ::ₘ r) = Multiset.count a11 r := Multiset.count_cons_of_ne (by decide) r

theorem cc_a11_csW (r : Multiset Prog) : Multiset.count a11 (csW ::ₘ r) = Multiset.count a11 r := Multiset.count_cons_of_ne (by decide) r

theorem cc_a11_relE (r : Multiset Prog) : Multiset.count a11 (relE ::ₘ r) = Multiset.count a11 r := Multiset.count_cons_of_ne (by decide) r

theorem cc_a11_pdone (r : Multiset Prog) : Multiset.count a11 (Prog.done ::ₘ r) = Multiset.count a11 r := Multiset.count_cons_of_ne (by decide) r

theorem cc_a12_a10 (r : Multiset Prog) : Multiset.count a12 (a10 ::ₘ r) = Multiset.count a12 r := Multiset.count_cons_of_ne (by decide) r

theorem cc_a12_a11 (r : Multiset Prog) : Multiset.count a12 (a11 ::ₘ r) = Multiset.count a12 r := Multiset.count_cons_of_ne (by decide) r

theorem cc_a12_a12 (r : Multiset Prog) : Multiset.count a12 (a12 ::ₘ r) = Multiset.count a12 r + 1 := Multiset.count_cons_self a12 r

theorem cc_a12_relRmCs (r : Multiset Prog) : Multiset.count a12 (relRmCs ::ₘ r) = Multiset.count a12 r := Multiset.count_cons_of_ne (by decide) r

theorem cc_a12_csR (r : Multiset Prog) : Multiset.count a12 (csR ::ₘ r) = Multiset.count a12 r := Multiset.count_cons_of_ne (by decide) r

theorem cc_a12_rsProg (r : Multiset Prog) : Multiset.count a12 (rsProg ::ₘ r) = Multiset.count a12 r := Multiset.count_cons_of_ne (by decide) r

theorem cc_a12_decR (r : Multiset Prog) : Multiset.count a12 (decR ::ₘ r) = Multiset.count a12 r := Multiset.count_cons_of_ne (by decide) r

theorem cc_a12_relRes (r : Multiset Prog) : Multiset.count a12 (relRes ::ₘ r) = Multiset.count a12 r := Multiset.count_cons_of_ne (by decide) r

theorem cc_a12_relRm (r : Multiset Prog) : Multiset.count a12 (relRm ::ₘ r) = Multiset.count a12 r := Multiset.count_cons_of_ne (by decide) r

theorem cc_a12_w10 (r : Multiset Prog) : Multiset.count a12 (w10 ::ₘ r) = Multiset.count a12 r := Multiset.count_cons_of_ne (by decide) r

theorem cc_a12_csW (r : Multiset Prog) : Multiset.count a12 (csW ::ₘ r) = Multiset.count a12 r := Multiset.count_cons_of_ne (by decide) r

theorem cc_a12_relE (r : Multiset Prog) : Multiset.count a12 (relE ::ₘ r) = Multiset.count a12 r := Multiset.count_cons_of_ne (by decide) r

theorem cc_a12_pdone (r : Multiset Prog) : Multiset.count a12 (Prog.done ::ₘ r) = Multiset.count a12 r := Multiset.count_cons_of_ne (by decide) r

theorem cc_relRmCs_a10 (r : Multiset Prog) : Multiset.count relRmCs (a10 ::ₘ r) = Multiset.count relRmCs r := Multiset.count_cons_of_ne (by decide) r

theorem cc_relRmCs_a11 (r : Multiset Prog) : Multiset.count relRmCs (a11 ::ₘ r) = Multiset.count relRmCs r := Multiset.count_cons_of_ne (by decide) r

theorem cc_relRmCs_a12 (r : Multiset Prog) : Multiset.count relRmCs (a12 ::ₘ r) = Multiset.count relRmCs r := Multiset.count_cons_of_ne (by decide) r

theorem cc_relRmCs_relRmCs (r : Multiset Prog) : Multiset.count relRmCs (relRmCs ::ₘ r) = Multiset.count relRmCs r + 1 := Multiset.count_cons_self relRmCs r

theorem cc_relRmCs_csR (r : Multiset Prog) : Multiset.count relRmCs (csR ::ₘ r) = Multiset.count relRmCs r := Multiset.count_cons_of_ne (by decide) r

theorem cc_relRmCs_rsProg (r : Multiset Prog) : Multiset.count relRmCs (rsProg ::ₘ r) = Multiset.count relRmCs r := Multiset.count_cons_of_ne (by decide) r

theorem cc_relRmCs_decR (r : Multiset Prog) : Multiset.count relRmCs (decR ::ₘ r) = Multiset.count relRmCs r := Multiset.count_cons_of_ne (by decide) r

theorem cc_relRmCs_relRes (r : Multiset Prog) : Multiset.count relRmCs (relRes ::ₘ r) = Multiset.count relRmCs r := Multiset.count_cons_of_ne (by decide) r

theorem cc_relRmCs_relRm (r : Multiset Prog) : Multiset.count relRmCs (relRm ::ₘ r) = Multiset.count relRmCs r := Multiset.count_cons_of_ne (by decide) r

theorem cc_relRmCs_w10 (r : Multiset Prog) : Multiset.count relRmCs (w10 ::ₘ r) = Multiset.count relRmCs r := Multiset.count_cons_of_ne (by decide) r

theorem cc_relRmCs_csW (r : Multiset Prog) : Multiset.count relRmCs (csW ::ₘ r) = Multiset.count relRmCs r := Multiset.count_cons_of_ne (by decide) r

theorem cc_relRmCs_relE (r : Multiset Prog) : Multiset.count relRmCs (relE ::ₘ r) = Multiset.count relRmCs r := Multiset.count_cons_of_ne (by decide) r

theorem cc_relRmCs_pdone (r : Multiset Prog) : Multiset.count relRmCs (Prog.done ::ₘ r) = Multiset.count relRmCs r := Multiset.count_cons_of_ne (by decide) r

theorem cc_csR_a10 (r : Multiset Prog) : Multiset.count csR (a10 ::ₘ r) = Multiset.count csR r := Multiset.count_cons_of_ne (by decide) r

theorem cc_csR_a11 (r : Multiset Prog) : Multiset.count csR (a11 ::ₘ r) = Multiset.count csR r := Multiset.count_cons_of_ne (by decide) r

theorem cc_csR_a12 (r : Multiset Prog) : Multiset.count csR (a12 ::ₘ r) = Multiset.count csR r := Multiset.count_cons_of_ne (by decide) r

theorem cc_csR_relRmCs (r : Multiset Prog) : Multiset.count csR (relRmCs ::ₘ r) = Multiset.count csR r := Multiset.count_cons_of_ne (by decide) r

theorem cc_csR_csR (r : Multiset Prog) : Multiset.count csR (csR ::ₘ r) = Multiset.count csR r + 1 := Multiset.count_cons_self csR r

theorem cc_csR_rsProg (r : Multiset Prog) : Multiset.count csR (rsProg ::ₘ r) = Multiset.count csR r := Multiset.count_cons_of_ne (by decide) r

theorem cc_csR_decR (r : Multiset Prog) : Multiset.count csR (decR ::ₘ r) = Multiset.count csR r := Multiset.count_cons_of_ne (by decide) r

theorem cc_csR_relRes (r : Multiset Prog) : Multiset.count csR (relRes ::ₘ r) = Multiset.count csR r := Multiset.count_cons_of_ne (by decide) r

theorem cc_csR_relRm (r : Multiset Prog) : Multiset.count csR (relRm ::ₘ r) = Multiset.count csR r := Multiset.count_cons_of_ne (by decide) r

theorem cc_csR_w10 (r : Multiset Prog) : Multiset.count csR (w10 ::ₘ r) = Multiset.count csR r := Multiset.count_cons_of_ne (by decide) r

theorem cc_csR_csW (r : Multiset Prog) : Multiset.count csR (csW ::ₘ r) = Multiset.count csR r := Multiset.count_cons_of_ne (by decide) r

theorem cc_csR_relE (r : Multiset Prog) : Multiset.count csR (relE ::ₘ r) = Multiset.count csR r := Multiset.count_cons_of_ne (by decide) r

theorem cc_csR_pdone (r : Multiset Prog) : Multiset.count csR (Prog.done ::ₘ r) = Multiset.count csR r := Multiset.count_cons_of_ne (by decide) r

theorem cc_rsProg_a10 (r : Multiset Prog) : Multiset.count rsProg (a10 ::ₘ r) = Multiset.count rsProg r := Multiset.count_cons_of_ne (by decide) r

theorem cc_rsProg_a11 (r : Multiset Prog) : Multiset.count rsProg (a11 ::ₘ r) = Multiset.count rsProg r := Multiset.count_cons_of_ne (by decide) r

theorem cc_rsProg_a12 (r : Multiset Prog) : Multiset.count rsProg (a12 ::ₘ r) = Multiset.count rsProg r := Multiset.count_cons_of_ne (by decide) r

theorem cc_rsProg_relRmCs (r : Multiset Prog) : Multiset.count rsProg (relRmCs ::ₘ r) = Multiset.count rsProg r := Multiset.count_cons_of_ne (by decide) r

theorem cc_rsProg_csR (r : Multiset Prog) : Multiset.count rsProg (csR ::ₘ r) = Multiset.count rsProg r := Multiset.count_cons_of_ne (by decide) r

theorem cc_rsProg_rsProg (r : Multiset Prog) : Multiset.count rsProg (rsProg ::ₘ r) = Multiset.count rsProg r + 1 := Multiset.count_cons_self rsProg r

theorem cc_rsProg_decR (r : Multiset Prog) : Multiset.count rsProg (decR ::ₘ r) = Multiset.count rsProg r := Multiset.count_cons_of_ne (by decide) r

theorem cc_rsProg_relRes (r : Multiset Prog) : Multiset.count rsProg (relRes ::ₘ r) = Multiset.count rsProg r := Multiset.count_cons_of_ne (by decide) r

theorem cc_rsProg_relRm (r : Multiset Prog) : Multiset.count rsProg (relRm ::ₘ r) = Multiset.count rsProg r := Multiset.count_cons_of_ne (by decide) r

theorem cc_rsProg_w10 (r : Multiset Prog) : Multiset.count rsProg (w10 ::ₘ r) = Multiset.count rsProg r := Multiset.count_cons_of_ne (by decide) r

theorem cc_rsProg_csW (r : Multiset Prog) : Multiset.count rsProg (csW ::ₘ r) = Multiset.count rsProg r := Multiset.count_cons_of_ne (by decide) r

theorem cc_rsProg_relE (r : Multiset Prog) : Multiset.count rsProg (relE ::ₘ r) = Multiset.count rsProg r := Multiset.count_cons_of_ne (by decide) r

theorem cc_rsProg_pdone (r : Multiset Prog) : Multiset.count rsProg (Prog.done ::ₘ r) = Multiset.count rsProg r := Multiset.count_cons_of_ne (by decide) r

theorem cc_decR_a10 (r : Multiset Prog) : Multiset.count decR (a10 ::ₘ r) = Multiset.count decR r := Multiset.count_cons_of_ne (by decide) r

theorem cc_decR_a11 (r : Multiset Prog) : Multiset.count decR (a11 ::ₘ r) = Multiset.count decR r := Multiset.count_cons_of_ne (by decide) r

theorem cc_decR_a12 (r : Multiset Prog) : Multiset.count decR (a12 ::ₘ r) = Multiset.count decR r := Multiset.count_cons_of_ne (by decide) r

theorem cc_decR_relRmCs (r : Multiset Prog) : Multiset.count decR (relRmCs ::ₘ r) = Multiset.count decR r := Multiset.count_cons_of_ne (by decide) r

theorem cc_decR_csR (r : Multiset Prog) : Multiset.count decR (csR ::ₘ r) = Multiset.count decR r := Multiset.count_cons_of_ne (by decide) r

theorem cc_decR_rsProg (r : Multiset Prog) : Multiset.count decR (rsProg ::ₘ r) = Multiset.count decR r := Multiset.count_cons_of_ne (by decide) r

theorem cc_decR_decR (r : Multiset Prog) : Multiset.count decR (decR ::ₘ r) = Multiset.count decR r + 1 := Multiset.count_cons_self decR r

theorem cc_decR_relRes (r : Multiset Prog) : Multiset.count decR (relRes ::ₘ r) = Multiset.count decR r := Multiset.count_cons_of_ne (by decide) r

theorem cc_decR_relRm (r : Multiset Prog) : Multiset.count decR (relRm ::ₘ r) = Multiset.count decR r := Multiset.count_cons_of_ne (by decide) r

theorem cc_decR_w10 (r : Multiset Prog) : Multiset.count decR (w10 ::ₘ r) = Multiset.count decR r := Multiset.count_cons_of_ne (by decide) r

theorem cc_decR_csW (r : Multiset Prog) : Multiset.count decR (csW ::ₘ r) = Multiset.count decR r := Multiset.count_cons_of_ne (by decide) r

theorem cc_decR_relE (r : Multiset Prog) : Multiset.count decR (relE ::ₘ r) = Multiset.count decR r := Multiset.count_cons_of_ne (by decide) r

theorem cc_decR_pdone (r : Multiset Prog) : Multiset.count decR (Prog.done ::ₘ r) = Multiset.count decR r := Multiset.count_cons_of_ne (by decide) r

theorem cc_relRes_a10 (r : Multiset Prog) : Multiset.count relRes (a10 ::ₘ r) = Multiset.count relRes r := Multiset.count_cons_of_ne (by decide) r

theorem cc_relRes_a11 (r : Multiset Prog) : Multiset.count relRes (a11 ::ₘ r) = Multiset.count relRes r := Multiset.count_cons_of_ne (by decide) r

theorem cc_relRes_a12 (r : Multiset Prog) : Multiset.count relRes (a12 ::ₘ r) = Multiset.count relRes r := Multiset.count_cons_of_ne (by decide) r

theorem cc_relRes_relRmCs (r : Multiset Prog) : Multiset.count relRes (relRmCs ::ₘ r) = Multiset.count relRes r := Multiset.count_cons_of_ne (by decide) r

theorem cc_relRes_csR (r : Multiset Prog) : Multiset.count relRes (csR ::ₘ r) = Multiset.count relRes r := Multiset.count_cons_of_ne (by decide) r

theorem cc_relRes_rsProg (r : Multiset Prog) : Multiset.count relRes (rsProg ::ₘ r) = Multiset.count relRes r := Multiset.count_cons_of_ne (by decide) r

theorem cc_relRes_decR (r : Multiset Prog) : Multiset.count relRes (decR ::ₘ r) = Multiset.count relRes r := Multiset.count_cons_of_ne (by decide) r

theorem cc_relRes_relRes (r : Multiset Prog) : Multiset.count relRes (relRes ::ₘ r) = Multiset.count relRes r + 1 := Multiset.count_cons_self relRes r

theorem cc_relRes_relRm (r : Multiset Prog) : Multiset.count relRes (relRm ::ₘ r) = Multiset.count relRes r := Multiset.count_cons_of_ne (by decide) r

theorem cc_relRes_w10 (r : Multiset Prog) : Multiset.count relRes (w10 ::ₘ r) = Multiset.count relRes r := Multiset.count_cons_of_ne (by decide) r

theorem cc_relRes_csW (r : Multiset Prog) : Multiset.count relRes (csW ::ₘ r) = Multiset.count relRes r := Multiset.count_cons_of_ne (by decide) r

theorem cc_relRes_relE (r : Multiset Prog) : Multiset.count relRes (relE ::ₘ r) = Multiset.count relRes r := Multiset.count_cons_of_ne (by decide) r

theorem cc_relRes_pdone (r : Multiset Prog) : Multiset.count relRes (Prog.done ::ₘ r) = Multiset.count relRes r := Multiset.count_cons_of_ne (by decide) r

theorem cc_relRm_a10 (r : Multiset Prog) : Multiset.count relRm (a10 ::ₘ r) = Multiset.count relRm r := Multiset.count_cons_of_ne (by decide) r

theorem cc_relRm_a11 (r : Multiset Prog) : Multiset.count relRm (a11 ::ₘ r) = Multiset.count relRm r := Multiset.count_cons_of_ne (by decide) r

theorem cc_relRm_a12 (r : Multiset Prog) : Multiset.count relRm (a12 ::ₘ r) = Multiset.count relRm r := Multiset.count_cons_of_ne (by decide) r

theorem cc_relRm_relRmCs (r : Multiset Prog) : Multiset.count relRm (relRmCs ::ₘ r) = Multiset.count relRm r := Multiset.count_cons_of_ne (by decide) r

theorem cc_relRm_csR (r : Multiset Prog) : Multiset.count relRm (csR ::ₘ r) = Multiset.count relRm r := Multiset.count_cons_of_ne (by decide) r

theorem cc_relRm_rsProg (r : Multiset Prog) : Multiset.count relRm (rsProg ::ₘ r) = Multiset.count relRm r := Multiset.count_cons_of_ne (by decide) r

theorem cc_relRm_decR (r : Multiset Prog) : Multiset.count relRm (decR ::ₘ r) = Multiset.count relRm r := Multiset.count_cons_of_ne (by decide) r

theorem cc_relRm_relRes (r : Multiset Prog) : Multiset.count relRm (relRes ::ₘ r) = Multiset.count relRm r := Multiset.count_cons_of_ne (by decide) r

theorem cc_relRm_relRm (r : Multiset Prog) : Multiset.count relRm (relRm ::ₘ r) = Multiset.count relRm r + 1 := Multiset.count_cons_self relRm r

theorem cc_relRm_w10 (r : Multiset Prog) : Multiset.count relRm (w10 ::ₘ r) = Multiset.count relRm r := Multiset.count_cons_of_ne (by decide) r

theorem cc_relRm_csW (r : Multiset Prog) : Multiset.count relRm (csW ::ₘ r) = Multiset.count relRm r := Multiset.count_cons_of_ne (by decide) r

theorem cc_relRm_relE (r : Multiset Prog) : Multiset.count relRm (relE ::ₘ r) = Multiset.count relRm r := Multiset.count_cons_of_ne (by decide) r

theorem cc_relRm_pdone (r : Multiset Prog) : Multiset.count relRm (Prog.done ::ₘ r) = Multiset.count relRm r := Multiset.count_cons_of_ne (by decide) r

theorem cc_csW_a10 (r : Multiset Prog) : Multiset.count csW (a10 ::ₘ r) = Multiset.count csW r := Multiset.count_cons_of_ne (by decide) r

theorem cc_csW_a11 (r : Multiset Prog) : Multiset.count csW (a11 ::ₘ r) = Multiset.count csW r := Multiset.count_cons_of_ne (by decide) r

theorem cc_csW_a12 (r : Multiset Prog) : Multiset.count csW (a12 ::ₘ r) = Multiset.count csW r := Multiset.count_cons_of_ne (by decide) r

theorem cc_csW_relRmCs (r : Multiset Prog) : Multiset.count csW (relRmCs ::ₘ r) = Multiset.count csW r := Multiset.count_cons_of_ne (by decide) r

theorem cc_csW_csR (r : Multiset Prog) : Multiset.count csW (csR ::ₘ r) = Multiset.count csW r := Multiset.count_cons_of_ne (by decide) r

theorem cc_csW_rsProg (r : Multiset Prog) : Multiset.count csW (rsProg ::ₘ r) = Multiset.count csW r := Multiset.count_cons_of_ne (by decide) r

theorem cc_csW_decR (r : Multiset Prog) : Multiset.count csW (decR ::ₘ r) = Multiset.count csW r := Multiset.count_cons_of_ne (by decide) r

theorem cc_csW_relRes (r : Multiset Prog) : Multiset.count csW (relRes ::ₘ r) = Multiset.count csW r := Multiset.count_cons_of_ne (by decide) r

theorem cc_csW_relRm (r : Multiset Prog) : Multiset.count csW (relRm ::ₘ r) = Multiset.count csW r := Multiset.count_cons_of_ne (by decide) r

theorem cc_csW_w10 (r : Multiset Prog) : Multiset.count csW (w10 ::ₘ r) = Multiset.count csW r := Multiset.count_cons_of_ne (by decide) r

theorem cc_csW_csW (r : Multiset Prog) : Multiset.count csW (csW ::ₘ r) = Multiset.count csW r + 1 := Multiset.count_cons_self csW r

theorem cc_csW_relE (r : Multiset Prog) : Multiset.count csW (relE ::ₘ r) = Multiset.count csW r := Multiset.count_cons_of_ne (by decide) r

theorem cc_csW_pdone (r : Multiset Prog) : Multiset.count csW (Prog.done ::ₘ r) = Multiset.count csW r := Multiset.count_cons_of_ne (by decide) r

theorem cc_relE_a10 (r : Multiset Prog) : Multiset.count relE (a10 ::ₘ r) = Multiset.count relE r := Multiset.count_cons_of_ne (by decide) r

theorem cc_relE_a11 (r : Multiset Prog) : Multiset.count relE (a11 ::ₘ r) = Multiset.count relE r := Multiset.count_cons_of_ne (by decide) r

theorem cc_relE_a12 (r : Multiset Prog) : Multiset.count relE (a12 ::ₘ r) = Multiset.count relE r := Multiset.count_cons_of_ne (by decide) r

theorem cc_relE_relRmCs (r : Multiset Prog) : Multiset.count relE (relRmCs ::ₘ r) = Multiset.count relE r := Multiset.count_cons_of_ne (by decide) r

theorem cc_relE_csR (r : Multiset Prog) : Multiset.count relE (csR ::ₘ r) = Multiset.count relE r := Multiset.count_cons_of_ne (by decide) r

theorem cc_relE_rsProg (r : Multiset Prog) : Multiset.count relE (rsProg ::ₘ r) = Multiset.count relE r := Multiset.count_cons_of_ne (by decide) r

theorem cc_relE_decR (r : Multiset Prog) : Multiset.count relE (decR ::ₘ r) = Multiset.count relE r := Multiset.count_cons_of_ne (by decide) r

theorem cc_relE_relRes (r : Multiset Prog) : Multiset.count relE (relRes ::ₘ r) = Multiset.count relE r := Multiset.count_cons_of_ne (by decide) r

theorem cc_relE_relRm (r : Multiset Prog) : Multiset.count relE (relRm ::ₘ r) = Multiset.count relE r := Multiset.count_cons_of_ne (by decide) r

theorem cc_relE_w10 (r : Multiset Prog) : Multiset.count relE (w10 ::ₘ r) = Multiset.count relE r := Multiset.count_cons_of_ne (by decide) r

theorem cc_relE_csW (r : Multiset Prog) : Multiset.count relE (csW ::ₘ r) = Multiset.count relE r := Multiset.count_cons_of_ne (by decide) r

theorem cc_relE_relE (r : Multiset Prog) : Multiset.count relE (relE ::ₘ r) = Multiset.count relE r + 1 := Multiset.count_cons_self relE r

theorem cc_relE_pdone (r : Multiset Prog) : Multiset.count relE (Prog.done ::ₘ r) = Multiset.count relE r := Multiset.count_cons_of_ne (by decide) r

theorem cc_b21_b20 (r : Multiset Prog) : Multiset.count b21 (b20 ::ₘ r) = Multiset.count b21 r := Multiset.count_cons_of_ne (by decide) r

theorem cc_b21_b21 (r : Multiset Prog) : Multiset.count b21 (b21 ::ₘ r) = Multiset.count b21 r + 1 := Multiset.count_cons_self b21 r

theorem cc_b21_b22 (r : Multiset Prog) : Multiset.count b21 (b22 ::ₘ r) = Multiset.count b21 r := Multiset.count_cons_of_ne (by decide) r

theorem cc_b21_b23 (r : Multiset Prog) : Multiset.count b21 (b23 ::ₘ r) = Multiset.count b21 r := Multiset.count_cons_of_ne (by decide) r

theorem cc_b21_b24 (r : Multiset Prog) : Multiset.count b21 (b24 ::ₘ r) = Multiset.count b21 r := Multiset.count_cons_of_ne (by decide) r

theorem cc_b21_b25 (r : Multiset Prog) : Multiset.count b21 (b25 ::ₘ r) = Multiset.count b21 r := Multiset.count_cons_of_ne (by decide) r

theorem cc_b21_csR (r : Multiset Prog) : Multiset.count b21 (csR ::ₘ r) = Multiset.count b21 r := Multiset.count_cons_of_ne (by decide) r

theorem cc_b21_rsProg (r : Multiset Prog) : Multiset.count b21 (rsProg ::ₘ r) = Multiset.count b21 r := Multiset.count_cons_of_ne (by decide) r

theorem cc_b21_decR (r : Multiset Prog) : Multiset.count b21 (decR ::ₘ r) = Multiset.count b21 r := Multiset.count_cons_of_ne (by decide) r

theorem cc_b21_relRes (r : Multiset Prog) : Multiset.count b21 (relRes ::ₘ r) = Multiset.count b21 r := Multiset.count_cons_of_ne (by decide) r

theorem cc_b21_relRm (r : Multiset Prog) : Multiset.count b21 (relRm ::ₘ r) = Multiset.count b21 r := Multiset.count_cons_of_ne (by decide) r

theorem cc_b21_v0 (r : Multiset Prog) : Multiset.count b21 (v0 ::ₘ r) = Multiset.count b21 r := Multiset.count_cons_of_ne (by decide) r

theorem cc_b21_v1 (r : Multiset Prog) : Multiset.count b21 (v1 ::ₘ r) = Multiset.count b21 r := Multiset.count_cons_of_ne (by decide) r

theorem cc_b21_v2 (r : Multiset Prog) : Multiset.count b21 (v2 ::ₘ r) = Multiset.count b21 r := Multiset.count_cons_of_ne (by decide) r

theorem cc_b21_v3 (r : Multiset Prog) : Multiset.count b21 (v3 ::ₘ r) = Multiset.count b21 r := Multiset.count_cons_of_ne (by decide) r

theorem cc_b21_v4 (r : Multiset Prog) : Multiset.count b21 (v4 ::ₘ r) = Multiset.count b21 r := Multiset.count_cons_of_ne (by decide) r

theorem cc_b21_csW2 (r : Multiset Prog) : Multiset.count b21 (csW2 ::ₘ r) = Multiset.count b21 r := Multiset.count_cons_of_ne (by decide) r

theorem cc_b21_v6 (r : Multiset Prog) : Multiset.count b21 (v6 ::ₘ r) = Multiset.count b21 r := Multiset.count_cons_of_ne (by decide) r

theorem cc_b21_v7 (r : Multiset Prog) : Multiset.count b21 (v7 ::ₘ r) = Multiset.count b21 r := Multiset.count_cons_of_ne (by decide) r

theorem cc_b21_v8 (r : Multiset Prog) : Multiset.count b21 (v8 ::ₘ r) = Multiset.count b21 r := Multiset.count_cons_of_ne (by decide) r

theorem cc_b21_v9 (r : Multiset Prog) : Multiset.count b21 (v9 ::ₘ r) = Multiset.count b21 r := Multiset.count_cons_of_ne (by decide) r

theorem cc_b21_v10 (r : Multiset Prog) : Multiset.count b21 (v10 ::ₘ r) = Multiset.count b21 r := Multiset.count_cons_of_ne (by decide) r

theorem cc_b21_pdone (r : Multiset Prog) : Multiset.count b21 (Prog.done ::ₘ r) = Multiset.count b21 r := Multiset.count_cons_of_ne (by decide) r

theorem cc_b22_b20 (r : Multiset Prog) : Multiset.count b22 (b20 ::ₘ r) = Multiset.count b22 r := Multiset.count_cons_of_ne (by decide) r

theorem cc_b22_b21 (r : Multiset Prog) : Multiset.count b22 (b21 ::ₘ r) = Multiset.count b22 r := Multiset.count_cons_of_ne (by decide) r

theorem cc_b22_b22 (r : Multiset Prog) : Multiset.count b22 (b22 ::ₘ r) = Multiset.count b22 r + 1 := Multiset.count_cons_self b22 r

theorem cc_b22_b23 (r : Multiset Prog) : Multiset.count b22 (b23 ::ₘ r) = Multiset.count b22 r := Multiset.count_cons_of_ne (by decide) r

theorem cc_b22_b24 (r : Multiset Prog) : Multiset.count b22 (b24 ::ₘ r) = Multiset.count b22 r := Multiset.count_cons_of_ne (by decide) r

theorem cc_b22_b25 (r : Multiset Prog) : Multiset.count b22 (b25 ::ₘ r) = Multiset.count b22 r := Multiset.count_cons_of_ne (by decide) r

theorem cc_b22_csR (r : Multiset Prog) : Multiset.count b22 (csR ::ₘ r) = Multiset.count b22 r := Multiset.count_cons_of_ne (by decide) r

theorem cc_b22_rsProg (r : Multiset Prog) : Multiset.count b22 (rsProg ::ₘ r) = Multiset.count b22 r := Multiset.count_cons_of_ne (by decide) r

theorem cc_b22_decR (r : Multiset Prog) : Multiset.count b22 (decR ::ₘ r) = Multiset.count b22 r := Multiset.count_cons_of_ne (by decide) r

theorem cc_b22_relRes (r : Multiset Prog) : Multiset.count b22 (relRes ::ₘ r) = Multiset.count b22 r := Multiset.count_cons_of_ne (by decide) r

theorem cc_b22_relRm (r : Multiset Prog) : Multiset.count b22 (relRm ::ₘ r) = Multiset.count b22 r := Multiset.count_cons_of_ne (by decide) r

theorem cc_b22_v0 (r : Multiset Prog) : Multiset.count b22 (v0 ::ₘ r) = Multiset.count b22 r := Multiset.count_cons_of_ne (by decide) r

theorem cc_b22_v1 (r : Multiset Prog) : Multiset.count b22 (v1 ::ₘ r) = Multiset.count b22 r := Multiset.count_cons_of_ne (by decide) r

theorem cc_b22_v2 (r : Multiset Prog) : Multiset.count b22 (v2 ::ₘ r) = Multiset.count b22 r := Multiset.count_cons_of_ne (by decide) r

theorem cc_b22_v3 (r : Multiset Prog) : Multiset.count b22 (v3 ::ₘ r) = Multiset.count b22 r := Multiset.count_cons_of_ne (by decide) r

theorem cc_b22_v4 (r : Multiset Prog) : Multiset.count b22 (v4 ::ₘ r) = Multiset.count b22 r := Multiset.count_cons_of_ne (by decide) r

theorem cc_b22_csW2 (r : Multiset Prog) : Multiset.count b22 (csW2 ::ₘ r) = Multiset.count b22 r := Multiset.count_cons_of_ne (by decide) r

theorem cc_b22_v6 (r : Multiset Prog) : Multiset.count b22 (v6 ::ₘ r) = Multiset.count b22 r := Multiset.count_cons_of_ne (by decide) r

theorem cc_b22_v7 (r : Multiset Prog) : Multiset.count b22 (v7 ::ₘ r) = Multiset.count b22 r := Multiset.count_cons_of_ne (by decide) r

theorem cc_b22_v8 (r : Multiset Prog) : Multiset.count b22 (v8 ::ₘ r) = Multiset.count b22 r := Multiset.count_cons_of_ne (by decide) r

theorem cc_b22_v9 (r : Multiset Prog) : Multiset.count b22 (v9 ::ₘ r) = Multiset.count b22 r := Multiset.count_cons_of_ne (by decide) r

theorem cc_b22_v10 (r : Multiset Prog) : Multiset.count b22 (v10 ::ₘ r) = Multiset.count b22 r := Multiset.count_cons_of_ne (by decide) r

theorem cc_b22_pdone (r : Multiset Prog) : Multiset.count b22 (Prog.done ::ₘ r) = Multiset.count b22 r := Multiset.count_cons_of_ne (by decide) r

theorem cc_b23_b20 (r : Multiset Prog) : Multiset.count b23 (b20 ::ₘ r) = Multiset.count b23 r := Multiset.count_cons_of_ne (by decide) r

theorem cc_b23_b21 (r : Multiset Prog) : Multiset.count b23 (b21 ::ₘ r) = Multiset.count b23 r := Multiset.count_cons_of_ne (by decide) r

theorem cc_b23_b22 (r : Multiset Prog) : Multiset.count b23 (b22 ::ₘ r) = Multiset.count b23 r := Multiset.count_cons_of_ne (by decide) r

theorem cc_b23_b23 (r : Multiset Prog) : Multiset.count b23 (b23 ::ₘ r) = Multiset.count b23 r + 1 := Multiset.count_cons_self b23 r

theorem cc_b23_b24 (r : Multiset Prog) : Multiset.count b23 (b24 ::ₘ r) = Multiset.count b23 r := Multiset.count_cons_of_ne (by decide) r

theorem cc_b23_b25 (r : Multiset Prog) : Multiset.count b23 (b25 ::ₘ r) = Multiset.count b23 r := Multiset.count_cons_of_ne (by decide) r

theorem cc_b23_csR (r : Multiset Prog) : Multiset.count b23 (csR ::ₘ r) = Multiset.count b23 r := Multiset.count_cons_of_ne (by decide) r

theorem cc_b23_rsProg (r : Multiset Prog) : Multiset.count b23 (rsProg ::ₘ r) = Multiset.count b23 r := Multiset.count_cons_of_ne (by decide) r

theorem cc_b23_decR (r : Multiset Prog) : Multiset.count b23 (decR ::ₘ r) = Multiset.count b23 r := Multiset.count_cons_of_ne (by decide) r

theorem cc_b23_relRes (r : Multiset Prog) : Multiset.count b23 (relRes ::ₘ r) = Multiset.count b23 r := Multiset.count_cons_of_ne (by decide) r

theorem cc_b23_relRm (r : Multiset Prog) : Multiset.count b23 (relRm ::ₘ r) = Multiset.count b23 r := Multiset.count_cons_of_ne (by decide) r

theorem cc_b23_v0 (r : Multiset Prog) : Multiset.count b23 (v0 ::ₘ r) = Multiset.count b23 r := Multiset.count_cons_of_ne (by decide) r

theorem cc_b23_v1 (r : Multiset Prog) : Multiset.count b23 (v1 ::ₘ r) = Multiset.count b23 r := Multiset.count_cons_of_ne (by decide) r

theorem cc_b23_v2 (r : Multiset Prog) : Multiset.count b23 (v2 ::ₘ r) = Multiset.count b23 r := Multiset.count_cons_of_ne (by decide) r

theorem cc_b23_v3 (r : Multiset Prog) : Multiset.count b23 (v3 ::ₘ r) = Multiset.count b23 r := Multiset.count_cons_of_ne (by decide) r

theorem cc_b23_v4 (r : Multiset Prog) : Multiset.count b23 (v4 ::ₘ r) = Multiset.count b23 r := Multiset.count_cons_of_ne (by decide) r

theorem cc_b23_csW2 (r : Multiset Prog) : Multiset.count b23 (csW2 ::ₘ r) = Multiset.count b23 r := Multiset.count_cons_of_ne (by decide) r

theorem cc_b23_v6 (r : Multiset Prog) : Multiset.count b23 (v6 ::ₘ r) = Multiset.count b23 r := Multiset.count_cons_of_ne (by decide) r

theorem cc_b23_v7 (r : Multiset Prog) : Multiset.count b23 (v7 ::ₘ r) = Multiset.count b23 r := Multiset.count_cons_of_ne (by decide) r

theorem cc_b23_v8 (r : Multiset Prog) : Multiset.count b23 (v8 ::ₘ r) = Multiset.count b23 r := Multiset.count_cons_of_ne (by decide) r

theorem cc_b23_v9 (r : Multiset Prog) : Multiset.count b23 (v9 ::ₘ r) = Multiset.count b23 r := Multiset.count_cons_of_ne (by decide) r

theorem cc_b23_v10 (r : Multiset Prog) : Multiset.count b23 (v10 ::ₘ r) = Multiset.count b23 r := Multiset.count_cons_of_ne (by decide) r

theorem cc_b23_pdone (r : Multiset Prog) : Multiset.count b23 (Prog.done ::ₘ r) = Multiset.count b23 r := Multiset.count_cons_of_ne (by decide) r

theorem cc_b24_b20 (r : Multiset Prog) : Multiset.count b24 (b20 ::ₘ r) = Multiset.count b24 r := Multiset.count_cons_of_ne (by decide) r

theorem cc_b24_b21 (r : Multiset Prog) : Multiset.count b24 (b21 ::ₘ r) = Multiset.count b24 r := Multiset.count_cons_of_ne (by decide) r

theorem cc_b24_b22 (r : Multiset Prog) : Multiset.count b24 (b22 ::ₘ r) = Multiset.count b24 r := Multiset.count_cons_of_ne (by decide) r

theorem cc_b24_b23 (r : Multiset Prog) : Multiset.count b24 (b23 ::ₘ r) = Multiset.count b24 r := Multiset.count_cons_of_ne (by decide) r

theorem cc_b24_b24 (r : Multiset Prog) : Multiset.count b24 (b24 ::ₘ r) = Multiset.count b24 r + 1 := Multiset.count_cons_self b24 r

theorem cc_b24_b25 (r : Multiset Prog) : Multiset.count b24 (b25 ::ₘ r) = Multiset.count b24 r := Multiset.count_cons_of_ne (by decide) r

theorem cc_b24_csR (r : Multiset Prog) : Multiset.count b24 (csR ::ₘ r) = Multiset.count b24 r := Multiset.count_cons_of_ne (by decide) r

theorem cc_b24_rsProg (r : Multiset Prog) : Multiset.count b24 (rsProg ::ₘ r) = Multiset.count b24 r := Multiset.count_cons_of_ne (by decide) r

theorem cc_b24_decR (r : Multiset Prog) : Multiset.count b24 (decR ::ₘ r) = Multiset.count b24 r := Multiset.count_cons_of_ne (by decide) r

theorem cc_b24_relRes (r : Multiset Prog) : Multiset.count b24 (relRes ::ₘ r) = Multiset.count b24 r := Multiset.count_cons_of_ne (by decide) r

theorem cc_b24_relRm (r : Multiset Prog) : Multiset.count b24 (relRm ::ₘ r) = Multiset.count b24 r := Multiset.count_cons_of_ne (by decide) r

theorem cc_b24_v0 (r : Multiset Prog) : Multiset.count b24 (v0 ::ₘ r) = Multiset.count b24 r := Multiset.count_cons_of_ne (by decide) r

theorem cc_b24_v1 (r : Multiset Prog) : Multiset.count b24 (v1 ::ₘ r) = Multiset.count b24 r := Multiset.count_cons_of_ne (by decide) r

theorem cc_b24_v2 (r : Multiset Prog) : Multiset.count b24 (v2 ::ₘ r) = Multiset.count b24 r := Multiset.count_cons_of_ne (by decide) r

theorem cc_b24_v3 (r : Multiset Prog) : Multiset.count b24 (v3 ::ₘ r) = Multiset.count b24 r := Multiset.count_cons_of_ne (by decide) r

theorem cc_b24_v4 (r : Multiset Prog) : Multiset.count b24 (v4 ::ₘ r) = Multiset.count b24 r := Multiset.count_cons_of_ne (by decide) r

theorem cc_b24_csW2 (r : Multiset Prog) : Multiset.count b24 (csW2 ::ₘ r) = Multiset.count b24 r := Multiset.count_cons_of_ne (by decide) r

theorem cc_b24_v6 (r : Multiset Prog) : Multiset.count b24 (v6 ::ₘ r) = Multiset.count b24 r := Multiset.count_cons_of_ne (by decide) r

theorem cc_b24_v7 (r : Multiset Prog) : Multiset.count b24 (v7 ::ₘ r) = Multiset.count b24 r := Multiset.count_cons_of_ne (by decide) r

theorem cc_b24_v8 (r : Multiset Prog) : Multiset.count b24 (v8 ::ₘ r) = Multiset.count b24 r := Multiset.count_cons_of_ne (by decide) r

theorem cc_b24_v9 (r : Multiset Prog) : Multiset.count b24 (v9 ::ₘ r) = Multiset.count b24 r := Multiset.count_cons_of_ne (by decide) r

theorem cc_b24_v10 (r : Multiset Prog) : Multiset.count b24 (v10 ::ₘ r) = Multiset.count b24 r := Multiset.count_cons_of_ne (by decide) r

theorem cc_b24_pdone (r : Multiset Prog) : Multiset.count b24 (Prog.done ::ₘ r) = Multiset.count b24 r := Multiset.count_cons_of_ne (by decide) r

theorem cc_b25_b20 (r : Multiset Prog) : Multiset.count b25 (b20 ::ₘ r) = Multiset.count b25 r := Multiset.count_cons_of_ne (by decide) r

theorem cc_b25_b21 (r : Multiset Prog) : Multiset.count b25 (b21 ::ₘ r) = Multiset.count b25 r := Multiset.count_cons_of_ne (by decide) r

theorem cc_b25_b22 (r : Multiset Prog) : Multiset.count b25 (b22 ::ₘ r) = Multiset.count b25 r := Multiset.count_cons_of_ne (by decide) r

theorem cc_b25_b23 (r : Multiset Prog) : Multiset.count b25 (b23 ::ₘ r) = Multiset.count b25 r := Multiset.count_cons_of_ne (by decide) r

theorem cc_b25_b24 (r : Multiset Prog) : Multiset.count b25 (b24 ::ₘ r) = Multiset.count b25 r := Multiset.count_cons_of_ne (by decide) r

theorem cc_b25_b25 (r : Multiset Prog) : Multiset.count b25 (b25 ::ₘ r) = Multiset.count b25 r + 1 := Multiset.count_cons_self b25 r

theorem cc_b25_csR (r : Multiset Prog) : Multiset.count b25 (csR ::ₘ r) = Multiset.count b25 r := Multiset.count_cons_of_ne (by decide) r

theorem cc_b25_rsProg (r : Multiset Prog) : Multiset.count b25 (rsProg ::ₘ r) = Multiset.count b25 r := Multiset.count_cons_of_ne (by decide) r

theorem cc_b25_decR (r : Multiset Prog) : Multiset.count b25 (decR ::ₘ r) = Multiset.count b25 r := Multiset.count_cons_of_ne (by decide) r

theorem cc_b25_relRes (r : Multiset Prog) : Multiset.count b25 (relRes ::ₘ r) = Multiset.count b25 r := Multiset.count_cons_of_ne (by decide) r

theorem cc_b25_relRm (r : Multiset Prog) : Multiset.count b25 (relRm ::ₘ r) = Multiset.count b25 r := Multiset.count_cons_of_ne (by decide) r

theorem cc_b25_v0 (r : Multiset Prog) : Multiset.count b25 (v0 ::ₘ r) = Multiset.count b25 r := Multiset.count_cons_of_ne (by decide) r

theorem cc_b25_v1 (r : Multiset Prog) : Multiset.count b25 (v1 ::ₘ r) = Multiset.count b25 r := Multiset.count_cons_of_ne (by decide) r

theorem cc_b25_v2 (r : Multiset Prog) : Multiset.count b25 (v2 ::ₘ r) = Multiset.count b25 r := Multiset.count_cons_of_ne (by decide) r

theorem cc_b25_v3 (r : Multiset Prog) : Multiset.count b25 (v3 ::ₘ r) = Multiset.count b25 r := Multiset.count_cons_of_ne (by decide) r

theorem cc_b25_v4 (r : Multiset Prog) : Multiset.count b25 (v4 ::ₘ r) = Multiset.count b25 r := Multiset.count_cons_of_ne (by decide) r

theorem cc_b25_csW2 (r : Multiset Prog) : Multiset.count b25 (csW2 ::ₘ r) = Multiset.count b25 r := Multiset.count_cons_of_ne (by decide) r

theorem cc_b25_v6 (r : Multiset Prog) : Multiset.count b25 (v6 ::ₘ r) = Multiset.count b25 r := Multiset.count_cons_of_ne (by decide) r

theorem cc_b25_v7 (r : Multiset Prog) : Multiset.count b25 (v7 ::ₘ r) = Multiset.count b25 r := Multiset.count_cons_of_ne (by decide) r

theorem cc_b25_v8 (r : Multiset Prog) : Multiset.count b25 (v8 ::ₘ r) = Multiset.count b25 r := Multiset.count_cons_of_ne (by decide) r

theorem cc_b25_v9 (r : Multiset Prog) : Multiset.count b25 (v9 ::ₘ r) = Multiset.count b25 r := Multiset.count_cons_of_ne (by decide) r

theorem cc_b25_v10 (r : Multiset Prog) : Multiset.count b25 (v10 ::ₘ r) = Multiset.count b25 r := Multiset.count_cons_of_ne (by decide) r

theorem cc_b25_pdone (r : Multiset Prog) : Multiset.count b25 (Prog.done ::ₘ r) = Multiset.count b25 r := Multiset.count_cons_of_ne (by decide) r

theorem cc_csR_b20 (r : Multiset Prog) : Multiset.count csR (b20 ::ₘ r) = Multiset.count csR r := Multiset.count_cons_of_ne (by decide) r

theorem cc_csR_b21 (r : Multiset Prog) : Multiset.count csR (b21 ::ₘ r) = Multiset.count csR r := Multiset.count_cons_of_ne (by decide) r

theorem cc_csR_b22 (r : Multiset Prog) : Multiset.count csR (b22 ::ₘ r) = Multiset.count csR r := Multiset.count_cons_of_ne (by decide) r

theorem cc_csR_b23 (r : Multiset Prog) : Multiset.count csR (b23 ::ₘ r) = Multiset.count csR r := Multiset.count_cons_of_ne (by decide) r

theorem cc_csR_b24 (r : Multiset Prog) : Multiset.count csR (b24 ::ₘ r) = Multiset.count csR r := Multiset.count_cons_of_ne (by decide) r

theorem cc_csR_b25 (r : Multiset Prog) : Multiset.count csR (b25 ::ₘ r) = Multiset.count csR r := Multiset.count_cons_of_ne (by decide) r

theorem cc_csR_v0 (r : Multiset Prog) : Multiset.count csR (v0 ::ₘ r) = Multiset.count csR r := Multiset.count_cons_of_ne (by decide) r

theorem cc_csR_v1 (r : Multiset Prog) : Multiset.count csR (v1 ::ₘ r) = Multiset.count csR r := Multiset.count_cons_of_ne (by decide) r

theorem cc_csR_v2 (r : Multiset Prog) : Multiset.count csR (v2 ::ₘ r) = Multiset.count csR r := Multiset.count_cons_of_ne (by decide) r

theorem cc_csR_v3 (r : Multiset Prog) : Multiset.count csR (v3 ::ₘ r) = Multiset.count csR r := Multiset.count_cons_of_ne (by decide) r

theorem cc_csR_v4 (r : Multiset Prog) : Multiset.count csR (v4 ::ₘ r) = Multiset.count csR r := Multiset.count_cons_of_ne (by decide) r

theorem cc_csR_csW2 (r : Multiset Prog) : Multiset.count csR (csW2 ::ₘ r) = Multiset.count csR r := Multiset.count_cons_of_ne (by decide) r

theorem cc_csR_v6 (r : Multiset Prog) : Multiset.count csR (v6 ::ₘ r) = Multiset.count csR r := Multiset.count_cons_of_ne (by decide) r

theorem cc_csR_v7 (r : Multiset Prog) : Multiset.count csR (v7 ::ₘ r) = Multiset.count csR r := Multiset.count_cons_of_ne (by decide) r

theorem cc_csR_v8 (r : Multiset Prog) : Multiset.count csR (v8 ::ₘ r) = Multiset.count csR r := Multiset.count_cons_of_ne (by decide) r

theorem cc_csR_v9 (r : Multiset Prog) : Multiset.count csR (v9 ::ₘ r) = Multiset.count csR r := Multiset.count_cons_of_ne (by decide) r

theorem cc_csR_v10 (r : Multiset Prog) : Multiset.count csR (v10 ::ₘ r) = Multiset.count csR r := Multiset.count_cons_of_ne (by decide) r

theorem cc_rsProg_b20 (r : Multiset Prog) : Multiset.count rsProg (b20 ::ₘ r) = Multiset.count rsProg r := Multiset.count_cons_of_ne (by decide) r

theorem cc_rsProg_b21 (r : Multiset Prog) : Multiset.count rsProg (b21 ::ₘ r) = Multiset.count rsProg r := Multiset.count_cons_of_ne (by decide) r

theorem cc_rsProg_b22 (r : Multiset Prog) : Multiset.count rsProg (b22 ::ₘ r) = Multiset.count rsProg r := Multiset.count_cons_of_ne (by decide) r

theorem cc_rsProg_b23 (r : Multiset Prog) : Multiset.count rsProg (b23 ::ₘ r) = Multiset.count rsProg r := Multiset.count_cons_of_ne (by decide) r

theorem cc_rsProg_b24 (r : Multiset Prog) : Multiset.count rsProg (b24 ::ₘ r) = Multiset.count rsProg r := Multiset.count_cons_of_ne (by decide) r

theorem cc_rsProg_b25 (r : Multiset Prog) : Multiset.count rsProg (b25 ::ₘ r) = Multiset.count rsProg r := Multiset.count_cons_of_ne (by decide) r

theorem cc_rsProg_v0 (r : Multiset Prog) : Multiset.count rsProg (v0 ::ₘ r) = Multiset.count rsProg r := Multiset.count_cons_of_ne (by decide) r

theorem cc_rsProg_v1 (r : Multiset Prog) : Multiset.count rsProg (v1 ::ₘ r) = Multiset.count rsProg r := Multiset.count_cons_of_ne (by decide) r

theorem cc_rsProg_v2 (r : Multiset Prog) : Multiset.count rsProg (v2 ::ₘ r) = Multiset.count rsProg r := Multiset.count_cons_of_ne (by decide) r

theorem cc_rsProg_v3 (r : Multiset Prog) : Multiset.count rsProg (v3 ::ₘ r) = Multiset.count rsProg r := Multiset.count_cons_of_ne (by decide) r

theorem cc_rsProg_v4 (r : Multiset Prog) : Multiset.count rsProg (v4 ::ₘ r) = Multiset.count rsProg r := Multiset.count_cons_of_ne (by decide) r

theorem cc_rsProg_csW2 (r : Multiset Prog) : Multiset.count rsProg (csW2 ::ₘ r) = Multiset.count rsProg r := Multiset.count_cons_of_ne (by decide) r

theorem cc_rsProg_v6 (r : Multiset Prog) : Multiset.count rsProg (v6 ::ₘ r) = Multiset.count rsProg r := Multiset.count_cons_of_ne (by decide) r

theorem cc_rsProg_v7 (r : Multiset Prog) : Multiset.count rsProg (v7 ::ₘ r) = Multiset.count rsProg r := Multiset.count_cons_of_ne (by decide) r

theorem cc_rsProg_v8 (r : Multiset Prog) : Multiset.count rsProg (v8 ::ₘ r) = Multiset.count rsProg r := Multiset.count_cons_of_ne (by decide) r

theorem cc_rsProg_v9 (r : Multiset Prog) : Multiset.count rsProg (v9 ::ₘ r) = Multiset.count rsProg r := Multiset.count_cons_of_ne (by decide) r

theorem cc_rsProg_v10 (r : Multiset Prog) : Multiset.count rsProg (v10 ::ₘ r) = Multiset.count rsProg r := Multiset.count_cons_of_ne (by decide) r

theorem cc_decR_b20 (r : Multiset Prog) : Multiset.count decR (b20 ::ₘ r) = Multiset.count decR r := Multiset.count_cons_of_ne (by decide) r

theorem cc_decR_b21 (r : Multiset Prog) : Multiset.count decR (b21 ::ₘ r) = Multiset.count decR r := Multiset.count_cons_of_ne (by decide) r

theorem cc_decR_b22 (r : Multiset Prog) : Multiset.count decR (b22 ::ₘ r) = Multiset.count decR r := Multiset.count_cons_of_ne (by decide) r

theorem cc_decR_b23 (r : Multiset Prog) : Multiset.count decR (b23 ::ₘ r) = Multiset.count decR r := Multiset.count_cons_of_ne (by decide) r

theorem cc_decR_b24 (r : Multiset Prog) : Multiset.count decR (b24 ::ₘ r) = Multiset.count decR r := Multiset.count_cons_of_ne (by decide) r

theorem cc_decR_b25 (r : Multiset Prog) : Multiset.count decR (b25 ::ₘ r) = Multiset.count decR r := Multiset.count_cons_of_ne (by decide) r

theorem cc_decR_v0 (r : Multiset Prog) : Multiset.count decR (v0 ::ₘ r) = Multiset.count decR r := Multiset.count_cons_of_ne (by decide) r

theorem cc_decR_v1 (r : Multiset Prog) : Multiset.count decR (v1 ::ₘ r) = Multiset.count decR r := Multiset.count_cons_of_ne (by decide) r

theorem cc_decR_v2 (r : Multiset Prog) : Multiset.count decR (v2 ::ₘ r) = Multiset.count decR r := Multiset.count_cons_of_ne (by decide) r

theorem cc_decR_v3 (r : Multiset Prog) : Multiset.count decR (v3 ::ₘ r) = Multiset.count decR r := Multiset.count_cons_of_ne (by decide) r

theorem cc_decR_v4 (r : Multiset Prog) : Multiset.count decR (v4 ::ₘ r) = Multiset.count decR r := Multiset.count_cons_of_ne (by decide) r

theorem cc_decR_csW2 (r : Multiset Prog) : Multiset.count decR (csW2 ::ₘ r) = Multiset.count decR r := Multiset.count_cons_of_ne (by decide) r

theorem cc_decR_v6 (r : Multiset Prog) : Multiset.count decR (v6 ::ₘ r) = Multiset.count decR r := Multiset.count_cons_of_ne (by decide) r

theorem cc_decR_v7 (r : Multiset Prog) : Multiset.count decR (v7 ::ₘ r) = Multiset.count decR r := Multiset.count_cons_of_ne (by decide) r

theorem cc_decR_v8 (r : Multiset Prog) : Multiset.count decR (v8 ::ₘ r) = Multiset.count decR r := Multiset.count_cons_of_ne (by decide) r

theorem cc_decR_v9 (r : Multiset Prog) : Multiset.count decR (v9 ::ₘ r) = Multiset.count decR r := Multiset.count_cons_of_ne (by decide) r

theorem cc_decR_v10 (r : Multiset Prog) : Multiset.count decR (v10 ::ₘ r) = Multiset.count decR r := Multiset.count_cons_of_ne (by decide) r

theorem cc_relRes_b20 (r : Multiset Prog) : Multiset.count relRes (b20 ::ₘ r) = Multiset.count relRes r := Multiset.count_cons_of_ne (by decide) r

theorem cc_relRes_b21 (r : Multiset Prog) : Multiset.count relRes (b21 ::ₘ r) = Multiset.count relRes r := Multiset.count_cons_of_ne (by decide) r

theorem cc_relRes_b22 (r : Multiset Prog) : Multiset.count relRes (b22 ::ₘ r) = Multiset.count relRes r := Multiset.count_cons_of_ne (by decide) r

theorem cc_relRes_b23 (r : Multiset Prog) : Multiset.count relRes (b23 ::ₘ r) = Multiset.count relRes r := Multiset.count_cons_of_ne (by decide) r

theorem cc_relRes_b24 (r : Multiset Prog) : Multiset.count relRes (b24 ::ₘ r) = Multiset.count relRes r := Multiset.count_cons_of_ne (by decide) r

theorem cc_relRes_b25 (r : Multiset Prog) : Multiset.count relRes (b25 ::ₘ r) = Multiset.count relRes r := Multiset.count_cons_of_ne (by decide) r

theorem cc_relRes_v0 (r : Multiset Prog) : Multiset.count relRes (v0 ::ₘ r) = Multiset.count relRes r := Multiset.count_cons_of_ne (by decide) r

theorem cc_relRes_v1 (r : Multiset Prog) : Multiset.count relRes (v1 ::ₘ r) = Multiset.count relRes r := Multiset.count_cons_of_ne (by decide) r

theorem cc_relRes_v2 (r : Multiset Prog) : Multiset.count relRes (v2 ::ₘ r) = Multiset.count relRes r := Multiset.count_cons_of_ne (by decide) r

theorem cc_relRes_v3 (r : Multiset Prog) : Multiset.count relRes (v3 ::ₘ r) = Multiset.count relRes r := Multiset.count_cons_of_ne (by decide) r

theorem cc_relRes_v4 (r : Multiset Prog) : Multiset.count relRes (v4 ::ₘ r) = Multiset.count relRes r := Multiset.count_cons_of_ne (by decide) r

theorem cc_relRes_csW2 (r : Multiset Prog) : Multiset.count relRes (csW2 ::ₘ r) = Multiset.count relRes r := Multiset.count_cons_of_ne (by decide) r

theorem cc_relRes_v6 (r : Multiset Prog) : Multiset.count relRes (v6 ::ₘ r) = Multiset.count relRes r := Multiset.count_cons_of_ne (by decide) r

theorem cc_relRes_v7 (r : Multiset Prog) : Multiset.count relRes (v7 ::ₘ r) = Multiset.count relRes r := Multiset.count_cons_of_ne (by decide) r

theorem cc_relRes_v8 (r : Multiset Prog) : Multiset.count relRes (v8 ::ₘ r) = Multiset.count relRes r := Multiset.count_cons_of_ne (by decide) r

theorem cc_relRes_v9 (r : Multiset Prog) : Multiset.count relRes (v9 ::ₘ r) = Multiset.count relRes r := Multiset.count_cons_of_ne (by decide) r

theorem cc_relRes_v10 (r : Multiset Prog) : Multiset.count relRes (v10 ::ₘ r) = Multiset.count relRes r := Multiset.count_cons_of_ne (by decide) r

theorem cc_relRm_b20 (r : Multiset Prog) : Multiset.count relRm (b20 ::ₘ r) = Multiset.count relRm r := Multiset.count_cons_of_ne (by decide) r

theorem cc_relRm_b21 (r : Multiset Prog) : Multiset.count relRm (b21 ::ₘ r) = Multiset.count relRm r := Multiset.count_cons_of_ne (by decide) r

theorem cc_relRm_b22 (r : Multiset Prog) : Multiset.count relRm (b22 ::ₘ r) = Multiset.count relRm r := Multiset.count_cons_of_ne (by decide) r

theorem cc_relRm_b23 (r : Multiset Prog) : Multiset.count relRm (b23 ::ₘ r) = Multiset.count relRm r := Multiset.count_cons_of_ne (by decide) r

theorem cc_relRm_b24 (r : Multiset Prog) : Multiset.count relRm (b24 ::ₘ r) = Multiset.count relRm r := Multiset.count_cons_of_ne (by decide) r

theorem cc_relRm_b25 (r : Multiset Prog) : Multiset.count relRm (b25 ::ₘ r) = Multiset.count relRm r := Multiset.count_cons_of_ne (by decide) r

theorem cc_relRm_v0 (r : Multiset Prog) : Multiset.count relRm (v0 ::ₘ r) = Multiset.count relRm r := Multiset.count_cons_of_ne (by decide) r

theorem cc_relRm_v1 (r : Multiset Prog) : Multiset.count relRm (v1 ::ₘ r) = Multiset.count relRm r := Multiset.count_cons_of_ne (by decide) r

theorem cc_relRm_v2 (r : Multiset Prog) : Multiset.count relRm (v2 ::ₘ r) = Multiset.count relRm r := Multiset.count_cons_of_ne (by decide) r

theorem cc_relRm_v3 (r : Multiset Prog) : Multiset.count relRm (v3 ::ₘ r) = Multiset.count relRm r := Multiset.count_cons_of_ne (by decide) r

theorem cc_relRm_v4 (r : Multiset Prog) : Multiset.count relRm (v4 ::ₘ r) = Multiset.count relRm r := Multiset.count_cons_of_ne (by decide) r

theorem cc_relRm_csW2 (r : Multiset Prog) : Multiset.count relRm (csW2 ::ₘ r) = Multiset.count relRm r := Multiset.count_cons_of_ne (by decide) r

theorem cc_relRm_v6 (r : Multiset Prog) : Multiset.count relRm (v6 ::ₘ r) = Multiset.count relRm r := Multiset.count_cons_of_ne (by decide) r

theorem cc_relRm_v7 (r : Multiset Prog) : Multiset.count relRm (v7 ::ₘ r) = Multiset.count relRm r := Multiset.count_cons_of_ne (by decide) r

theorem cc_relRm_v8 (r : Multiset Prog) : Multiset.count relRm (v8 ::ₘ r) = Multiset.count relRm r := Multiset.count_cons_of_ne (by decide) r

theorem cc_relRm_v9 (r : Multiset Prog) : Multiset.count relRm (v9 ::ₘ r) = Multiset.count relRm r := Multiset.count_cons_of_ne (by decide) r

theorem cc_relRm_v10 (r : Multiset Prog) : Multiset.count relRm (v10 ::ₘ r) = Multiset.count relRm r := Multiset.count_cons_of_ne (by decide) r

theorem cc_v1_b20 (r : Multiset Prog) : Multiset.count v1 (b20 ::ₘ r) = Multiset.count v1 r := Multiset.count_cons_of_ne (by decide) r

theorem cc_v1_b21 (r : Multiset Prog) : Multiset.count v1 (b21 ::ₘ r) = Multiset.count v1 r := Multiset.count_cons_of_ne (by decide) r

theorem cc_v1_b22 (r : Multiset Prog) : Multiset.count v1 (b22 ::ₘ r) = Multiset.count v1 r := Multiset.count_cons_of_ne (by decide) r

theorem cc_v1_b23 (r : Multiset Prog) : Multiset.count v1 (b23 ::ₘ r) = Multiset.count v1 r := Multiset.count_cons_of_ne (by decide) r

theorem cc_v1_b24 (r : Multiset Prog) : Multiset.count v1 (b24 ::ₘ r) = Multiset.count v1 r := Multiset.count_cons_of_ne (by decide) r

theorem cc_v1_b25 (r : Multiset Prog) : Multiset.count v1 (b25 ::ₘ r) = Multiset.count v1 r := Multiset.count_cons_of_ne (by decide) r

theorem cc_v1_csR (r : Multiset Prog) : Multiset.count v1 (csR ::ₘ r) = Multiset.count v1 r := Multiset.count_cons_of_ne (by decide) r

theorem cc_v1_rsProg (r : Multiset Prog) : Multiset.count v1 (rsProg ::ₘ r) = Multiset.count v1 r := Multiset.count_cons_of_ne (by decide) r

theorem cc_v1_decR (r : Multiset Prog) : Multiset.count v1 (decR ::ₘ r) = Multiset.count v1 r := Multiset.count_cons_of_ne (by decide) r

theorem cc_v1_relRes (r : Multiset Prog) : Multiset.count v1 (relRes ::ₘ r) = Multiset.count v1 r := Multiset.count_cons_of_ne (by decide) r

theorem cc_v1_relRm (r : Multiset Prog) : Multiset.count v1 (relRm ::ₘ r) = Multiset.count v1 r := Multiset.count_cons_of_ne (by decide) r

theorem cc_v1_v0 (r : Multiset Prog) : Multiset.count v1 (v0 ::ₘ r) = Multiset.count v1 r := Multiset.count_cons_of_ne (by decide) r

theorem cc_v1_v1 (r : Multiset Prog) : Multiset.count v1 (v1 ::ₘ r) = Multiset.count v1 r + 1 := Multiset.count_cons_self v1 r

theorem cc_v1_v2 (r : Multiset Prog) : Multiset.count v1 (v2 ::ₘ r) = Multiset.count v1 r := Multiset.count_cons_of_ne (by decide) r

theorem cc_v1_v3 (r : Multiset Prog) : Multiset.count v1 (v3 ::ₘ r) = Multiset.count v1 r := Multiset.count_cons_of_ne (by decide) r

theorem cc_v1_v4 (r : Multiset Prog) : Multiset.count v1 (v4 ::ₘ r) = Multiset.count v1 r := Multiset.count_cons_of_ne (by decide) r

theorem cc_v1_csW2 (r : Multiset Prog) : Multiset.count v1 (csW2 ::ₘ r) = Multiset.count v1 r := Multiset.count_cons_of_ne (by decide) r

theorem cc_v1_v6 (r : Multiset Prog) : Multiset.count v1 (v6 ::ₘ r) = Multiset.count v1 r := Multiset.count_cons_of_ne (by decide) r

theorem cc_v1_v7 (r : Multiset Prog) : Multiset.count v1 (v7 ::ₘ r) = Multiset.count v1 r := Multiset.count_cons_of_ne (by decide) r

theorem cc_v1_v8 (r : Multiset Prog) : Multiset.count v1 (v8 ::ₘ r) = Multiset.count v1 r := Multiset.count_cons_of_ne (by decide) r

theorem cc_v1_v9 (r : Multiset Prog) : Multiset.count v1 (v9 ::ₘ r) = Multiset.count v1 r := Multiset.count_cons_of_ne (by decide) r

theorem cc_v1_v10 (r : Multiset Prog) : Multiset.count v1 (v10 ::ₘ r) = Multiset.count v1 r := Multiset.count_cons_of_ne (by decide) r

theorem cc_v1_pdone (r : Multiset Prog) : Multiset.count v1 (Prog.done ::ₘ r) = Multiset.count v1 r := Multiset.count_cons_of_ne (by decide) r

theorem cc_v2_b20 (r : Multiset Prog) : Multiset.count v2 (b20 ::ₘ r) = Multiset.count v2 r := Multiset.count_cons_of_ne (by decide) r

theorem cc_v2_b21 (r : Multiset Prog) : Multiset.count v2 (b21 ::ₘ r) = Multiset.count v2 r := Multiset.count_cons_of_ne (by decide) r

theorem cc_v2_b22 (r : Multiset Prog) : Multiset.count v2 (b22 ::ₘ r) = Multiset.count v2 r := Multiset.count_cons_of_ne (by decide) r

theorem cc_v2_b23 (r : Multiset Prog) : Multiset.count v2 (b23 ::ₘ r) = Multiset.count v2 r := Multiset.count_cons_of_ne (by decide) r

theorem cc_v2_b24 (r : Multiset Prog) : Multiset.count v2 (b24 ::ₘ r) = Multiset.count v2 r := Multiset.count_cons_of_ne (by decide) r

theorem cc_v2_b25 (r : Multiset Prog) : Multiset.count v2 (b25 ::ₘ r) = Multiset.count v2 r := Multiset.count_cons_of_ne (by decide) r

theorem cc_v2_csR (r : Multiset Prog) : Multiset.count v2 (csR ::ₘ r) = Multiset.count v2 r := Multiset.count_cons_of_ne (by decide) r

theorem cc_v2_rsProg (r : Multiset Prog) : Multiset.count v2 (rsProg ::ₘ r) = Multiset.count v2 r := Multiset.count_cons_of_ne (by decide) r

theorem cc_v2_decR (r : Multiset Prog) : Multiset.count v2 (decR ::ₘ r) = Multiset.count v2 r := Multiset.count_cons_of_ne (by decide) r

theorem cc_v2_relRes (r : Multiset Prog) : Multiset.count v2 (relRes ::ₘ r) = Multiset.count v2 r := Multiset.count_cons_of_ne (by decide) r

theorem cc_v2_relRm (r : Multiset Prog) : Multiset.count v2 (relRm ::ₘ r) = Multiset.count v2 r := Multiset.count_cons_of_ne (by decide) r

theorem cc_v2_v0 (r : Multiset Prog) : Multiset.count v2 (v0 ::ₘ r) = Multiset.count v2 r := Multiset.count_cons_of_ne (by decide) r

theorem cc_v2_v1 (r : Multiset Prog) : Multiset.count v2 (v1 ::ₘ r) = Multiset.count v2 r := Multiset.count_cons_of_ne (by decide) r

theorem cc_v2_v2 (r : Multiset Prog) : Multiset.count v2 (v2 ::ₘ r) = Multiset.count v2 r + 1 := Multiset.count_cons_self v2 r

theorem cc_v2_v3 (r : Multiset Prog) : Multiset.count v2 (v3 ::ₘ r) = Multiset.count v2 r := Multiset.count_cons_of_ne (by decide) r

theorem cc_v2_v4 (r : Multiset Prog) : Multiset.count v2 (v4 ::ₘ r) = Multiset.count v2 r := Multiset.count_cons_of_ne (by decide) r

theorem cc_v2_csW2 (r : Multiset Prog) : Multiset.count v2 (csW2 ::ₘ r) = Multiset.count v2 r := Multiset.count_cons_of_ne (by decide) r

theorem cc_v2_v6 (r : Multiset Prog) : Multiset.count v2 (v6 ::ₘ r) = Multiset.count v2 r := Multiset.count_cons_of_ne (by decide) r

theorem cc_v2_v7 (r : Multiset Prog) : Multiset.count v2 (v7 ::ₘ r) = Multiset.count v2 r := Multiset.count_cons_of_ne (by decide) r

theorem cc_v2_v8 (r : Multiset Prog) : Multiset.count v2 (v8 ::ₘ r) = Multiset.count v2 r := Multiset.count_cons_of_ne (by decide) r

theorem cc_v2_v9 (r : Multiset Prog) : Multiset.count v2 (v9 ::ₘ r) = Multiset.count v2 r := Multiset.count_cons_of_ne (by decide) r

theorem cc_v2_v10 (r : Multiset Prog) : Multiset.count v2 (v10 ::ₘ r) = Multiset.count v2 r := Multiset.count_cons_of_ne (by decide) r

theorem cc_v2_pdone (r : Multiset Prog) : Multiset.count v2 (Prog.done ::ₘ r) = Multiset.count v2 r := Multiset.count_cons_of_ne (by decide) r

theorem cc_v3_b20 (r : Multiset Prog) : Multiset.count v3 (b20 ::ₘ r) = Multiset.count v3 r := Multiset.count_cons_of_ne (by decide) r

theorem cc_v3_b21 (r : Multiset Prog) : Multiset.count v3 (b21 ::ₘ r) = Multiset.count v3 r := Multiset.count_cons_of_ne (by decide) r

theorem cc_v3_b22 (r : Multiset Prog) : Multiset.count v3 (b22 ::ₘ r) = Multiset.count v3 r := Multiset.count_cons_of_ne (by decide) r

theorem cc_v3_b23 (r : Multiset Prog) : Multiset.count v3 (b23 ::ₘ r) = Multiset.count v3 r := Multiset.count_cons_of_ne (by decide) r

theorem cc_v3_b24 (r : Multiset Prog) : Multiset.count v3 (b24 ::ₘ r) = Multiset.count v3 r := Multiset.count_cons_of_ne (by decide) r

theorem cc_v3_b25 (r : Multiset Prog) : Multiset.count v3 (b25 ::ₘ r) = Multiset.count v3 r := Multiset.count_cons_of_ne (by decide) r

theorem cc_v3_csR (r : Multiset Prog) : Multiset.count v3 (csR ::ₘ r) = Multiset.count v3 r := Multiset.count_cons_of_ne (by decide) r

theorem cc_v3_rsProg (r : Multiset Prog) : Multiset.count v3 (rsProg ::ₘ r) = Multiset.count v3 r := Multiset.count_cons_of_ne (by decide) r

theorem cc_v3_decR (r : Multiset Prog) : Multiset.count v3 (decR ::ₘ r) = Multiset.count v3 r := Multiset.count_cons_of_ne (by decide) r

theorem cc_v3_relRes (r : Multiset Prog) : Multiset.count v3 (relRes ::ₘ r) = Multiset.count v3 r := Multiset.count_cons_of_ne (by decide) r

theorem cc_v3_relRm (r : Multiset Prog) : Multiset.count v3 (relRm ::ₘ r) = Multiset.count v3 r := Multiset.count_cons_of_ne (by decide) r

theorem cc_v3_v0 (r : Multiset Prog) : Multiset.count v3 (v0 ::ₘ r) = Multiset.count v3 r := Multiset.count_cons_of_ne (by decide) r

theorem cc_v3_v1 (r : Multiset Prog) : Multiset.count v3 (v1 ::ₘ r) = Multiset.count v3 r := Multiset.count_cons_of_ne (by decide) r

theorem cc_v3_v2 (r : Multiset Prog) : Multiset.count v3 (v2 ::ₘ r) = Multiset.count v3 r := Multiset.count_cons_of_ne (by decide) r

theorem cc_v3_v3 (r : Multiset Prog) : Multiset.count v3 (v3 ::ₘ r) = Multiset.count v3 r + 1 := Multiset.count_cons_self v3 r

theorem cc_v3_v4 (r : Multiset Prog) : Multiset.count v3 (v4 ::ₘ r) = Multiset.count v3 r := Multiset.count_cons_of_ne (by decide) r

theorem cc_v3_csW2 (r : Multiset Prog) : Multiset.count v3 (csW2 ::ₘ r) = Multiset.count v3 r := Multiset.count_cons_of_ne (by decide) r

theorem cc_v3_v6 (r : Multiset Prog) : Multiset.count v3 (v6 ::ₘ r) = Multiset.count v3 r := Multiset.count_cons_of_ne (by decide) r

theorem cc_v3_v7 (r : Multiset Prog) : Multiset.count v3 (v7 ::ₘ r) = Multiset.count v3 r := Multiset.count_cons_of_ne (by decide) r

theorem cc_v3_v8 (r : Multiset Prog) : Multiset.count v3 (v8 ::ₘ r) = Multiset.count v3 r := Multiset.count_cons_of_ne (by decide) r

theorem cc_v3_v9 (r : Multiset Prog) : Multiset.count v3 (v9 ::ₘ r) = Multiset.count v3 r := Multiset.count_cons_of_ne (by decide) r

theorem cc_v3_v10 (r : Multiset Prog) : Multiset.count v3 (v10 ::ₘ r) = Multiset.count v3 r := Multiset.count_cons_of_ne (by decide) r

theorem cc_v3_pdone (r : Multiset Prog) : Multiset.count v3 (Prog.done ::ₘ r) = Multiset.count v3 r := Multiset.count_cons_of_ne (by decide) r

theorem cc_v4_b20 (r : Multiset Prog) : Multiset.count v4 (b20 ::ₘ r) = Multiset.count v4 r := Multiset.count_cons_of_ne (by decide) r

theorem cc_v4_b21 (r : Multiset Prog) : Multiset.count v4 (b21 ::ₘ r) = Multiset.count v4 r := Multiset.count_cons_of_ne (by decide) r

theorem cc_v4_b22 (r : Multiset Prog) : Multiset.count v4 (b22 ::ₘ r) = Multiset.count v4 r := Multiset.count_cons_of_ne (by decide) r

theorem cc_v4_b23 (r : Multiset Prog) : Multiset.count v4 (b23 ::ₘ r) = Multiset.count v4 r := Multiset.count_cons_of_ne (by decide) r

theorem cc_v4_b24 (r : Multiset Prog) : Multiset.count v4 (b24 ::ₘ r) = Multiset.count v4 r := Multiset.count_cons_of_ne (by decide) r

theorem cc_v4_b25 (r : Multiset Prog) : Multiset.count v4 (b25 ::ₘ r) = Multiset.count v4 r := Multiset.count_cons_of_ne (by decide) r

theorem cc_v4_csR (r : Multiset Prog) : Multiset.count v4 (csR ::ₘ r) = Multiset.count v4 r := Multiset.count_cons_of_ne (by decide) r

theorem cc_v4_rsProg (r : Multiset Prog) : Multiset.count v4 (rsProg ::ₘ r) = Multiset.count v4 r := Multiset.count_cons_of_ne (by decide) r

theorem cc_v4_decR (r : Multiset Prog) : Multiset.count v4 (decR ::ₘ r) = Multiset.count v4 r := Multiset.count_cons_of_ne (by decide) r

theorem cc_v4_relRes (r : Multiset Prog) : Multiset.count v4 (relRes ::ₘ r) = Multiset.count v4 r := Multiset.count_cons_of_ne (by decide) r

theorem cc_v4_relRm (r : Multiset Prog) : Multiset.count v4 (relRm ::ₘ r) = Multiset.count v4 r := Multiset.count_cons_of_ne (by decide) r

theorem cc_v4_v0 (r : Multiset Prog) : Multiset.count v4 (v0 ::ₘ r) = Multiset.count v4 r := Multiset.count_cons_of_ne (by decide) r

theorem cc_v4_v1 (r : Multiset Prog) : Multiset.count v4 (v1 ::ₘ r) = Multiset.count v4 r := Multiset.count_cons_of_ne (by decide) r

theorem cc_v4_v2 (r : Multiset Prog) : Multiset.count v4 (v2 ::ₘ r) = Multiset.count v4 r := Multiset.count_cons_of_ne (by decide) r

theorem cc_v4_v3 (r : Multiset Prog) : Multiset.count v4 (v3 ::ₘ r) = Multiset.count v4 r := Multiset.count_cons_of_ne (by decide) r

theorem cc_v4_v4 (r : Multiset Prog) : Multiset.count v4 (v4 ::ₘ r) = Multiset.count v4 r + 1 := Multiset.count_cons_self v4 r

theorem cc_v4_csW2 (r : Multiset Prog) : Multiset.count v4 (csW2 ::ₘ r) = Multiset.count v4 r := Multiset.count_cons_of_ne (by decide) r

theorem cc_v4_v6 (r : Multiset Prog) : Multiset.count v4 (v6 ::ₘ r) = Multiset.count v4 r := Multiset.count_cons_of_ne (by decide) r

theorem cc_v4_v7 (r : Multiset Prog) : Multiset.count v4 (v7 ::ₘ r) = Multiset.count v4 r := Multiset.count_cons_of_ne (by decide) r

theorem cc_v4_v8 (r : Multiset Prog) : Multiset.count v4 (v8 ::ₘ r) = Multiset.count v4 r := Multiset.count_cons_of_ne (by decide) r

theorem cc_v4_v9 (r : Multiset Prog) : Multiset.count v4 (v9 ::ₘ r) = Multiset.count v4 r := Multiset.count_cons_of_ne (by decide) r

theorem cc_v4_v10 (r : Multiset Prog) : Multiset.count v4 (v10 ::ₘ r) = Multiset.count v4 r := Multiset.count_cons_of_ne (by decide) r

theorem cc_v4_pdone (r : Multiset Prog) : Multiset.count v4 (Prog.done ::ₘ r) = Multiset.count v4 r := Multiset.count_cons_of_ne (by decide) r

theorem cc_csW2_b20 (r : Multiset Prog) : Multiset.count csW2 (b20 ::ₘ r) = Multiset.count csW2 r := Multiset.count_cons_of_ne (by decide) r

theorem cc_csW2_b21 (r : Multiset Prog) : Multiset.count csW2 (b21 ::ₘ r) = Multiset.count csW2 r := Multiset.count_cons_of_ne (by decide) r

theorem cc_csW2_b22 (r : Multiset Prog) : Multiset.count csW2 (b22 ::ₘ r) = Multiset.count csW2 r := Multiset.count_cons_of_ne (by decide) r

theorem cc_csW2_b23 (r : Multiset Prog) : Multiset.count csW2 (b23 ::ₘ r) = Multiset.count csW2 r := Multiset.count_cons_of_ne (by decide) r

theorem cc_csW2_b24 (r : Multiset Prog) : Multiset.count csW2 (b24 ::ₘ r) = Multiset.count csW2 r := Multiset.count_cons_of_ne (by decide) r

theorem cc_csW2_b25 (r : Multiset Prog) : Multiset.count csW2 (b25 ::ₘ r) = Multiset.count csW2 r := Multiset.count_cons_of_ne (by decide) r

theorem cc_csW2_csR (r : Multiset Prog) : Multiset.count csW2 (csR ::ₘ r) = Multiset.count csW2 r := Multiset.count_cons_of_ne (by decide) r

theorem cc_csW2_rsProg (r : Multiset Prog) : Multiset.count csW2 (rsProg ::ₘ r) = Multiset.count csW2 r := Multiset.count_cons_of_ne (by decide) r

theorem cc_csW2_decR (r : Multiset Prog) : Multiset.count csW2 (decR ::ₘ r) = Multiset.count csW2 r := Multiset.count_cons_of_ne (by decide) r

theorem cc_csW2_relRes (r : Multiset Prog) : Multiset.count csW2 (relRes ::ₘ r) = Multiset.count csW2 r := Multiset.count_cons_of_ne (by decide) r

theorem cc_csW2_relRm (r : Multiset Prog) : Multiset.count csW2 (relRm ::ₘ r) = Multiset.count csW2 r := Multiset.count_cons_of_ne (by decide) r

theorem cc_csW2_v0 (r : Multiset Prog) : Multiset.count csW2 (v0 ::ₘ r) = Multiset.count csW2 r := Multiset.count_cons_of_ne (by decide) r

theorem cc_csW2_v1 (r : Multiset Prog) : Multiset.count csW2 (v1 ::ₘ r) = Multiset.count csW2 r := Multiset.count_cons_of_ne (by decide) r

theorem cc_csW2_v2 (r : Multiset Prog) : Multiset.count csW2 (v2 ::ₘ r) = Multiset.count csW2 r := Multiset.count_cons_of_ne (by decide) r

theorem cc_csW2_v3 (r : Multiset Prog) : Multiset.count csW2 (v3 ::ₘ r) = Multiset.count csW2 r := Multiset.count_cons_of_ne (by decide) r

theorem cc_csW2_v4 (r : Multiset Prog) : Multiset.count csW2 (v4 ::ₘ r) = Multiset.count csW2 r := Multiset.count_cons_of_ne (by decide) r

theorem cc_csW2_csW2 (r : Multiset Prog) : Multiset.count csW2 (csW2 ::ₘ r) = Multiset.count csW2 r + 1 := Multiset.count_cons_self csW2 r

theorem cc_csW2_v6 (r : Multiset Prog) : Multiset.count csW2 (v6 ::ₘ r) = Multiset.count csW2 r := Multiset.count_cons_of_ne (by decide) r

theorem cc_csW2_v7 (r : Multiset Prog) : Multiset.count csW2 (v7 ::ₘ r) = Multiset.count csW2 r := Multiset.count_cons_of_ne (by decide) r

theorem cc_csW2_v8 (r : Multiset Prog) : Multiset.count csW2 (v8 ::ₘ r) = Multiset.count csW2 r := Multiset.count_cons_of_ne (by decide) r

theorem cc_csW2_v9 (r : Multiset Prog) : Multiset.count csW2 (v9 ::ₘ r) = Multiset.count csW2 r := Multiset.count_cons_of_ne (by decide) r

theorem cc_csW2_v10 (r : Multiset Prog) : Multiset.count csW2 (v10 ::ₘ r) = Multiset.count csW2 r := Multiset.count_cons_of_ne (by decide) r

theorem cc_csW2_pdone (r : Multiset Prog) : Multiset.count csW2 (Prog.done ::ₘ r) = Multiset.count csW2 r := Multiset.count_cons_of_ne (by decide) r

theorem cc_v6_b20 (r : Multiset Prog) : Multiset.count v6 (b20 ::ₘ r) = Multiset.count v6 r := Multiset.count_cons_of_ne (by decide) r

theorem cc_v6_b21 (r : Multiset Prog) : Multiset.count v6 (b21 ::ₘ r) = Multiset.count v6 r := Multiset.count_cons_of_ne (by decide) r

theorem cc_v6_b22 (r : Multiset Prog) : Multiset.count v6 (b22 ::ₘ r) = Multiset.count v6 r := Multiset.count_cons_of_ne (by decide) r

theorem cc_v6_b23 (r : Multiset Prog) : Multiset.count v6 (b23 ::ₘ r) = Multiset.count v6 r := Multiset.count_cons_of_ne (by decide) r

theorem cc_v6_b24 (r : Multiset Prog) : Multiset.count v6 (b24 ::ₘ r) = Multiset.count v6 r := Multiset.count_cons_of_ne (by decide) r

theorem cc_v6_b25 (r : Multiset Prog) : Multiset.count v6 (b25 ::ₘ r) = Multiset.count v6 r := Multiset.count_cons_of_ne (by decide) r

theorem cc_v6_csR (r : Multiset Prog) : Multiset.count v6 (csR ::ₘ r) = Multiset.count v6 r := Multiset.count_cons_of_ne (by decide) r

theorem cc_v6_rsProg (r : Multiset Prog) : Multiset.count v6 (rsProg ::ₘ r) = Multiset.count v6 r := Multiset.count_cons_of_ne (by decide) r

theorem cc_v6_decR (r : Multiset Prog) : Multiset.count v6 (decR ::ₘ r) = Multiset.count v6 r := Multiset.count_cons_of_ne (by decide) r

theorem cc_v6_relRes (r : Multiset Prog) : Multiset.count v6 (relRes ::ₘ r) = Multiset.count v6 r := Multiset.count_cons_of_ne (by decide) r

theorem cc_v6_relRm (r : Multiset Prog) : Multiset.count v6 (relRm ::ₘ r) = Multiset.count v6 r := Multiset.count_cons_of_ne (by decide) r

theorem cc_v6_v0 (r : Multiset Prog) : Multiset.count v6 (v0 ::ₘ r) = Multiset.count v6 r := Multiset.count_cons_of_ne (by decide) r

theorem cc_v6_v1 (r : Multiset Prog) : Multiset.count v6 (v1 ::ₘ r) = Multiset.count v6 r := Multiset.count_cons_of_ne (by decide) r

theorem cc_v6_v2 (r : Multiset Prog) : Multiset.count v6 (v2 ::ₘ r) = Multiset.count v6 r := Multiset.count_cons_of_ne (by decide) r

theorem cc_v6_v3 (r : Multiset Prog) : Multiset.count v6 (v3 ::ₘ r) = Multiset.count v6 r := Multiset.count_cons_of_ne (by decide) r

theorem cc_v6_v4 (r : Multiset Prog) : Multiset.count v6 (v4 ::ₘ r) = Multiset.count v6 r := Multiset.count_cons_of_ne (by decide) r

theorem cc_v6_csW2 (r : Multiset Prog) : Multiset.count v6 (csW2 ::ₘ r) = Multiset.count v6 r := Multiset.count_cons_of_ne (by decide) r

theorem cc_v6_v6 (r : Multiset Prog) : Multiset.count v6 (v6 ::ₘ r) = Multiset.count v6 r + 1 := Multiset.count_cons_self v6 r

theorem cc_v6_v7 (r : Multiset Prog) : Multiset.count v6 (v7 ::ₘ r) = Multiset.count v6 r := Multiset.count_cons_of_ne (by decide) r

theorem cc_v6_v8 (r : Multiset Prog) : Multiset.count v6 (v8 ::ₘ r) = Multiset.count v6 r := Multiset.count_cons_of_ne (by decide) r

theorem cc_v6_v9 (r : Multiset Prog) : Multiset.count v6 (v9 ::ₘ r) = Multiset.count v6 r := Multiset.count_cons_of_ne (by decide) r

theorem cc_v6_v10 (r : Multiset Prog) : Multiset.count v6 (v10 ::ₘ r) = Multiset.count v6 r := Multiset.count_cons_of_ne (by decide) r

theorem cc_v6_pdone (r : Multiset Prog) : Multiset.count v6 (Prog.done ::ₘ r) = Multiset.count v6 r := Multiset.count_cons_of_ne (by decide) r

theorem cc_v7_b20 (r : Multiset Prog) : Multiset.count v7 (b20 ::ₘ r) = Multiset.count v7 r := Multiset.count_cons_of_ne (by decide) r

theorem cc_v7_b21 (r : Multiset Prog) : Multiset.count v7 (b21 ::ₘ r) = Multiset.count v7 r := Multiset.count_cons_of_ne (by decide) r

theorem cc_v7_b22 (r : Multiset Prog) : Multiset.count v7 (b22 ::ₘ r) = Multiset.count v7 r := Multiset.count_cons_of_ne (by decide) r

theorem cc_v7_b23 (r : Multiset Prog) : Multiset.count v7 (b23 ::ₘ r) = Multiset.count v7 r := Multiset.count_cons_of_ne (by decide) r

theorem cc_v7_b24 (r : Multiset Prog) : Multiset.count v7 (b24 ::ₘ r) = Multiset.count v7 r := Multiset.count_cons_of_ne (by decide) r

theorem cc_v7_b25 (r : Multiset Prog) : Multiset.count v7 (b25 ::ₘ r) = Multiset.count v7 r := Multiset.count_cons_of_ne (by decide) r

theorem cc_v7_csR (r : Multiset Prog) : Multiset.count v7 (csR ::ₘ r) = Multiset.count v7 r := Multiset.count_cons_of_ne (by decide) r

theorem cc_v7_rsProg (r : Multiset Prog) : Multiset.count v7 (rsProg ::ₘ r) = Multiset.count v7 r := Multiset.count_cons_of_ne (by decide) r

theorem cc_v7_decR (r : Multiset Prog) : Multiset.count v7 (decR ::ₘ r) = Multiset.count v7 r := Multiset.count_cons_of_ne (by decide) r

theorem cc_v7_relRes (r : Multiset Prog) : Multiset.count v7 (relRes ::ₘ r) = Multiset.count v7 r := Multiset.count_cons_of_ne (by decide) r

theorem cc_v7_relRm (r : Multiset Prog) : Multiset.count v7 (relRm ::ₘ r) = Multiset.count v7 r := Multiset.count_cons_of_ne (by decide) r

theorem cc_v7_v0 (r : Multiset Prog) : Multiset.count v7 (v0 ::ₘ r) = Multiset.count v7 r := Multiset.count_cons_of_ne (by decide) r

theorem cc_v7_v1 (r : Multiset Prog) : Multiset.count v7 (v1 ::ₘ r) = Multiset.count v7 r := Multiset.count_cons_of_ne (by decide) r

theorem cc_v7_v2 (r : Multiset Prog) : Multiset.count v7 (v2 ::ₘ r) = Multiset.count v7 r := Multiset.count_cons_of_ne (by decide) r

theorem cc_v7_v3 (r : Multiset Prog) : Multiset.count v7 (v3 ::ₘ r) = Multiset.count v7 r := Multiset.count_cons_of_ne (by decide) r

theorem cc_v7_v4 (r : Multiset Prog) : Multiset.count v7 (v4 ::ₘ r) = Multiset.count v7 r := Multiset.count_cons_of_ne (by decide) r

theorem cc_v7_csW2 (r : Multiset Prog) : Multiset.count v7 (csW2 ::ₘ r) = Multiset.count v7 r := Multiset.count_cons_of_ne (by decide) r

theorem cc_v7_v6 (r : Multiset Prog) : Multiset.count v7 (v6 ::ₘ r) = Multiset.count v7 r := Multiset.count_cons_of_ne (by decide) r

theorem cc_v7_v7 (r : Multiset Prog) : Multiset.count v7 (v7 ::ₘ r) = Multiset.count v7 r + 1 := Multiset.count_cons_self v7 r

theorem cc_v7_v8 (r : Multiset Prog) : Multiset.count v7 (v8 ::ₘ r) = Multiset.count v7 r := Multiset.count_cons_of_ne (by decide) r

theorem cc_v7_v9 (r : Multiset Prog) : Multiset.count v7 (v9 ::ₘ r) = Multiset.count v7 r := Multiset.count_cons_of_ne (by decide) r

theorem cc_v7_v10 (r : Multiset Prog) : Multiset.count v7 (v10 ::ₘ r) = Multiset.count v7 r := Multiset.count_cons_of_ne (by decide) r

theorem cc_v7_pdone (r : Multiset Prog) : Multiset.count v7 (Prog.done ::ₘ r) = Multiset.count v7 r := Multiset.count_cons_of_ne (by decide) r

theorem cc_v8_b20 (r : Multiset Prog) : Multiset.count v8 (b20 ::ₘ r) = Multiset.count v8 r := Multiset.count_cons_of_ne (by decide) r

theorem cc_v8_b21 (r : Multiset Prog) : Multiset.count v8 (b21 ::ₘ r) = Multiset.count v8 r := Multiset.count_cons_of_ne (by decide) r

theorem cc_v8_b22 (r : Multiset Prog) : Multiset.count v8 (b22 ::ₘ r) = Multiset.count v8 r := Multiset.count_cons_of_ne (by decide) r

theorem cc_v8_b23 (r : Multiset Prog) : Multiset.count v8 (b23 ::ₘ r) = Multiset.count v8 r := Multiset.count_cons_of_ne (by decide) r

theorem cc_v8_b24 (r : Multiset Prog) : Multiset.count v8 (b24 ::ₘ r) = Multiset.count v8 r := Multiset.count_cons_of_ne (by decide) r

theorem cc_v8_b25 (r : Multiset Prog) : Multiset.count v8 (b25 ::ₘ r) = Multiset.count v8 r := Multiset.count_cons_of_ne (by decide) r

theorem cc_v8_csR (r : Multiset Prog) : Multiset.count v8 (csR ::ₘ r) = Multiset.count v8 r := Multiset.count_cons_of_ne (by decide) r

theorem cc_v8_rsProg (r : Multiset Prog) : Multiset.count v8 (rsProg ::ₘ r) = Multiset.count v8 r := Multiset.count_cons_of_ne (by decide) r

theorem cc_v8_decR (r : Multiset Prog) : Multiset.count v8 (decR ::ₘ r) = Multiset.count v8 r := Multiset.count_cons_of_ne (by decide) r

theorem cc_v8_relRes (r : Multiset Prog) : Multiset.count v8 (relRes ::ₘ r) = Multiset.count v8 r := Multiset.count_cons_of_ne (by decide) r

theorem cc_v8_relRm (r : Multiset Prog) : Multiset.count v8 (relRm ::ₘ r) = Multiset.count v8 r := Multiset.count_cons_of_ne (by decide) r

theorem cc_v8_v0 (r : Multiset Prog) : Multiset.count v8 (v0 ::ₘ r) = Multiset.count v8 r := Multiset.count_cons_of_ne (by decide) r

theorem cc_v8_v1 (r : Multiset Prog) : Multiset.count v8 (v1 ::ₘ r) = Multiset.count v8 r := Multiset.count_cons_of_ne (by decide) r

theorem cc_v8_v2 (r : Multiset Prog) : Multiset.count v8 (v2 ::ₘ r) = Multiset.count v8 r := Multiset.count_cons_of_ne (by decide) r

theorem cc_v8_v3 (r : Multiset Prog) : Multiset.count v8 (v3 ::ₘ r) = Multiset.count v8 r := Multiset.count_cons_of_ne (by decide) r

theorem cc_v8_v4 (r : Multiset Prog) : Multiset.count v8 (v4 ::ₘ r) = Multiset.count v8 r := Multiset.count_cons_of_ne (by decide) r

theorem cc_v8_csW2 (r : Multiset Prog) : Multiset.count v8 (csW2 ::ₘ r) = Multiset.count v8 r := Multiset.count_cons_of_ne (by decide) r

theorem cc_v8_v6 (r : Multiset Prog) : Multiset.count v8 (v6 ::ₘ r) = Multiset.count v8 r := Multiset.count_cons_of_ne (by decide) r

theorem cc_v8_v7 (r : Multiset Prog) : Multiset.count v8 (v7 ::ₘ r) = Multiset.count v8 r := Multiset.count_cons_of_ne (by decide) r

theorem cc_v8_v8 (r : Multiset Prog) : Multiset.count v8 (v8 ::ₘ r) = Multiset.count v8 r + 1 := Multiset.count_cons_self v8 r

theorem cc_v8_v9 (r : Multiset Prog) : Multiset.count v8 (v9 ::ₘ r) = Multiset.count v8 r := Multiset.count_cons_of_ne (by decide) r

theorem cc_v8_v10 (r : Multiset Prog) : Multiset.count v8 (v10 ::ₘ r) = Multiset.count v8 r := Multiset.count_cons_of_ne (by decide) r

theorem cc_v8_pdone (r : Multiset Prog) : Multiset.count v8 (Prog.done ::ₘ r) = Multiset.count v8 r := Multiset.count_cons_of_ne (by decide) r

theorem cc_v9_b20 (r : Multiset Prog) : Multiset.count v9 (b20 ::ₘ r) = Multiset.count v9 r := Multiset.count_cons_of_ne (by decide) r

theorem cc_v9_b21 (r : Multiset Prog) : Multiset.count v9 (b21 ::ₘ r) = Multiset.count v9 r := Multiset.count_cons_of_ne (by decide) r

theorem cc_v9_b22 (r : Multiset Prog) : Multiset.count v9 (b22 ::ₘ r) = Multiset.count v9 r := Multiset.count_cons_of_ne (by decide) r

theorem cc_v9_b23 (r : Multiset Prog) : Multiset.count v9 (b23 ::ₘ r) = Multiset.count v9 r := Multiset.count_cons_of_ne (by decide) r

theorem cc_v9_b24 (r : Multiset Prog) : Multiset.count v9 (b24 ::ₘ r) = Multiset.count v9 r := Multiset.count_cons_of_ne (by decide) r

theorem cc_v9_b25 (r : Multiset Prog) : Multiset.count v9 (b25 ::ₘ r) = Multiset.count v9 r := Multiset.count_cons_of_ne (by decide) r

theorem cc_v9_csR (r : Multiset Prog) : Multiset.count v9 (csR ::ₘ r) = Multiset.count v9 r := Multiset.count_cons_of_ne (by decide) r

theorem cc_v9_rsProg (r : Multiset Prog) : Multiset.count v9 (rsProg ::ₘ r) = Multiset.count v9 r := Multiset.count_cons_of_ne (by decide) r

theorem cc_v9_decR (r : Multiset Prog) : Multiset.count v9 (decR ::ₘ r) = Multiset.count v9 r := Multiset.count_cons_of_ne (by decide) r

theorem cc_v9_relRes (r : Multiset Prog) : Multiset.count v9 (relRes ::ₘ r) = Multiset.count v9 r := Multiset.count_cons_of_ne (by decide) r

theorem cc_v9_relRm (r : Multiset Prog) : Multiset.count v9 (relRm ::ₘ r) = Multiset.count v9 r := Multiset.count_cons_of_ne (by decide) r

theorem cc_v9_v0 (r : Multiset Prog) : Multiset.count v9 (v0 ::ₘ r) = Multiset.count v9 r := Multiset.count_cons_of_ne (by decide) r

theorem cc_v9_v1 (r : Multiset Prog) : Multiset.count v9 (v1 ::ₘ r) = Multiset.count v9 r := Multiset.count_cons_of_ne (by decide) r

theorem cc_v9_v2 (r : Multiset Prog) : Multiset.count v9 (v2 ::ₘ r) = Multiset.count v9 r := Multiset.count_cons_of_ne (by decide) r

theorem cc_v9_v3 (r : Multiset Prog) : Multiset.count v9 (v3 ::ₘ r) = Multiset.count v9 r := Multiset.count_cons_of_ne (by decide) r

theorem cc_v9_v4 (r : Multiset Prog) : Multiset.count v9 (v4 ::ₘ r) = Multiset.count v9 r := Multiset.count_cons_of_ne (by decide) r

theorem cc_v9_csW2 (r : Multiset Prog) : Multiset.count v9 (csW2 ::ₘ r) = Multiset.count v9 r := Multiset.count_cons_of_ne (by decide) r

theorem cc_v9_v6 (r : Multiset Prog) : Multiset.count v9 (v6 ::ₘ r) = Multiset.count v9 r := Multiset.count_cons_of_ne (by decide) r

theorem cc_v9_v7 (r : Multiset Prog) : Multiset.count v9 (v7 ::ₘ r) = Multiset.count v9 r := Multiset.count_cons_of_ne (by decide) r

theorem cc_v9_v8 (r : Multiset Prog) : Multiset.count v9 (v8 ::ₘ r) = Multiset.count v9 r := Multiset.count_cons_of_ne (by decide) r

theorem cc_v9_v9 (r : Multiset Prog) : Multiset.count v9 (v9 ::ₘ r) = Multiset.count v9 r + 1 := Multiset.count_cons_self v9 r

theorem cc_v9_v10 (r : Multiset Prog) : Multiset.count v9 (v10 ::ₘ r) = Multiset.count v9 r := Multiset.count_cons_of_ne (by decide) r

theorem cc_v9_pdone (r : Multiset Prog) : Multiset.count v9 (Prog.done ::ₘ r) = Multiset.count v9 r := Multiset.count_cons_of_ne (by decide) r

theorem cc_v10_b20 (r : Multiset Prog) : Multiset.count v10 (b20 ::ₘ r) = Multiset.count v10 r := Multiset.count_cons_of_ne (by decide) r

theorem cc_v10_b21 (r : Multiset Prog) : Multiset.count v10 (b21 ::ₘ r) = Multiset.count v10 r := Multiset.count_cons_of_ne (by decide) r

theorem cc_v10_b22 (r : Multiset Prog) : Multiset.count v10 (b22 ::ₘ r) = Multiset.count v10 r := Multiset.count_cons_of_ne (by decide) r

theorem cc_v10_b23 (r : Multiset Prog) : Multiset.count v10 (b23 ::ₘ r) = Multiset.count v10 r := Multiset.count_cons_of_ne (by decide) r

theorem cc_v10_b24 (r : Multiset Prog) : Multiset.count v10 (b24 ::ₘ r) = Multiset.count v10 r := Multiset.count_cons_of_ne (by decide) r

theorem cc_v10_b25 (r : Multiset Prog) : Multiset.count v10 (b25 ::ₘ r) = Multiset.count v10 r := Multiset.count_cons_of_ne (by decide) r

theorem cc_v10_csR (r : Multiset Prog) : Multiset.count v10 (csR ::ₘ r) = Multiset.count v10 r := Multiset.count_cons_of_ne (by decide) r

theorem cc_v10_rsProg (r : Multiset Prog) : Multiset.count v10 (rsProg ::ₘ r) = Multiset.count v10 r := Multiset.count_cons_of_ne (by decide) r

theorem cc_v10_decR (r : Multiset Prog) : Multiset.count v10 (decR ::ₘ r) = Multiset.count v10 r := Multiset.count_cons_of_ne (by decide) r

theorem cc_v10_relRes (r : Multiset Prog) : Multiset.count v10 (relRes ::ₘ r) = Multiset.count v10 r := Multiset.count_cons_of_ne (by decide) r

theorem cc_v10_relRm (r : Multiset Prog) : Multiset.count v10 (relRm ::ₘ r) = Multiset.count v10 r := Multiset.count_cons_of_ne (by decide) r

theorem cc_v10_v0 (r : Multiset Prog) : Multiset.count v10 (v0 ::ₘ r) = Multiset.count v10 r := Multiset.count_cons_of_ne (by decide) r

theorem cc_v10_v1 (r : Multiset Prog) : Multiset.count v10 (v1 ::ₘ r) = Multiset.count v10 r := Multiset.count_cons_of_ne (by decide) r

theorem cc_v10_v2 (r : Multiset Prog) : Multiset.count v10 (v2 ::ₘ r) = Multiset.count v10 r := Multiset.count_cons_of_ne (by decide) r

theorem cc_v10_v3 (r : Multiset Prog) : Multiset.count v10 (v3 ::ₘ r) = Multiset.count v10 r := Multiset.count_cons_of_ne (by decide) r

theorem cc_v10_v4 (r : Multiset Prog) : Multiset.count v10 (v4 ::ₘ r) = Multiset.count v10 r := Multiset.count_cons_of_ne (by decide) r

theorem cc_v10_csW2 (r : Multiset Prog) : Multiset.count v10 (csW2 ::ₘ r) = Multiset.count v10 r := Multiset.count_cons_of_ne (by decide) r

theorem cc_v10_v6 (r : Multiset Prog) : Multiset.count v10 (v6 ::ₘ r) = Multiset.count v10 r := Multiset.count_cons_of_ne (by decide) r

theorem cc_v10_v7 (r : Multiset Prog) : Multiset.count v10 (v7 ::ₘ r) = Multiset.count v10 r := Multiset.count_cons_of_ne (by decide) r

theorem cc_v10_v8 (r : Multiset Prog) : Multiset.count v10 (v8 ::ₘ r) = Multiset.count v10 r := Multiset.count_cons_of_ne (by decide) r

theorem cc_v10_v9 (r : Multiset Prog) : Multiset.count v10 (v9 ::ₘ r) = Multiset.count v10 r := Multiset.count_cons_of_ne (by decide) r

theorem cc_v10_v10 (r : Multiset Prog) : Multiset.count v10 (v10 ::ₘ r) = Multiset.count v10 r + 1 := Multiset.count_cons_self v10 r

theorem cc_v10_pdone (r : Multiset Prog) : Multiset.count v10 (Prog.done ::ₘ r) = Multiset.count v10 r := Multiset.count_cons_of_ne (by decide) r

theorem cc_c31_c30 (r : Multiset Prog) : Multiset.count c31 (c30 ::ₘ r) = Multiset.count c31 r := Multiset.count_cons_of_ne (by decide) r

theorem cc_c31_c31 (r : Multiset Prog) : Multiset.count c31 (c31 ::ₘ r) = Multiset.count c31 r + 1 := Multiset.count_cons_self c31 r

theorem cc_c31_c32 (r : Multiset Prog) : Multiset.count c31 (c32 ::ₘ r) = Multiset.count c31 r := Multiset.count_cons_of_ne (by decide) r

theorem cc_c31_c33 (r : Multiset Prog) : Multiset.count c31 (c33 ::ₘ r) = Multiset.count c31 r := Multiset.count_cons_of_ne (by decide) r

theorem cc_c31_c34 (r : Multiset Prog) : Multiset.count c31 (c34 ::ₘ r) = Multiset.count c31 r := Multiset.count_cons_of_ne (by decide) r

theorem cc_c31_relRmCs (r : Multiset Prog) : Multiset.count c31 (relRmCs ::ₘ r) = Multiset.count c31 r := Multiset.count_cons_of_ne (by decide) r

theorem cc_c31_csR (r : Multiset Prog) : Multiset.count c31 (csR ::ₘ r) = Multiset.count c31 r := Multiset.count_cons_of_ne (by decide) r

theorem cc_c31_rsProg (r : Multiset Prog) : Multiset.count c31 (rsProg ::ₘ r) = Multiset.count c31 r := Multiset.count_cons_of_ne (by decide) r

theorem cc_c31_decR (r : Multiset Prog) : Multiset.count c31 (decR ::ₘ r) = Multiset.count c31 r := Multiset.count_cons_of_ne (by decide) r

theorem cc_c31_relRes (r : Multiset Prog) : Multiset.count c31 (relRes ::ₘ r) = Multiset.count c31 r := Multiset.count_cons_of_ne (by decide) r

theorem cc_c31_relRm (r : Multiset Prog) : Multiset.count c31 (relRm ::ₘ r) = Multiset.count c31 r := Multiset.count_cons_of_ne (by decide) r

theorem cc_c31_x0 (r : Multiset Prog) : Multiset.count c31 (x0 ::ₘ r) = Multiset.count c31 r := Multiset.count_cons_of_ne (by decide) r

theorem cc_c31_x1 (r : Multiset Prog) : Multiset.count c31 (x1 ::ₘ r) = Multiset.count c31 r := Multiset.count_cons_of_ne (by decide) r

theorem cc_c31_x2 (r : Multiset Prog) : Multiset.count c31 (x2 ::ₘ r) = Multiset.count c31 r := Multiset.count_cons_of_ne (by decide) r

theorem cc_c31_csW (r : Multiset Prog) : Multiset.count c31 (csW ::ₘ r) = Multiset.count c31 r := Multiset.count_cons_of_ne (by decide) r

theorem cc_c31_relE (r : Multiset Prog) : Multiset.count c31 (relE ::ₘ r) = Multiset.count c31 r := Multiset.count_cons_of_ne (by decide) r

theorem cc_c31_pdone (r : Multiset Prog) : Multiset.count c31 (Prog.done ::ₘ r) = Multiset.count c31 r := Multiset.count_cons_of_ne (by decide) r

theorem cc_c32_c30 (r : Multiset Prog) : Multiset.count c32 (c30 ::ₘ r) = Multiset.count c32 r := Multiset.count_cons_of_ne (by decide) r

theorem cc_c32_c31 (r : Multiset Prog) : Multiset.count c32 (c31 ::ₘ r) = Multiset.count c32 r := Multiset.count_cons_of_ne (by decide) r

theorem cc_c32_c32 (r : Multiset Prog) : Multiset.count c32 (c32 ::ₘ r) = Multiset.count c32 r + 1 := Multiset.count_cons_self c32 r

theorem cc_c32_c33 (r : Multiset Prog) : Multiset.count c32 (c33 ::ₘ r) = Multiset.count c32 r := Multiset.count_cons_of_ne (by decide) r

theorem cc_c32_c34 (r : Multiset Prog) : Multiset.count c32 (c34 ::ₘ r) = Multiset.count c32 r := Multiset.count_cons_of_ne (by decide) r

theorem cc_c32_relRmCs (r : Multiset Prog) : Multiset.count c32 (relRmCs ::ₘ r) = Multiset.count c32 r := Multiset.count_cons_of_ne (by decide) r

theorem cc_c32_csR (r : Multiset Prog) : Multiset.count c32 (csR ::ₘ r) = Multiset.count c32 r := Multiset.count_cons_of_ne (by decide) r

theorem cc_c32_rsProg (r : Multiset Prog) : Multiset.count c32 (rsProg ::ₘ r) = Multiset.count c32 r := Multiset.count_cons_of_ne (by decide) r

theorem cc_c32_decR (r : Multiset Prog) : Multiset.count c32 (decR ::ₘ r) = Multiset.count c32 r := Multiset.count_cons_of_ne (by decide) r

theorem cc_c32_relRes (r : Multiset Prog) : Multiset.count c32 (relRes ::ₘ r) = Multiset.count c32 r := Multiset.count_cons_of_ne (by decide) r

theorem cc_c32_relRm (r : Multiset Prog) : Multiset.count c32 (relRm ::ₘ r) = Multiset.count c32 r := Multiset.count_cons_of_ne (by decide) r

theorem cc_c32_x0 (r : Multiset Prog) : Multiset.count c32 (x0 ::ₘ r) = Multiset.count c32 r := Multiset.count_cons_of_ne (by decide) r

theorem cc_c32_x1 (r : Multiset Prog) : Multiset.count c32 (x1 ::ₘ r) = Multiset.count c32 r := Multiset.count_cons_of_ne (by decide) r

theorem cc_c32_x2 (r : Multiset Prog) : Multiset.count c32 (x2 ::ₘ r) = Multiset.count c32 r := Multiset.count_cons_of_ne (by decide) r

theorem cc_c32_csW (r : Multiset Prog) : Multiset.count c32 (csW ::ₘ r) = Multiset.count c32 r := Multiset.count_cons_of_ne (by decide) r

theorem cc_c32_relE (r : Multiset Prog) : Multiset.count c32 (relE ::ₘ r) = Multiset.count c32 r := Multiset.count_cons_of_ne (by decide) r

theorem cc_c32_pdone (r : Multiset Prog) : Multiset.count c32 (Prog.done ::ₘ r) = Multiset.count c32 r := Multiset.count_cons_of_ne (by decide) r

theorem cc_c33_c30 (r : Multiset Prog) : Multiset.count c33 (c30 ::ₘ r) = Multiset.count c33 r := Multiset.count_cons_of_ne (by decide) r

theorem cc_c33_c31 (r : Multiset Prog) : Multiset.count c33 (c31 ::ₘ r) = Multiset.count c33 r := Multiset.count_cons_of_ne (by decide) r

theorem cc_c33_c32 (r : Multiset Prog) : Multiset.count c33 (c32 ::ₘ r) = Multiset.count c33 r := Multiset.count_cons_of_ne (by decide) r

theorem cc_c33_c33 (r : Multiset Prog) : Multiset.count c33 (c33 ::ₘ r) = Multiset.count c33 r + 1 := Multiset.count_cons_self c33 r

theorem cc_c33_c34 (r : Multiset Prog) : Multiset.count c33 (c34 ::ₘ r) = Multiset.count c33 r := Multiset.count_cons_of_ne (by decide) r

theorem cc_c33_relRmCs (r : Multiset Prog) : Multiset.count c33 (relRmCs ::ₘ r) = Multiset.count c33 r := Multiset.count_cons_of_ne (by decide) r

theorem cc_c33_csR (r : Multiset Prog) : Multiset.count c33 (csR ::ₘ r) = Multiset.count c33 r := Multiset.count_cons_of_ne (by decide) r

theorem cc_c33_rsProg (r : Multiset Prog) : Multiset.count c33 (rsProg ::ₘ r) = Multiset.count c33 r := Multiset.count_cons_of_ne (by decide) r

theorem cc_c33_decR (r : Multiset Prog) : Multiset.count c33 (decR ::ₘ r) = Multiset.count c33 r := Multiset.count_cons_of_ne (by decide) r

theorem cc_c33_relRes (r : Multiset Prog) : Multiset.count c33 (relRes ::ₘ r) = Multiset.count c33 r := Multiset.count_cons_of_ne (by decide) r

theorem cc_c33_relRm (r : Multiset Prog) : Multiset.count c33 (relRm ::ₘ r) = Multiset.count c33 r := Multiset.count_cons_of_ne (by decide) r

theorem cc_c33_x0 (r : Multiset Prog) : Multiset.count c33 (x0 ::ₘ r) = Multiset.count c33 r := Multiset.count_cons_of_ne (by decide) r

theorem cc_c33_x1 (r : Multiset Prog) : Multiset.count c33 (x1 ::ₘ r) = Multiset.count c33 r := Multiset.count_cons_of_ne (by decide) r

theorem cc_c33_x2 (r : Multiset Prog) : Multiset.count c33 (x2 ::ₘ r) = Multiset.count c33 r := Multiset.count_cons_of_ne (by decide) r

theorem cc_c33_csW (r : Multiset Prog) : Multiset.count c33 (csW ::ₘ r) = Multiset.count c33 r := Multiset.count_cons_of_ne (by decide) r

theorem cc_c33_relE (r : Multiset Prog) : Multiset.count c33 (relE ::ₘ r) = Multiset.count c33 r := Multiset.count_cons_of_ne (by decide) r

theorem cc_c33_pdone (r : Multiset Prog) : Multiset.count c33 (Prog.done ::ₘ r) = Multiset.count c33 r := Multiset.count_cons_of_ne (by decide) r

theorem cc_c34_c30 (r : Multiset Prog) : Multiset.count c34 (c30 ::ₘ r) = Multiset.count c34 r := Multiset.count_cons_of_ne (by decide) r

theorem cc_c34_c31 (r : Multiset Prog) : Multiset.count c34 (c31 ::ₘ r) = Multiset.count c34 r := Multiset.count_cons_of_ne (by decide) r

theorem cc_c34_c32 (r : Multiset Prog) : Multiset.count c34 (c32 ::ₘ r) = Multiset.count c34 r := Multiset.count_cons_of_ne (by decide) r

theorem cc_c34_c33 (r : Multiset Prog) : Multiset.count c34 (c33 ::ₘ r) = Multiset.count c34 r := Multiset.count_cons_of_ne (by decide) r

theorem cc_c34_c34 (r : Multiset Prog) : Multiset.count c34 (c34 ::ₘ r) = Multiset.count c34 r + 1 := Multiset.count_cons_self c34 r

theorem cc_c34_relRmCs (r : Multiset Prog) : Multiset.count c34 (relRmCs ::ₘ r) = Multiset.count c34 r := Multiset.count_cons_of_ne (by decide) r

theorem cc_c34_csR (r : Multiset Prog) : Multiset.count c34 (csR ::ₘ r) = Multiset.count c34 r := Multiset.count_cons_of_ne (by decide) r

theorem cc_c34_rsProg (r : Multiset Prog) : Multiset.count c34 (rsProg ::ₘ r) = Multiset.count c34 r := Multiset.count_cons_of_ne (by decide) r

theorem cc_c34_decR (r : Multiset Prog) : Multiset.count c34 (decR ::ₘ r) = Multiset.count c34 r := Multiset.count_cons_of_ne (by decide) r

theorem cc_c34_relRes (r : Multiset Prog) : Multiset.count c34 (relRes ::ₘ r) = Multiset.count c34 r := Multiset.count_cons_of_ne (by decide) r

theorem cc_c34_relRm (r : Multiset Prog) : Multiset.count c34 (relRm ::ₘ r) = Multiset.count c34 r := Multiset.count_cons_of_ne (by decide) r

theorem cc_c34_x0 (r : Multiset Prog) : Multiset.count c34 (x0 ::ₘ r) = Multiset.count c34 r := Multiset.count_cons_of_ne (by decide) r

theorem cc_c34_x1 (r : Multiset Prog) : Multiset.count c34 (x1 ::ₘ r) = Multiset.count c34 r := Multiset.count_cons_of_ne (by decide) r

theorem cc_c34_x2 (r : Multiset Prog) : Multiset.count c34 (x2 ::ₘ r) = Multiset.count c34 r := Multiset.count_cons_of_ne (by decide) r

theorem cc_c34_csW (r : Multiset Prog) : Multiset.count c34 (csW ::ₘ r) = Multiset.count c34 r := Multiset.count_cons_of_ne (by decide) r

theorem cc_c34_relE (r : Multiset Prog) : Multiset.count c34 (relE ::ₘ r) = Multiset.count c34 r := Multiset.count_cons_of_ne (by decide) r

theorem cc_c34_pdone (r : Multiset Prog) : Multiset.count c34 (Prog.done ::ₘ r) = Multiset.count c34 r := Multiset.count_cons_of_ne (by decide) r

theorem cc_relRmCs_c30 (r : Multiset Prog) : Multiset.count relRmCs (c30 ::ₘ r) = Multiset.count relRmCs r := Multiset.count_cons_of_ne (by decide) r

theorem cc_relRmCs_c31 (r : Multiset Prog) : Multiset.count relRmCs (c31 ::ₘ r) = Multiset.count relRmCs r := Multiset.count_cons_of_ne (by decide) r

theorem cc_relRmCs_c32 (r : Multiset Prog) : Multiset.count relRmCs (c32 ::ₘ r) = Multiset.count relRmCs r := Multiset.count_cons_of_ne (by decide) r

theorem cc_relRmCs_c33 (r : Multiset Prog) : Multiset.count relRmCs (c33 ::ₘ r) = Multiset.count relRmCs r := Multiset.count_cons_of_ne (by decide) r

theorem cc_relRmCs_c34 (r : Multiset Prog) : Multiset.count relRmCs (c34 ::ₘ r) = Multiset.count relRmCs r := Multiset.count_cons_of_ne (by decide) r

theorem cc_relRmCs_x0 (r : Multiset Prog) : Multiset.count relRmCs (x0 ::ₘ r) = Multiset.count relRmCs r := Multiset.count_cons_of_ne (by decide) r

theorem cc_relRmCs_x1 (r : Multiset Prog) : Multiset.count relRmCs (x1 ::ₘ r) = Multiset.count relRmCs r := Multiset.count_cons_of_ne (by decide) r

theorem cc_relRmCs_x2 (r : Multiset Prog) : Multiset.count relRmCs (x2 ::ₘ r) = Multiset.count relRmCs r := Multiset.count_cons_of_ne (by decide) r

theorem cc_csR_c30 (r : Multiset Prog) : Multiset.count csR (c30 ::ₘ r) = Multiset.count csR r := Multiset.count_cons_of_ne (by decide) r

theorem cc_csR_c31 (r : Multiset Prog) : Multiset.count csR (c31 ::ₘ r) = Multiset.count csR r := Multiset.count_cons_of_ne (by decide) r

theorem cc_csR_c32 (r : Multiset Prog) : Multiset.count csR (c32 ::ₘ r) = Multiset.count csR r := Multiset.count_cons_of_ne (by decide) r

theorem cc_csR_c33 (r : Multiset Prog) : Multiset.count csR (c33 ::ₘ r) = Multiset.count csR r := Multiset.count_cons_of_ne (by decide) r

theorem cc_csR_c34 (r : Multiset Prog) : Multiset.count csR (c34 ::ₘ r) = Multiset.count csR r := Multiset.count_cons_of_ne (by decide) r

theorem cc_csR_x0 (r : Multiset Prog) : Multiset.count csR (x0 ::ₘ r) = Multiset.count csR r := Multiset.count_cons_of_ne (by decide) r

theorem cc_csR_x1 (r : Multiset Prog) : Multiset.count csR (x1 ::ₘ r) = Multiset.count csR r := Multiset.count_cons_of_ne (by decide) r

theorem cc_csR_x2 (r : Multiset Prog) : Multiset.count csR (x2 ::ₘ r) = Multiset.count csR r := Multiset.count_cons_of_ne (by decide) r

theorem cc_rsProg_c30 (r : Multiset Prog) : Multiset.count rsProg (c30 ::ₘ r) = Multiset.count rsProg r := Multiset.count_cons_of_ne (by decide) r

theorem cc_rsProg_c31 (r : Multiset Prog) : Multiset.count rsProg (c31 ::ₘ r) = Multiset.count rsProg r := Multiset.count_cons_of_ne (by decide) r

theorem cc_rsProg_c32 (r : Multiset Prog) : Multiset.count rsProg (c32 ::ₘ r) = Multiset.count rsProg r := Multiset.count_cons_of_ne (by decide) r

theorem cc_rsProg_c33 (r : Multiset Prog) : Multiset.count rsProg (c33 ::ₘ r) = Multiset.count rsProg r := Multiset.count_cons_of_ne (by decide) r

theorem cc_rsProg_c34 (r : Multiset Prog) : Multiset.count rsProg (c34 ::ₘ r) = Multiset.count rsProg r := Multiset.count_cons_of_ne (by decide) r

theorem cc_rsProg_x0 (r : Multiset Prog) : Multiset.count rsProg (x0 ::ₘ r) = Multiset.count rsProg r := Multiset.count_cons_of_ne (by decide) r

theorem cc_rsProg_x1 (r : Multiset Prog) : Multiset.count rsProg (x1 ::ₘ r) = Multiset.count rsProg r := Multiset.count_cons_of_ne (by decide) r

theorem cc_rsProg_x2 (r : Multiset Prog) : Multiset.count rsProg (x2 ::ₘ r) = Multiset.count rsProg r := Multiset.count_cons_of_ne (by decide) r

theorem cc_decR_c30 (r : Multiset Prog) : Multiset.count decR (c30 ::ₘ r) = Multiset.count decR r := Multiset.count_cons_of_ne (by decide) r

theorem cc_decR_c31 (r : Multiset Prog) : Multiset.count decR (c31 ::ₘ r) = Multiset.count decR r := Multiset.count_cons_of_ne (by decide) r

theorem cc_decR_c32 (r : Multiset Prog) : Multiset.count decR (c32 ::ₘ r) = Multiset.count decR r := Multiset.count_cons_of_ne (by decide) r

theorem cc_decR_c33 (r : Multiset Prog) : Multiset.count decR (c33 ::ₘ r) = Multiset.count decR r := Multiset.count_cons_of_ne (by decide) r

theorem cc_decR_c34 (r : Multiset Prog) : Multiset.count decR (c34 ::ₘ r) = Multiset.count decR r := Multiset.count_cons_of_ne (by decide) r

theorem cc_decR_x0 (r : Multiset Prog) : Multiset.count decR (x0 ::ₘ r) = Multiset.count decR r := Multiset.count_cons_of_ne (by decide) r

theorem cc_decR_x1 (r : Multiset Prog) : Multiset.count decR (x1 ::ₘ r) = Multiset.count decR r := Multiset.count_cons_of_ne (by decide) r

theorem cc_decR_x2 (r : Multiset Prog) : Multiset.count decR (x2 ::ₘ r) = Multiset.count decR r := Multiset.count_cons_of_ne (by decide) r

theorem cc_relRes_c30 (r : Multiset Prog) : Multiset.count relRes (c30 ::ₘ r) = Multiset.count relRes r := Multiset.count_cons_of_ne (by decide) r

theorem cc_relRes_c31 (r : Multiset Prog) : Multiset.count relRes (c31 ::ₘ r) = Multiset.count relRes r := Multiset.count_cons_of_ne (by decide) r

theorem cc_relRes_c32 (r : Multiset Prog) : Multiset.count relRes (c32 ::ₘ r) = Multiset.count relRes r := Multiset.count_cons_of_ne (by decide) r

theorem cc_relRes_c33 (r : Multiset Prog) : Multiset.count relRes (c33 ::ₘ r) = Multiset.count relRes r := Multiset.count_cons_of_ne (by decide) r

theorem cc_relRes_c34 (r : Multiset Prog) : Multiset.count relRes (c34 ::ₘ r) = Multiset.count relRes r := Multiset.count_cons_of_ne (by decide) r

theorem cc_relRes_x0 (r : Multiset Prog) : Multiset.count relRes (x0 ::ₘ r) = Multiset.count relRes r := Multiset.count_cons_of_ne (by decide) r

theorem cc_relRes_x1 (r : Multiset Prog) : Multiset.count relRes (x1 ::ₘ r) = Multiset.count relRes r := Multiset.count_cons_of_ne (by decide) r

theorem cc_relRes_x2 (r : Multiset Prog) : Multiset.count relRes (x2 ::ₘ r) = Multiset.count relRes r := Multiset.count_cons_of_ne (by decide) r

theorem cc_relRm_c30 (r : Multiset Prog) : Multiset.count relRm (c30 ::ₘ r) = Multiset.count relRm r := Multiset.count_cons_of_ne (by decide) r

theorem cc_relRm_c31 (r : Multiset Prog) : Multiset.count relRm (c31 ::ₘ r) = Multiset.count relRm r := Multiset.count_cons_of_ne (by decide) r

theorem cc_relRm_c32 (r : Multiset Prog) : Multiset.count relRm (c32 ::ₘ r) = Multiset.count relRm r := Multiset.count_cons_of_ne (by decide) r

theorem cc_relRm_c33 (r : Multiset Prog) : Multiset.count relRm (c33 ::ₘ r) = Multiset.count relRm r := Multiset.count_cons_of_ne (by decide) r

theorem cc_relRm_c34 (r : Multiset Prog) : Multiset.count relRm (c34 ::ₘ r) = Multiset.count relRm r := Multiset.count_cons_of_ne (by decide) r

theorem cc_relRm_x0 (r : Multiset Prog) : Multiset.count relRm (x0 ::ₘ r) = Multiset.count relRm r := Multiset.count_cons_of_ne (by decide) r

theorem cc_relRm_x1 (r : Multiset Prog) : Multiset.count relRm (x1 ::ₘ r) = Multiset.count relRm r := Multiset.count_cons_of_ne (by decide) r

theorem cc_relRm_x2 (r : Multiset Prog) : Multiset.count relRm (x2 ::ₘ r) = Multiset.count relRm r := Multiset.count_cons_of_ne (by decide) r

theorem cc_x1_c30 (r : Multiset Prog) : Multiset.count x1 (c30 ::ₘ r) = Multiset.count x1 r := Multiset.count_cons_of_ne (by decide) r

theorem cc_x1_c31 (r : Multiset Prog) : Multiset.count x1 (c31 ::ₘ r) = Multiset.count x1 r := Multiset.count_cons_of_ne (by decide) r

theorem cc_x1_c32 (r : Multiset Prog) : Multiset.count x1 (c32 ::ₘ r) = Multiset.count x1 r := Multiset.count_cons_of_ne (by decide) r

theorem cc_x1_c33 (r : Multiset Prog) : Multiset.count x1 (c33 ::ₘ r) = Multiset.count x1 r := Multiset.count_cons_of_ne (by decide) r

theorem cc_x1_c34 (r : Multiset Prog) : Multiset.count x1 (c34 ::ₘ r) = Multiset.count x1 r := Multiset.count_cons_of_ne (by decide) r

theorem cc_x1_relRmCs (r : Multiset Prog) : Multiset.count x1 (relRmCs ::ₘ r) = Multiset.count x1 r := Multiset.count_cons_of_ne (by decide) r

theorem cc_x1_csR (r : Multiset Prog) : Multiset.count x1 (csR ::ₘ r) = Multiset.count x1 r := Multiset.count_cons_of_ne (by decide) r

theorem cc_x1_rsProg (r : Multiset Prog) : Multiset.count x1 (rsProg ::ₘ r) = Multiset.count x1 r := Multiset.count_cons_of_ne (by decide) r

theorem cc_x1_decR (r : Multiset Prog) : Multiset.count x1 (decR ::ₘ r) = Multiset.count x1 r := Multiset.count_cons_of_ne (by decide) r

theorem cc_x1_relRes (r : Multiset Prog) : Multiset.count x1 (relRes ::ₘ r) = Multiset.count x1 r := Multiset.count_cons_of_ne (by decide) r

theorem cc_x1_relRm (r : Multiset Prog) : Multiset.count x1 (relRm ::ₘ r) = Multiset.count x1 r := Multiset.count_cons_of_ne (by decide) r

theorem cc_x1_x0 (r : Multiset Prog) : Multiset.count x1 (x0 ::ₘ r) = Multiset.count x1 r := Multiset.count_cons_of_ne (by decide) r

theorem cc_x1_x1 (r : Multiset Prog) : Multiset.count x1 (x1 ::ₘ r) = Multiset.count x1 r + 1 := Multiset.count_cons_self x1 r

theorem cc_x1_x2 (r : Multiset Prog) : Multiset.count x1 (x2 ::ₘ r) = Multiset.count x1 r := Multiset.count_cons_of_ne (by decide) r

theorem cc_x1_csW (r : Multiset Prog) : Multiset.count x1 (csW ::ₘ r) = Multiset.count x1 r := Multiset.count_cons_of_ne (by decide) r

theorem cc_x1_relE (r : Multiset Prog) : Multiset.count x1 (relE ::ₘ r) = Multiset.count x1 r := Multiset.count_cons_of_ne (by decide) r

theorem cc_x1_pdone (r : Multiset Prog) : Multiset.count x1 (Prog.done ::ₘ r) = Multiset.count x1 r := Multiset.count_cons_of_ne (by decide) r

theorem cc_x2_c30 (r : Multiset Prog) : Multiset.count x2 (c30 ::ₘ r) = Multiset.count x2 r := Multiset.count_cons_of_ne (by decide) r

theorem cc_x2_c31 (r : Multiset Prog) : Multiset.count x2 (c31 ::ₘ r) = Multiset.count x2 r := Multiset.count_cons_of_ne (by decide) r

theorem cc_x2_c32 (r : Multiset Prog) : Multiset.count x2 (c32 ::ₘ r) = Multiset.count x2 r := Multiset.count_cons_of_ne (by decide) r

theorem cc_x2_c33 (r : Multiset Prog) : Multiset.count x2 (c33 ::ₘ r) = Multiset.count x2 r := Multiset.count_cons_of_ne (by decide) r

theorem cc_x2_c34 (r : Multiset Prog) : Multiset.count x2 (c34 ::ₘ r) = Multiset.count x2 r := Multiset.count_cons_of_ne (by decide) r

theorem cc_x2_relRmCs (r : Multiset Prog) : Multiset.count x2 (relRmCs ::ₘ r) = Multiset.count x2 r := Multiset.count_cons_of_ne (by decide) r

theorem cc_x2_csR (r : Multiset Prog) : Multiset.count x2 (csR ::ₘ r) = Multiset.count x2 r := Multiset.count_cons_of_ne (by decide) r

theorem cc_x2_rsProg (r : Multiset Prog) : Multiset.count x2 (rsProg ::ₘ r) = Multiset.count x2 r := Multiset.count_cons_of_ne (by decide) r

theorem cc_x2_decR (r : Multiset Prog) : Multiset.count x2 (decR ::ₘ r) = Multiset.count x2 r := Multiset.count_cons_of_ne (by decide) r

theorem cc_x2_relRes (r : Multiset Prog) : Multiset.count x2 (relRes ::ₘ r) = Multiset.count x2 r := Multiset.count_cons_of_ne (by decide) r

theorem cc_x2_relRm (r : Multiset Prog) : Multiset.count x2 (relRm ::ₘ r) = Multiset.count x2 r := Multiset.count_cons_of_ne (by decide) r

theorem cc_x2_x0 (r : Multiset Prog) : Multiset.count x2 (x0 ::ₘ r) = Multiset.count x2 r := Multiset.count_cons_of_ne (by decide) r

theorem cc_x2_x1 (r : Multiset Prog) : Multiset.count x2 (x1 ::ₘ r) = Multiset.count x2 r := Multiset.count_cons_of_ne (by decide) r

theorem cc_x2_x2 (r : Multiset Prog) : Multiset.count x2 (x2 ::ₘ r) = Multiset.count x2 r + 1 := Multiset.count_cons_self x2 r

theorem cc_x2_csW (r : Multiset Prog) : Multiset.count x2 (csW ::ₘ r) = Multiset.count x2 r := Multiset.count_cons_of_ne (by decide) r

theorem cc_x2_relE (r : Multiset Prog) : Multiset.count x2 (relE ::ₘ r) = Multiset.count x2 r := Multiset.count_cons_of_ne (by decide) r

theorem cc_x2_pdone (r : Multiset Prog) : Multiset.count x2 (Prog.done ::ₘ r) = Multiset.count x2 r := Multiset.count_cons_of_ne (by decide) r

theorem cc_csW_c30 (r : Multiset Prog) : Multiset.count csW (c30 ::ₘ r) = Multiset.count csW r := Multiset.count_cons_of_ne (by decide) r

theorem cc_csW_c31 (r : Multiset Prog) : Multiset.count csW (c31 ::ₘ r) = Multiset.count csW r := Multiset.count_cons_of_ne (by decide) r

theorem cc_csW_c32 (r : Multiset Prog) : Multiset.count csW (c32 ::ₘ r) = Multiset.count csW r := Multiset.count_cons_of_ne (by decide) r

theorem cc_csW_c33 (r : Multiset Prog) : Multiset.count csW (c33 ::ₘ r) = Multiset.count csW r := Multiset.count_cons_of_ne (by decide) r

theorem cc_csW_c34 (r : Multiset Prog) : Multiset.count csW (c34 ::ₘ r) = Multiset.count csW r := Multiset.count_cons_of_ne (by decide) r

theorem cc_csW_x0 (r : Multiset Prog) : Multiset.count csW (x0 ::ₘ r) = Multiset.count csW r := Multiset.count_cons_of_ne (by decide) r

theorem cc_csW_x1 (r : Multiset Prog) : Multiset.count csW (x1 ::ₘ r) = Multiset.count csW r := Multiset.count_cons_of_ne (by decide) r

theorem cc_csW_x2 (r : Multiset Prog) : Multiset.count csW (x2 ::ₘ r) = Multiset.count csW r := Multiset.count_cons_of_ne (by decide) r

theorem cc_relE_c30 (r : Multiset Prog) : Multiset.count relE (c30 ::ₘ r) = Multiset.count relE r := Multiset.count_cons_of_ne (by decide) r

theorem cc_relE_c31 (r : Multiset Prog) : Multiset.count relE (c31 ::ₘ r) = Multiset.count relE r := Multiset.count_cons_of_ne (by decide) r

theorem cc_relE_c32 (r : Multiset Prog) : Multiset.count relE (c32 ::ₘ r) = Multiset.count relE r := Multiset.count_cons_of_ne (by decide) r

theorem cc_relE_c33 (r : Multiset Prog) : Multiset.count relE (c33 ::ₘ r) = Multiset.count relE r := Multiset.count_cons_of_ne (by decide) r

theorem cc_relE_c34 (r : Multiset Prog) : Multiset.count relE (c34 ::ₘ r) = Multiset.count relE r := Multiset.count_cons_of_ne (by decide) r

theorem cc_relE_x0 (r : Multiset Prog) : Multiset.count relE (x0 ::ₘ r) = Multiset.count relE r := Multiset.count_cons_of_ne (by decide) r

theorem cc_relE_x1 (r : Multiset Prog) : Multiset.count relE (x1 ::ₘ r) = Multiset.count relE r := Multiset.count_cons_of_ne (by decide) r

theorem cc_relE_x2 (r : Multiset Prog) : Multiset.count relE (x2 ::ₘ r) = Multiset.count relE r := Multiset.count_cons_of_ne (by decide) r

theorem cr_a11 (n : Nat) : Multiset.count a11 (Multiset.replicate n Prog.done) = 0 := by rw [Multiset.count_replicate]; simp +decide

theorem cr_a12 (n : Nat) : Multiset.count a12 (Multiset.replicate n Prog.done) = 0 := by rw [Multiset.count_replicate]; simp +decide

theorem cr_b21 (n : Nat) : Multiset.count b21 (Multiset.replicate n Prog.done) = 0 := by rw [Multiset.count_replicate]; simp +decide

theorem cr_b22 (n : Nat) : Multiset.count b22 (Multiset.replicate n Prog.done) = 0 := by rw [Multiset.count_replicate]; simp +decide

theorem cr_b23 (n : Nat) : Multiset.count b23 (Multiset.replicate n Prog.done) = 0 := by rw [Multiset.count_replicate]; simp +decide

theorem cr_b24 (n : Nat) : Multiset.count b24 (Multiset.replicate n Prog.done) = 0 := by rw [Multiset.count_replicate]; simp +decide

theorem cr_b25 (n : Nat) : Multiset.count b25 (Multiset.replicate n Prog.done) = 0 := by rw [Multiset.count_replicate]; simp +decide

theorem cr_c31 (n : Nat) : Multiset.count c31 (Multiset.replicate n Prog.done) = 0 := by rw [Multiset.count_replicate]; simp +decide

theorem cr_c32 (n : Nat) : Multiset.count c32 (Multiset.replicate n Prog.done) = 0 := by rw [Multiset.count_replicate]; simp +decide

theorem cr_c33 (n : Nat) : Multiset.count c33 (Multiset.replicate n Prog.done) = 0 := by rw [Multiset.count_replicate]; simp +decide

theorem cr_c34 (n : Nat) : Multiset.count c34 (Multiset.replicate n Prog.done) = 0 := by rw [Multiset.count_replicate]; simp +decide

theorem cr_csR (n : Nat) : Multiset.count csR (Multiset.replicate n Prog.done) = 0 := by rw [Multiset.count_replicate]; simp +decide

theorem cr_csW (n : Nat) : Multiset.count csW (Multiset.replicate n Prog.done) = 0 := by rw [Multiset.count_replicate]; simp +decide

theorem cr_csW2 (n : Nat) : Multiset.count csW2 (Multiset.replicate n Prog.done) = 0 := by rw [Multiset.count_replicate]; simp +decide

theorem cr_decR (n : Nat) : Multiset.count decR (Multiset.replicate n Prog.done) = 0 := by rw [Multiset.count_replicate]; simp +decide

theorem cr_relE (n : Nat) : Multiset.count relE (Multiset.replicate n Prog.done) = 0 := by rw [Multiset.count_replicate]; simp +decide

theorem cr_relRes (n : Nat) : Multiset.count relRes (Multiset.replicate n Prog.done) = 0 := by rw [Multiset.count_replicate]; simp +decide

theorem cr_relRm (n : Nat) : Multiset.count relRm (Multiset.replicate n Prog.done) = 0 := by rw [Multiset.count_replicate]; simp +decide

theorem cr_relRmCs (n : Nat) : Multiset.count relRmCs (Multiset.replicate n Prog.done) = 0 := by rw [Multiset.count_replicate]; simp +decide

theorem cr_rsProg (n : Nat) : Multiset.count rsProg (Multiset.replicate n Prog.done) = 0 := by rw [Multiset.count_replicate]; simp +decide

theorem cr_v1 (n : Nat) : Multiset.count v1 (Multiset.replicate n Prog.done) = 0 := by rw [Multiset.count_replicate]; simp +decide

theorem cr_v10 (n : Nat) : Multiset.count v10 (Multiset.replicate n Prog.done) = 0 := by rw [Multiset.count_replicate]; simp +decide

theorem cr_v2 (n : Nat) : Multiset.count v2 (Multiset.replicate n Prog.done) = 0 := by rw [Multiset.count_replicate]; simp +decide

theorem cr_v3 (n : Nat) : Multiset.count v3 (Multiset.replicate n Prog.done) = 0 := by rw [Multiset.count_replicate]; simp +decide

theorem cr_v4 (n : Nat) : Multiset.count v4 (Multiset.replicate n Prog.done) = 0 := by rw [Multiset.count_replicate]; simp +decide

theorem cr_v6 (n : Nat) : Multiset.count v6 (Multiset.replicate n Prog.done) = 0 := by rw [Multiset.count_replicate]; simp +decide

theorem cr_v7 (n : Nat) : Multiset.count v7 (Multiset.replicate n Prog.done) = 0 := by rw [Multiset.count_replicate]; simp +decide

theorem cr_v8 (n : Nat) : Multiset.count v8 (Multiset.replicate n Prog.done) = 0 := by rw [Multiset.count_replicate]; simp +decide

theorem cr_v9 (n : Nat) : Multiset.count v9 (Multiset.replicate n Prog.done) = 0 := by rw [Multiset.count_replicate]; simp +decide

theorem cr_x1 (n : Nat) : Multiset.count x1 (Multiset.replicate n Prog.done) = 0 := by rw [Multiset.count_replicate]; simp +decide

theorem cr_x2 (n : Nat) : Multiset.count x2 (Multiset.replicate n Prog.done) = 0 := by rw [Multiset.count_replicate]; simp +decide

set_option maxHeartbeats 3000000 in
theorem Num1_pres {s s' : RWLock} {t t' : Prog} {rest : Multiset Prog}
    (hm : MemInv locs1 (t ::ₘ rest)) (hn : Num1 s (t ::ₘ rest))
    (hstep : TStep s t s' t') :
    MemInv locs1 (t' ::ₘ rest) ∧ Num1 s' (t' ::ₘ rest) := by
  have ht : t ∈ locs1 := hm t (Multiset.mem_cons_self t rest)
  simp only [locs1, List.mem_cons, List.not_mem_nil, or_false] at ht
  rcases ht with rfl|rfl|rfl|rfl|rfl|rfl|rfl|rfl|rfl|rfl|rfl|rfl|rfl
  · obtain ⟨rfl, hpos, rfl⟩ := tstep_acq hstep
    refine ⟨memInv_update hm (by decide), ?_⟩
    simp only [RWLock.gate] at hpos
    simp only [Num1, RWLock.gate, RWLock.setGate, cc_a11_a10, cc_a11_a11, cc_a12_a10, cc_a12_a11, cc_relRmCs_a10, cc_relRmCs_a11, cc_csR_a10, cc_csR_a11, cc_rsProg_a10, cc_rsProg_a11, cc_decR_a10, cc_decR_a11, cc_relRes_a10, cc_relRes_a11, cc_relRm_a10, cc_relRm_a11, cc_csW_a10, cc_csW_a11, cc_relE_a10, cc_relE_a11] at hn ⊢
    omega
  · obtain ⟨rfl, hbr⟩ := tstep_incRead hstep
    rcases hbr with ⟨hc, rfl⟩ | ⟨hc, rfl⟩
    · refine ⟨memInv_update hm (by decide), ?_⟩
      simp only [Num1, RWLock.gate, RWLock.setGate, cc_a11_a11, cc_a11_a12, cc_a11_relRmCs, cc_a12_a11, cc_a12_a12, cc_a12_relRmCs, cc_relRmCs_a11, cc_relRmCs_a12, cc_relRmCs_relRmCs, cc_csR_a11, cc_csR_a12, cc_csR_relRmCs, cc_rsProg_a11, cc_rsProg_a12, cc_rsProg_relRmCs, cc_decR_a11, cc_decR_a12, cc_decR_relRmCs, cc_relRes_a11, cc_relRes_a12, cc_relRes_relRmCs, cc_relRm_a11, cc_relRm_a12, cc_relRm_relRmCs, cc_csW_a11, cc_csW_a12, cc_csW_relRmCs, cc_relE_a11, cc_relE_a12, cc_relE_relRmCs] at hn ⊢
      omega
    · refine ⟨memInv_update hm (by decide), ?_⟩
      simp only [Num1, RWLock.gate, RWLock.setGate, cc_a11_a11, cc_a11_a12, cc_a11_relRmCs, cc_a12_a11, cc_a12_a12, cc_a12_relRmCs, cc_relRmCs_a11, cc_relRmCs_a12, cc_relRmCs_relRmCs, cc_csR_a11, cc_csR_a12, cc_csR_relRmCs, cc_rsProg_a11, cc_rsProg_a12, cc_rsProg_relRmCs, cc_decR_a11, cc_decR_a12, cc_decR_relRmCs, cc_relRes_a11, cc_relRes_a12, cc_relRes_relRmCs, cc_relRm_a11, cc_relRm_a12, cc_relRm_relRmCs, cc_csW_a11, cc_csW_a12, cc_csW_relRmCs, cc_relE_a11, cc_relE_a12, cc_relE_relRmCs] at hn ⊢
      omega
  · obtain ⟨rfl, hpos, rfl⟩ := tstep_acq hstep
    refine ⟨memInv_update hm (by decide), ?_⟩
    simp only [RWLock.gate] at hpos
    simp only [Num1, RWLock.gate, RWLock.setGate, cc_a11_a12, cc_a11_relRmCs, cc_a12_a12, cc_a12_relRmCs, cc_relRmCs_a12, cc_relRmCs_relRmCs, cc_csR_a12, cc_csR_relRmCs, cc_rsProg_a12, cc_rsProg_relRmCs, cc_decR_a12, cc_decR_relRmCs, cc_relRes_a12, cc_relRes_relRmCs, cc_relRm_a12, cc_relRm_relRmCs, cc_csW_a12, cc_csW_relRmCs, cc_relE_a12, cc_relE_relRmCs] at hn ⊢
    omega
  · obtain ⟨rfl, rfl⟩ := tstep_rel hstep
    refine ⟨memInv_update hm (by decide), ?_⟩
    simp only [Num1, RWLock.gate, RWLock.setGate, cc_a11_relRmCs, cc_a11_csR, cc_a12_relRmCs, cc_a12_csR, cc_relRmCs_relRmCs, cc_relRmCs_csR, cc_csR_relRmCs, cc_csR_csR, cc_rsProg_relRmCs, cc_rsProg_csR, cc_decR_relRmCs, cc_decR_csR, cc_relRes_relRmCs, cc_relRes_csR, cc_relRm_relRmCs, cc_relRm_csR, cc_csW_relRmCs, cc_csW_csR, cc_relE_relRmCs, cc_relE_csR] at hn ⊢
    omega
  · obtain ⟨rfl, rfl⟩ := tstep_cs hstep
    refine ⟨memInv_update hm (by decide), ?_⟩
    simp only [Num1, cc_a11_csR, cc_a11_rsProg, cc_a12_csR, cc_a12_rsProg, cc_relRmCs_csR, cc_relRmCs_rsProg, cc_csR_csR, cc_csR_rsProg, cc_rsProg_csR, cc_rsProg_rsProg, cc_decR_csR, cc_decR_rsProg, cc_relRes_csR, cc_relRes_rsProg, cc_relRm_csR, cc_relRm_rsProg, cc_csW_csR, cc_csW_rsProg, cc_relE_csR, cc_relE_rsProg] at hn ⊢
    omega
  · obtain ⟨rfl, hpos, rfl⟩ := tstep_acq hstep
    refine ⟨memInv_update hm (by decide), ?_⟩
    simp only [RWLock.gate] at hpos
    simp only [Num1, RWLock.gate, RWLock.setGate, cc_a11_rsProg, cc_a11_decR, cc_a12_rsProg, cc_a12_decR, cc_relRmCs_rsProg, cc_relRmCs_decR, cc_csR_rsProg, cc_csR_decR, cc_rsProg_rsProg, cc_rsProg_decR, cc_decR_rsProg, cc_decR_decR, cc_relRes_rsProg, cc_relRes_decR, cc_relRm_rsProg, cc_relRm_decR, cc_csW_rsProg, cc_csW_decR, cc_relE_rsProg, cc_relE_decR] at hn ⊢
    omega
  · obtain ⟨rfl, hbr⟩ := tstep_decRead hstep
    rcases hbr with ⟨hc, rfl⟩ | ⟨hc, rfl⟩
    · refine ⟨memInv_update hm (by decide), ?_⟩
      simp only [Num1, RWLock.gate, RWLock.setGate, cc_a11_decR, cc_a11_relRes, cc_a11_relRm, cc_a12_decR, cc_a12_relRes, cc_a12_relRm, cc_relRmCs_decR, cc_relRmCs_relRes, cc_relRmCs_relRm, cc_csR_decR, cc_csR_relRes, cc_csR_relRm, cc_rsProg_decR, cc_rsProg_relRes, cc_rsProg_relRm, cc_decR_decR, cc_decR_relRes, cc_decR_relRm, cc_relRes_decR, cc_relRes_relRes, cc_relRes_relRm, cc_relRm_decR, cc_relRm_relRes, cc_relRm_relRm, cc_csW_decR, cc_csW_relRes, cc_csW_relRm, cc_relE_decR, cc_relE_relRes, cc_relE_relRm] at hn ⊢
      omega
    · refine ⟨memInv_update hm (by decide), ?_⟩
      simp only [Num1, RWLock.gate, RWLock.setGate, cc_a11_decR, cc_a11_relRes, cc_a11_relRm, cc_a12_decR, cc_a12_relRes, cc_a12_relRm, cc_relRmCs_decR, cc_relRmCs_relRes, cc_relRmCs_relRm, cc_csR_decR, cc_csR_relRes, cc_csR_relRm, cc_rsProg_decR, cc_rsProg_relRes, cc_rsProg_relRm, cc_decR_decR, cc_decR_relRes, cc_decR_relRm, cc_relRes_decR, cc_relRes_relRes, cc_relRes_relRm, cc_relRm_decR, cc_relRm_relRes, cc_relRm_relRm, cc_csW_decR, cc_csW_relRes, cc_csW_relRm, cc_relE_decR, cc_relE_relRes, cc_relE_relRm] at hn ⊢
      omega
  · obtain ⟨rfl, rfl⟩ := tstep_rel hstep
    refine ⟨memInv_update hm (by decide), ?_⟩
    simp only [Num1, RWLock.gate, RWLock.setGate, cc_a11_relRes, cc_a11_relRm, cc_a12_relRes, cc_a12_relRm, cc_relRmCs_relRes, cc_relRmCs_relRm, cc_csR_relRes, cc_csR_relRm, cc_rsProg_relRes, cc_rsProg_relRm, cc_decR_relRes, cc_decR_relRm, cc_relRes_relRes, cc_relRes_relRm, cc_relRm_relRes, cc_relRm_relRm, cc_csW_relRes, cc_csW_relRm, cc_relE_relRes, cc_relE_relRm] at hn ⊢
    omega
  · obtain ⟨rfl, rfl⟩ := tstep_rel hstep
    refine ⟨memInv_update hm (by decide), ?_⟩
    simp only [Num1, RWLock.gate, RWLock.setGate, cc_a11_relRm, cc_a11_pdone, cc_a12_relRm, cc_a12_pdone, cc_relRmCs_relRm, cc_relRmCs_pdone, cc_csR_relRm, cc_csR_pdone, cc_rsProg_relRm, cc_rsProg_pdone, cc_decR_relRm, cc_decR_pdone, cc_relRes_relRm, cc_relRes_pdone, cc_relRm_relRm, cc_relRm_pdone, cc_csW_relRm, cc_csW_pdone, cc_relE_relRm, cc_relE_pdone] at hn ⊢
    omega
  · obtain ⟨rfl, hpos, rfl⟩ := tstep_acq hstep
    refine ⟨memInv_update hm (by decide), ?_⟩
    simp only [RWLock.gate] at hpos
    simp only [Num1, RWLock.gate, RWLock.setGate, cc_a11_w10, cc_a11_csW, cc_a12_w10, cc_a12_csW, cc_relRmCs_w10, cc_relRmCs_csW, cc_csR_w10, cc_csR_csW, cc_rsProg_w10, cc_rsProg_csW, cc_decR_w10, cc_decR_csW, cc_relRes_w10, cc_relRes_csW, cc_relRm_w10, cc_relRm_csW, cc_csW_w10, cc_csW_csW, cc_relE_w10, cc_relE_csW] at hn ⊢
    omega
  · obtain ⟨rfl, rfl⟩ := tstep_cs hstep
    refine ⟨memInv_update hm (by decide), ?_⟩
    simp only [Num1, cc_a11_csW, cc_a11_relE, cc_a12_csW, cc_a12_relE, cc_relRmCs_csW, cc_relRmCs_relE, cc_csR_csW, cc_csR_relE, cc_rsProg_csW, cc_rsProg_relE, cc_decR_csW, cc_decR_relE, cc_relRes_csW, cc_relRes_relE, cc_relRm_csW, cc_relRm_relE, cc_csW_csW, cc_csW_relE, cc_relE_csW, cc_relE_relE] at hn ⊢
    omega
  · obtain ⟨rfl, rfl⟩ := tstep_rel hstep
    refine ⟨memInv_update hm (by decide), ?_⟩
    simp only [Num1, RWLock.gate, RWLock.setGate, cc_a11_relE, cc_a11_pdone, cc_a12_relE, cc_a12_pdone, cc_relRmCs_relE, cc_relRmCs_pdone, cc_csR_relE, cc_csR_pdone, cc_rsProg_relE, cc_rsProg_pdone, cc_decR_relE, cc_decR_pdone, cc_relRes_relE, cc_relRes_pdone, cc_relRm_relE, cc_relRm_pdone, cc_csW_relE, cc_csW_pdone, cc_relE_relE, cc_relE_pdone] at hn ⊢
    omega
  · exact (tstep_done hstep).elim

set_option maxHeartbeats 3000000 in
theorem Num2_pres {s s' : RWLock} {t t' : Prog} {rest : Multiset Prog}
    (hm : MemInv locs2 (t ::ₘ rest)) (hn : Num2 s (t ::ₘ rest))
    (hstep : TStep s t s' t') :
    MemInv locs2 (t' ::ₘ rest) ∧ Num2 s' (t' ::ₘ rest) := by
  have ht : t ∈ locs2 := hm t (Multiset.mem_cons_self t rest)
  simp only [locs2, List.mem_cons, List.not_mem_nil, or_false] at ht
  rcases ht with rfl|rfl|rfl|rfl|rfl|rfl|rfl|rfl|rfl|rfl|rfl|rfl|rfl|rfl|rfl|rfl|rfl|rfl|rfl|rfl|rfl|rfl|rfl
  · obtain ⟨rfl, hpos, rfl⟩ := tstep_acq hstep
    refine ⟨memInv_update hm (by decide), ?_⟩
    simp only [RWLock.gate] at hpos
    simp only [Num2, RWLock.gate, RWLock.setGate, cc_b21_b20, cc_b21_b21, cc_b22_b20, cc_b22_b21, cc_b23_b20, cc_b23_b21, cc_b24_b20, cc_b24_b21, cc_b25_b20, cc_b25_b21, cc_csR_b20, cc_csR_b21, cc_rsProg_b20, cc_rsProg_b21, cc_decR_b20, cc_decR_b21, cc_relRes_b20, cc_relRes_b21, cc_relRm_b20, cc_relRm_b21, cc_v1_b20, cc_v1_b21, cc_v2_b20, cc_v2_b21, cc_v3_b20, cc_v3_b21, cc_v4_b20, cc_v4_b21, cc_csW2_b20, cc_csW2_b21, cc_v6_b20, cc_v6_b21, cc_v7_b20, cc_v7_b21, cc_v8_b20, cc_v8_b21, cc_v9_b20, cc_v9_b21, cc_v10_b20, cc_v10_b21] at hn ⊢
    omega
  · obtain ⟨rfl, hpos, rfl⟩ := tstep_acq hstep
    refine ⟨memInv_update hm (by decide), ?_⟩
    simp only [RWLock.gate] at hpos
    simp only [Num2, RWLock.gate, RWLock.setGate, cc_b21_b21, cc_b21_b22, cc_b22_b21, cc_b22_b22, cc_b23_b21, cc_b23_b22, cc_b24_b21, cc_b24_b22, cc_b25_b21, cc_b25_b22, cc_csR_b21, cc_csR_b22, cc_rsProg_b21, cc_rsProg_b22, cc_decR_b21, cc_decR_b22, cc_relRes_b21, cc_relRes_b22, cc_relRm_b21, cc_relRm_b22, cc_v1_b21, cc_v1_b22, cc_v2_b21, cc_v2_b22, cc_v3_b21, cc_v3_b22, cc_v4_b21, cc_v4_b22, cc_csW2_b21, cc_csW2_b22, cc_v6_b21, cc_v6_b22, cc_v7_b21, cc_v7_b22, cc_v8_b21, cc_v8_b22, cc_v9_b21, cc_v9_b22, cc_v10_b21, cc_v10_b22] at hn ⊢
    omega
  · obtain ⟨rfl, hbr⟩ := tstep_incRead hstep
    rcases hbr with ⟨hc, rfl⟩ | ⟨hc, rfl⟩
    · refine ⟨memInv_update hm (by decide), ?_⟩
      simp only [Num2, RWLock.gate, RWLock.setGate, cc_b21_b22, cc_b21_b23, cc_b21_b24, cc_b22_b22, cc_b22_b23, cc_b22_b24, cc_b23_b22, cc_b23_b23, cc_b23_b24, cc_b24_b22, cc_b24_b23, cc_b24_b24, cc_b25_b22, cc_b25_b23, cc_b25_b24, cc_csR_b22, cc_csR_b23, cc_csR_b24, cc_rsProg_b22, cc_rsProg_b23, cc_rsProg_b24, cc_decR_b22, cc_decR_b23, cc_decR_b24, cc_relRes_b22, cc_relRes_b23, cc_relRes_b24, cc_relRm_b22, cc_relRm_b23, cc_relRm_b24, cc_v1_b22, cc_v1_b23, cc_v1_b24, cc_v2_b22, cc_v2_b23, cc_v2_b24, cc_v3_b22, cc_v3_b23, cc_v3_b24, cc_v4_b22, cc_v4_b23, cc_v4_b24, cc_csW2_b22, cc_csW2_b23, cc_csW2_b24, cc_v6_b22, cc_v6_b23, cc_v6_b24, cc_v7_b22, cc_v7_b23, cc_v7_b24, cc_v8_b22, cc_v8_b23, cc_v8_b24, cc_v9_b22, cc_v9_b23, cc_v9_b24, cc_v10_b22, cc_v10_b23, cc_v10_b24] at hn ⊢
      omega
    · refine ⟨memInv_update hm (by decide), ?_⟩
      simp only [Num2, RWLock.gate, RWLock.setGate, cc_b21_b22, cc_b21_b23, cc_b21_b24, cc_b22_b22, cc_b22_b23, cc_b22_b24, cc_b23_b22, cc_b23_b23, cc_b23_b24, cc_b24_b22, cc_b24_b23, cc_b24_b24, cc_b25_b22, cc_b25_b23, cc_b25_b24, cc_csR_b22, cc_csR_b23, cc_csR_b24, cc_rsProg_b22, cc_rsProg_b23, cc_rsProg_b24, cc_decR_b22, cc_decR_b23, cc_decR_b24, cc_relRes_b22, cc_relRes_b23, cc_relRes_b24, cc_relRm_b22, cc_relRm_b23, cc_relRm_b24, cc_v1_b22, cc_v1_b23, cc_v1_b24, cc_v2_b22, cc_v2_b23, cc_v2_b24, cc_v3_b22, cc_v3_b23, cc_v3_b24, cc_v4_b22, cc_v4_b23, cc_v4_b24, cc_csW2_b22, cc_csW2_b23, cc_csW2_b24, cc_v6_b22, cc_v6_b23, cc_v6_b24, cc_v7_b22, cc_v7_b23, cc_v7_b24, cc_v8_b22, cc_v8_b23, cc_v8_b24, cc_v9_b22, cc_v9_b23, cc_v9_b24, cc_v10_b22, cc_v10_b23, cc_v10_b24] at hn ⊢
      omega
  · obtain ⟨rfl, hpos, rfl⟩ := tstep_acq hstep
    refine ⟨memInv_update hm (by decide), ?_⟩
    simp only [RWLock.gate] at hpos
    simp only [Num2, RWLock.gate, RWLock.setGate, cc_b21_b23, cc_b21_b24, cc_b22_b23, cc_b22_b24, cc_b23_b23, cc_b23_b24, cc_b24_b23, cc_b24_b24, cc_b25_b23, cc_b25_b24, cc_csR_b23, cc_csR_b24, cc_rsProg_b23, cc_rsProg_b24, cc_decR_b23, cc_decR_b24, cc_relRes_b23, cc_relRes_b24, cc_relRm_b23, cc_relRm_b24, cc_v1_b23, cc_v1_b24, cc_v2_b23, cc_v2_b24, cc_v3_b23, cc_v3_b24, cc_v4_b23, cc_v4_b24, cc_csW2_b23, cc_csW2_b24, cc_v6_b23, cc_v6_b24, cc_v7_b23, cc_v7_b24, cc_v8_b23, cc_v8_b24, cc_v9_b23, cc_v9_b24, cc_v10_b23, cc_v10_b24] at hn ⊢
    omega
  · obtain ⟨rfl, rfl⟩ := tstep_rel hstep
    refine ⟨memInv_update hm (by decide), ?_⟩
    simp only [Num2, RWLock.gate, RWLock.setGate, cc_b21_b24, cc_b21_b25, cc_b22_b24, cc_b22_b25, cc_b23_b24, cc_b23_b25, cc_b24_b24, cc_b24_b25, cc_b25_b24, cc_b25_b25, cc_csR_b24, cc_csR_b25, cc_rsProg_b24, cc_rsProg_b25, cc_decR_b24, cc_decR_b25, cc_relRes_b24, cc_relRes_b25, cc_relRm_b24, cc_relRm_b25, cc_v1_b24, cc_v1_b25, cc_v2_b24, cc_v2_b25, cc_v3_b24, cc_v3_b25, cc_v4_b24, cc_v4_b25, cc_csW2_b24, cc_csW2_b25, cc_v6_b24, cc_v6_b25, cc_v7_b24, cc_v7_b25, cc_v8_b24, cc_v8_b25, cc_v9_b24, cc_v9_b25, cc_v10_b24, cc_v10_b25] at hn ⊢
    omega
  · obtain ⟨rfl, rfl⟩ := tstep_rel hstep
    refine ⟨memInv_update hm (by decide), ?_⟩
    simp only [Num2, RWLock.gate, RWLock.setGate, cc_b21_b25, cc_b21_csR, cc_b22_b25, cc_b22_csR, cc_b23_b25, cc_b23_csR, cc_b24_b25, cc_b24_csR, cc_b25_b25, cc_b25_csR, cc_csR_b25, cc_csR_csR, cc_rsProg_b25, cc_rsProg_csR, cc_decR_b25, cc_decR_csR, cc_relRes_b25, cc_relRes_csR, cc_relRm_b25, cc_relRm_csR, cc_v1_b25, cc_v1_csR, cc_v2_b25, cc_v2_csR, cc_v3_b25, cc_v3_csR, cc_v4_b25, cc_v4_csR, cc_csW2_b25, cc_csW2_csR, cc_v6_b25, cc_v6_csR, cc_v7_b25, cc_v7_csR, cc_v8_b25, cc_v8_csR, cc_v9_b25, cc_v9_csR, cc_v10_b25, cc_v10_csR] at hn ⊢
    omega
  · obtain ⟨rfl, rfl⟩ := tstep_cs hstep
    refine ⟨memInv_update hm (by decide), ?_⟩
    simp only [Num2, cc_b21_csR, cc_b21_rsProg, cc_b22_csR, cc_b22_rsProg, cc_b23_csR, cc_b23_rsProg, cc_b24_csR, cc_b24_rsProg, cc_b25_csR, cc_b25_rsProg, cc_csR_csR, cc_csR_rsProg, cc_rsProg_csR, cc_rsProg_rsProg, cc_decR_csR, cc_decR_rsProg, cc_relRes_csR, cc_relRes_rsProg, cc_relRm_csR, cc_relRm_rsProg, cc_v1_csR, cc_v1_rsProg, cc_v2_csR, cc_v2_rsProg, cc_v3_csR, cc_v3_rsProg, cc_v4_csR, cc_v4_rsProg, cc_csW2_csR, cc_csW2_rsProg, cc_v6_csR, cc_v6_rsProg, cc_v7_csR, cc_v7_rsProg, cc_v8_csR, cc_v8_rsProg, cc_v9_csR, cc_v9_rsProg, cc_v10_csR, cc_v10_rsProg] at hn ⊢
    omega
  · obtain ⟨rfl, hpos, rfl⟩ := tstep_acq hstep
    refine ⟨memInv_update hm (by decide), ?_⟩
    simp only [RWLock.gate] at hpos
    simp only [Num2, RWLock.gate, RWLock.setGate, cc_b21_rsProg, cc_b21_decR, cc_b22_rsProg, cc_b22_decR, cc_b23_rsProg, cc_b23_decR, cc_b24_rsProg, cc_b24_decR, cc_b25_rsProg, cc_b25_decR, cc_csR_rsProg, cc_csR_decR, cc_rsProg_rsProg, cc_rsProg_decR, cc_decR_rsProg, cc_decR_decR, cc_relRes_rsProg, cc_relRes_decR, cc_relRm_rsProg, cc_relRm_decR, cc_v1_rsProg, cc_v1_decR, cc_v2_rsProg, cc_v2_decR, cc_v3_rsProg, cc_v3_decR, cc_v4_rsProg, cc_v4_decR, cc_csW2_rsProg, cc_csW2_decR, cc_v6_rsProg, cc_v6_decR, cc_v7_rsProg, cc_v7_decR, cc_v8_rsProg, cc_v8_decR, cc_v9_rsProg, cc_v9_decR, cc_v10_rsProg, cc_v10_decR] at hn ⊢
    omega
  · obtain ⟨rfl, hbr⟩ := tstep_decRead hstep
    rcases hbr with ⟨hc, rfl⟩ | ⟨hc, rfl⟩
    · refine ⟨memInv_update hm (by decide), ?_⟩
      simp only [Num2, RWLock.gate, RWLock.setGate, cc_b21_decR, cc_b21_relRes, cc_b21_relRm, cc_b22_decR, cc_b22_relRes, cc_b22_relRm, cc_b23_decR, cc_b23_relRes, cc_b23_relRm, cc_b24_decR, cc_b24_relRes, cc_b24_relRm, cc_b25_decR, cc_b25_relRes, cc_b25_relRm, cc_csR_decR, cc_csR_relRes, cc_csR_relRm, cc_rsProg_decR, cc_rsProg_relRes, cc_rsProg_relRm, cc_decR_decR, cc_decR_relRes, cc_decR_relRm, cc_relRes_decR, cc_relRes_relRes, cc_relRes_relRm, cc_relRm_decR, cc_relRm_relRes, cc_relRm_relRm, cc_v1_decR, cc_v1_relRes, cc_v1_relRm, cc_v2_decR, cc_v2_relRes, cc_v2_relRm, cc_v3_decR, cc_v3_relRes, cc_v3_relRm, cc_v4_decR, cc_v4_relRes, cc_v4_relRm, cc_csW2_decR, cc_csW2_relRes, cc_csW2_relRm, cc_v6_decR, cc_v6_relRes, cc_v6_relRm, cc_v7_decR, cc_v7_relRes, cc_v7_relRm, cc_v8_decR, cc_v8_relRes, cc_v8_relRm, cc_v9_decR, cc_v9_relRes, cc_v9_relRm, cc_v10_decR, cc_v10_relRes, cc_v10_relRm] at hn ⊢
      omega
    · refine ⟨memInv_update hm (by decide), ?_⟩
      simp only [Num2, RWLock.gate, RWLock.setGate, cc_b21_decR, cc_b21_relRes, cc_b21_relRm, cc_b22_decR, cc_b22_relRes, cc_b22_relRm, cc_b23_decR, cc_b23_relRes, cc_b23_relRm, cc_b24_decR, cc_b24_relRes, cc_b24_relRm, cc_b25_decR, cc_b25_relRes, cc_b25_relRm, cc_csR_decR, cc_csR_relRes, cc_csR_relRm, cc_rsProg_decR, cc_rsProg_relRes, cc_rsProg_relRm, cc_decR_decR, cc_decR_relRes, cc_decR_relRm, cc_relRes_decR, cc_relRes_relRes, cc_relRes_relRm, cc_relRm_decR, cc_relRm_relRes, cc_relRm_relRm, cc_v1_decR, cc_v1_relRes, cc_v1_relRm, cc_v2_decR, cc_v2_relRes, cc_v2_relRm, cc_v3_decR, cc_v3_relRes, cc_v3_relRm, cc_v4_decR, cc_v4_relRes, cc_v4_relRm, cc_csW2_decR, cc_csW2_relRes, cc_csW2_relRm, cc_v6_decR, cc_v6_relRes, cc_v6_relRm, cc_v7_decR, cc_v7_relRes, cc_v7_relRm, cc_v8_decR, cc_v8_relRes, cc_v8_relRm, cc_v9_decR, cc_v9_relRes, cc_v9_relRm, cc_v10_decR, cc_v10_relRes, cc_v10_relRm] at hn ⊢
      omega
  · obtain ⟨rfl, rfl⟩ := tstep_rel hstep
    refine ⟨memInv_update hm (by decide), ?_⟩
    simp only [Num2, RWLock.gate, RWLock.setGate, cc_b21_relRes, cc_b21_relRm, cc_b22_relRes, cc_b22_relRm, cc_b23_relRes, cc_b23_relRm, cc_b24_relRes, cc_b24_relRm, cc_b25_relRes, cc_b25_relRm, cc_csR_relRes, cc_csR_relRm, cc_rsProg_relRes, cc_rsProg_relRm, cc_decR_relRes, cc_decR_relRm, cc_relRes_relRes, cc_relRes_relRm, cc_relRm_relRes, cc_relRm_relRm, cc_v1_relRes, cc_v1_relRm, cc_v2_relRes, cc_v2_relRm, cc_v3_relRes, cc_v3_relRm, cc_v4_relRes, cc_v4_relRm, cc_csW2_relRes, cc_csW2_relRm, cc_v6_relRes, cc_v6_relRm, cc_v7_relRes, cc_v7_relRm, cc_v8_relRes, cc_v8_relRm, cc_v9_relRes, cc_v9_relRm, cc_v10_relRes, cc_v10_relRm] at hn ⊢
    omega
  · obtain ⟨rfl, rfl⟩ := tstep_rel hstep
    refine ⟨memInv_update hm (by decide), ?_⟩
    simp only [Num2, RWLock.gate, RWLock.setGate, cc_b21_relRm, cc_b21_pdone, cc_b22_relRm, cc_b22_pdone, cc_b23_relRm, cc_b23_pdone, cc_b24_relRm, cc_b24_pdone, cc_b25_relRm, cc_b25_pdone, cc_csR_relRm, cc_csR_pdone, cc_rsProg_relRm, cc_rsProg_pdone, cc_decR_relRm, cc_decR_pdone, cc_relRes_relRm, cc_relRes_pdone, cc_relRm_relRm, cc_relRm_pdone, cc_v1_relRm, cc_v1_pdone, cc_v2_relRm, cc_v2_pdone, cc_v3_relRm, cc_v3_pdone, cc_v4_relRm, cc_v4_pdone, cc_csW2_relRm, cc_csW2_pdone, cc_v6_relRm, cc_v6_pdone, cc_v7_relRm, cc_v7_pdone, cc_v8_relRm, cc_v8_pdone, cc_v9_relRm, cc_v9_pdone, cc_v10_relRm, cc_v10_pdone] at hn ⊢
    omega
  · obtain ⟨rfl, hpos, rfl⟩ := tstep_acq hstep
    refine ⟨memInv_update hm (by decide), ?_⟩
    simp only [RWLock.gate] at hpos
    simp only [Num2, RWLock.gate, RWLock.setGate, cc_b21_v0, cc_b21_v1, cc_b22_v0, cc_b22_v1, cc_b23_v0, cc_b23_v1, cc_b24_v0, cc_b24_v1, cc_b25_v0, cc_b25_v1, cc_csR_v0, cc_csR_v1, cc_rsProg_v0, cc_rsProg_v1, cc_decR_v0, cc_decR_v1, cc_relRes_v0, cc_relRes_v1, cc_relRm_v0, cc_relRm_v1, cc_v1_v0, cc_v1_v1, cc_v2_v0, cc_v2_v1, cc_v3_v0, cc_v3_v1, cc_v4_v0, cc_v4_v1, cc_csW2_v0, cc_csW2_v1, cc_v6_v0, cc_v6_v1, cc_v7_v0, cc_v7_v1, cc_v8_v0, cc_v8_v1, cc_v9_v0, cc_v9_v1, cc_v10_v0, cc_v10_v1] at hn ⊢
    omega
  · obtain ⟨rfl, hbr⟩ := tstep_incWrite hstep
    rcases hbr with ⟨hc, rfl⟩ | ⟨hc, rfl⟩
    · refine ⟨memInv_update hm (by decide), ?_⟩
      simp only [Num2, RWLock.gate, RWLock.setGate, cc_b21_v1, cc_b21_v2, cc_b21_v3, cc_b22_v1, cc_b22_v2, cc_b22_v3, cc_b23_v1, cc_b23_v2, cc_b23_v3, cc_b24_v1, cc_b24_v2, cc_b24_v3, cc_b25_v1, cc_b25_v2, cc_b25_v3, cc_csR_v1, cc_csR_v2, cc_csR_v3, cc_rsProg_v1, cc_rsProg_v2, cc_rsProg_v3, cc_decR_v1, cc_decR_v2, cc_decR_v3, cc_relRes_v1, cc_relRes_v2, cc_relRes_v3, cc_relRm_v1, cc_relRm_v2, cc_relRm_v3, cc_v1_v1, cc_v1_v2, cc_v1_v3, cc_v2_v1, cc_v2_v2, cc_v2_v3, cc_v3_v1, cc_v3_v2, cc_v3_v3, cc_v4_v1, cc_v4_v2, cc_v4_v3, cc_csW2_v1, cc_csW2_v2, cc_csW2_v3, cc_v6_v1, cc_v6_v2, cc_v6_v3, cc_v7_v1, cc_v7_v2, cc_v7_v3, cc_v8_v1, cc_v8_v2, cc_v8_v3, cc_v9_v1, cc_v9_v2, cc_v9_v3, cc_v10_v1, cc_v10_v2, cc_v10_v3] at hn ⊢
      omega
    · refine ⟨memInv_update hm (by decide), ?_⟩
      simp only [Num2, RWLock.gate, RWLock.setGate, cc_b21_v1, cc_b21_v2, cc_b21_v3, cc_b22_v1, cc_b22_v2, cc_b22_v3, cc_b23_v1, cc_b23_v2, cc_b23_v3, cc_b24_v1, cc_b24_v2, cc_b24_v3, cc_b25_v1, cc_b25_v2, cc_b25_v3, cc_csR_v1, cc_csR_v2, cc_csR_v3, cc_rsProg_v1, cc_rsProg_v2, cc_rsProg_v3, cc_decR_v1, cc_decR_v2, cc_decR_v3, cc_relRes_v1, cc_relRes_v2, cc_relRes_v3, cc_relRm_v1, cc_relRm_v2, cc_relRm_v3, cc_v1_v1, cc_v1_v2, cc_v1_v3, cc_v2_v1, cc_v2_v2, cc_v2_v3, cc_v3_v1, cc_v3_v2, cc_v3_v3, cc_v4_v1, cc_v4_v2, cc_v4_v3, cc_csW2_v1, cc_csW2_v2, cc_csW2_v3, cc_v6_v1, cc_v6_v2, cc_v6_v3, cc_v7_v1, cc_v7_v2, cc_v7_v3, cc_v8_v1, cc_v8_v2, cc_v8_v3, cc_v9_v1, cc_v9_v2, cc_v9_v3, cc_v10_v1, cc_v10_v2, cc_v10_v3] at hn ⊢
      omega
  · obtain ⟨rfl, hpos, rfl⟩ := tstep_acq hstep
    refine ⟨memInv_update hm (by decide), ?_⟩
    simp only [RWLock.gate] at hpos
    simp only [Num2, RWLock.gate, RWLock.setGate, cc_b21_v2, cc_b21_v3, cc_b22_v2, cc_b22_v3, cc_b23_v2, cc_b23_v3, cc_b24_v2, cc_b24_v3, cc_b25_v2, cc_b25_v3, cc_csR_v2, cc_csR_v3, cc_rsProg_v2, cc_rsProg_v3, cc_decR_v2, cc_decR_v3, cc_relRes_v2, cc_relRes_v3, cc_relRm_v2, cc_relRm_v3, cc_v1_v2, cc_v1_v3, cc_v2_v2, cc_v2_v3, cc_v3_v2, cc_v3_v3, cc_v4_v2, cc_v4_v3, cc_csW2_v2, cc_csW2_v3, cc_v6_v2, cc_v6_v3, cc_v7_v2, cc_v7_v3, cc_v8_v2, cc_v8_v3, cc_v9_v2, cc_v9_v3, cc_v10_v2, cc_v10_v3] at hn ⊢
    omega
  · obtain ⟨rfl, rfl⟩ := tstep_rel hstep
    refine ⟨memInv_update hm (by decide), ?_⟩
    simp only [Num2, RWLock.gate, RWLock.setGate, cc_b21_v3, cc_b21_v4, cc_b22_v3, cc_b22_v4, cc_b23_v3, cc_b23_v4, cc_b24_v3, cc_b24_v4, cc_b25_v3, cc_b25_v4, cc_csR_v3, cc_csR_v4, cc_rsProg_v3, cc_rsProg_v4, cc_decR_v3, cc_decR_v4, cc_relRes_v3, cc_relRes_v4, cc_relRm_v3, cc_relRm_v4, cc_v1_v3, cc_v1_v4, cc_v2_v3, cc_v2_v4, cc_v3_v3, cc_v3_v4, cc_v4_v3, cc_v4_v4, cc_csW2_v3, cc_csW2_v4, cc_v6_v3, cc_v6_v4, cc_v7_v3, cc_v7_v4, cc_v8_v3, cc_v8_v4, cc_v9_v3, cc_v9_v4, cc_v10_v3, cc_v10_v4] at hn ⊢
    omega
  · obtain ⟨rfl, hpos, rfl⟩ := tstep_acq hstep
    refine ⟨memInv_update hm (by decide), ?_⟩
    simp only [RWLock.gate] at hpos
    simp only [Num2, RWLock.gate, RWLock.setGate, cc_b21_v4, cc_b21_csW2, cc_b22_v4, cc_b22_csW2, cc_b23_v4, cc_b23_csW2, cc_b24_v4, cc_b24_csW2, cc_b25_v4, cc_b25_csW2, cc_csR_v4, cc_csR_csW2, cc_rsProg_v4, cc_rsProg_csW2, cc_decR_v4, cc_decR_csW2, cc_relRes_v4, cc_relRes_csW2, cc_relRm_v4, cc_relRm_csW2, cc_v1_v4, cc_v1_csW2, cc_v2_v4, cc_v2_csW2, cc_v3_v4, cc_v3_csW2, cc_v4_v4, cc_v4_csW2, cc_csW2_v4, cc_csW2_csW2, cc_v6_v4, cc_v6_csW2, cc_v7_v4, cc_v7_csW2, cc_v8_v4, cc_v8_csW2, cc_v9_v4, cc_v9_csW2, cc_v10_v4, cc_v10_csW2] at hn ⊢
    omega
  · obtain ⟨rfl, rfl⟩ := tstep_cs hstep
    refine ⟨memInv_update hm (by decide), ?_⟩
    simp only [Num2, cc_b21_csW2, cc_b21_v6, cc_b22_csW2, cc_b22_v6, cc_b23_csW2, cc_b23_v6, cc_b24_csW2, cc_b24_v6, cc_b25_csW2, cc_b25_v6, cc_csR_csW2, cc_csR_v6, cc_rsProg_csW2, cc_rsProg_v6, cc_decR_csW2, cc_decR_v6, cc_relRes_csW2, cc_relRes_v6, cc_relRm_csW2, cc_relRm_v6, cc_v1_csW2, cc_v1_v6, cc_v2_csW2, cc_v2_v6, cc_v3_csW2, cc_v3_v6, cc_v4_csW2, cc_v4_v6, cc_csW2_csW2, cc_csW2_v6, cc_v6_csW2, cc_v6_v6, cc_v7_csW2, cc_v7_v6, cc_v8_csW2, cc_v8_v6, cc_v9_csW2, cc_v9_v6, cc_v10_csW2, cc_v10_v6] at hn ⊢
    omega
  · obtain ⟨rfl, rfl⟩ := tstep_rel hstep
    refine ⟨memInv_update hm (by decide), ?_⟩
    simp only [Num2, RWLock.gate, RWLock.setGate, cc_b21_v6, cc_b21_v7, cc_b22_v6, cc_b22_v7, cc_b23_v6, cc_b23_v7, cc_b24_v6, cc_b24_v7, cc_b25_v6, cc_b25_v7, cc_csR_v6, cc_csR_v7, cc_rsProg_v6, cc_rsProg_v7, cc_decR_v6, cc_decR_v7, cc_relRes_v6, cc_relRes_v7, cc_relRm_v6, cc_relRm_v7, cc_v1_v6, cc_v1_v7, cc_v2_v6, cc_v2_v7, cc_v3_v6, cc_v3_v7, cc_v4_v6, cc_v4_v7, cc_csW2_v6, cc_csW2_v7, cc_v6_v6, cc_v6_v7, cc_v7_v6, cc_v7_v7, cc_v8_v6, cc_v8_v7, cc_v9_v6, cc_v9_v7, cc_v10_v6, cc_v10_v7] at hn ⊢
    omega
  · obtain ⟨rfl, hpos, rfl⟩ := tstep_acq hstep
    refine ⟨memInv_update hm (by decide), ?_⟩
    simp only [RWLock.gate] at hpos
    simp only [Num2, RWLock.gate, RWLock.setGate, cc_b21_v7, cc_b21_v8, cc_b22_v7, cc_b22_v8, cc_b23_v7, cc_b23_v8, cc_b24_v7, cc_b24_v8, cc_b25_v7, cc_b25_v8, cc_csR_v7, cc_csR_v8, cc_rsProg_v7, cc_rsProg_v8, cc_decR_v7, cc_decR_v8, cc_relRes_v7, cc_relRes_v8, cc_relRm_v7, cc_relRm_v8, cc_v1_v7, cc_v1_v8, cc_v2_v7, cc_v2_v8, cc_v3_v7, cc_v3_v8, cc_v4_v7, cc_v4_v8, cc_csW2_v7, cc_csW2_v8, cc_v6_v7, cc_v6_v8, cc_v7_v7, cc_v7_v8, cc_v8_v7, cc_v8_v8, cc_v9_v7, cc_v9_v8, cc_v10_v7, cc_v10_v8] at hn ⊢
    omega
  · obtain ⟨rfl, hbr⟩ := tstep_decWrite hstep
    rcases hbr with ⟨hc, rfl⟩ | ⟨hc, rfl⟩
    · refine ⟨memInv_update hm (by decide), ?_⟩
      simp only [Num2, RWLock.gate, RWLock.setGate, cc_b21_v8, cc_b21_v9, cc_b21_v10, cc_b22_v8, cc_b22_v9, cc_b22_v10, cc_b23_v8, cc_b23_v9, cc_b23_v10, cc_b24_v8, cc_b24_v9, cc_b24_v10, cc_b25_v8, cc_b25_v9, cc_b25_v10, cc_csR_v8, cc_csR_v9, cc_csR_v10, cc_rsProg_v8, cc_rsProg_v9, cc_rsProg_v10, cc_decR_v8, cc_decR_v9, cc_decR_v10, cc_relRes_v8, cc_relRes_v9, cc_relRes_v10, cc_relRm_v8, cc_relRm_v9, cc_relRm_v10, cc_v1_v8, cc_v1_v9, cc_v1_v10, cc_v2_v8, cc_v2_v9, cc_v2_v10, cc_v3_v8, cc_v3_v9, cc_v3_v10, cc_v4_v8, cc_v4_v9, cc_v4_v10, cc_csW2_v8, cc_csW2_v9, cc_csW2_v10, cc_v6_v8, cc_v6_v9, cc_v6_v10, cc_v7_v8, cc_v7_v9, cc_v7_v10, cc_v8_v8, cc_v8_v9, cc_v8_v10, cc_v9_v8, cc_v9_v9, cc_v9_v10, cc_v10_v8, cc_v10_v9, cc_v10_v10] at hn ⊢
      omega
    · refine ⟨memInv_update hm (by decide), ?_⟩
      simp only [Num2, RWLock.gate, RWLock.setGate, cc_b21_v8, cc_b21_v9, cc_b21_v10, cc_b22_v8, cc_b22_v9, cc_b22_v10, cc_b23_v8, cc_b23_v9, cc_b23_v10, cc_b24_v8, cc_b24_v9, cc_b24_v10, cc_b25_v8, cc_b25_v9, cc_b25_v10, cc_csR_v8, cc_csR_v9, cc_csR_v10, cc_rsProg_v8, cc_rsProg_v9, cc_rsProg_v10, cc_decR_v8, cc_decR_v9, cc_decR_v10, cc_relRes_v8, cc_relRes_v9, cc_relRes_v10, cc_relRm_v8, cc_relRm_v9, cc_relRm_v10, cc_v1_v8, cc_v1_v9, cc_v1_v10, cc_v2_v8, cc_v2_v9, cc_v2_v10, cc_v3_v8, cc_v3_v9, cc_v3_v10, cc_v4_v8, cc_v4_v9, cc_v4_v10, cc_csW2_v8, cc_csW2_v9, cc_csW2_v10, cc_v6_v8, cc_v6_v9, cc_v6_v10, cc_v7_v8, cc_v7_v9, cc_v7_v10, cc_v8_v8, cc_v8_v9, cc_v8_v10, cc_v9_v8, cc_v9_v9, cc_v9_v10, cc_v10_v8, cc_v10_v9, cc_v10_v10] at hn ⊢
      omega
  · obtain ⟨rfl, rfl⟩ := tstep_rel hstep
    refine ⟨memInv_update hm (by decide), ?_⟩
    simp only [Num2, RWLock.gate, RWLock.setGate, cc_b21_v9, cc_b21_v10, cc_b22_v9, cc_b22_v10, cc_b23_v9, cc_b23_v10, cc_b24_v9, cc_b24_v10, cc_b25_v9, cc_b25_v10, cc_csR_v9, cc_csR_v10, cc_rsProg_v9, cc_rsProg_v10, cc_decR_v9, cc_decR_v10, cc_relRes_v9, cc_relRes_v10, cc_relRm_v9, cc_relRm_v10, cc_v1_v9, cc_v1_v10, cc_v2_v9, cc_v2_v10, cc_v3_v9, cc_v3_v10, cc_v4_v9, cc_v4_v10, cc_csW2_v9, cc_csW2_v10, cc_v6_v9, cc_v6_v10, cc_v7_v9, cc_v7_v10, cc_v8_v9, cc_v8_v10, cc_v9_v9, cc_v9_v10, cc_v10_v9, cc_v10_v10] at hn ⊢
    omega
  · obtain ⟨rfl, rfl⟩ := tstep_rel hstep
    refine ⟨memInv_update hm (by decide), ?_⟩
    simp only [Num2, RWLock.gate, RWLock.setGate, cc_b21_v10, cc_b21_pdone, cc_b22_v10, cc_b22_pdone, cc_b23_v10, cc_b23_pdone, cc_b24_v10, cc_b24_pdone, cc_b25_v10, cc_b25_pdone, cc_csR_v10, cc_csR_pdone, cc_rsProg_v10, cc_rsProg_pdone, cc_decR_v10, cc_decR_pdone, cc_relRes_v10, cc_relRes_pdone, cc_relRm_v10, cc_relRm_pdone, cc_v1_v10, cc_v1_pdone, cc_v2_v10, cc_v2_pdone, cc_v3_v10, cc_v3_pdone, cc_v4_v10, cc_v4_pdone, cc_csW2_v10, cc_csW2_pdone, cc_v6_v10, cc_v6_pdone, cc_v7_v10, cc_v7_pdone, cc_v8_v10, cc_v8_pdone, cc_v9_v10, cc_v9_pdone, cc_v10_v10, cc_v10_pdone] at hn ⊢
    omega
  · exact (tstep_done hstep).elim

set_option maxHeartbeats 3000000 in
theorem Num3_pres {s s' : RWLock} {t t' : Prog} {rest : Multiset Prog}
    (hm : MemInv locs3 (t ::ₘ rest)) (hn : Num3 s (t ::ₘ rest))
    (hstep : TStep s t s' t') :
    MemInv locs3 (t' ::ₘ rest) ∧ Num3 s' (t' ::ₘ rest) := by
  have ht : t ∈ locs3 := hm t (Multiset.mem_cons_self t rest)
  simp only [locs3, List.mem_cons, List.not_mem_nil, or_false] at ht
  rcases ht with rfl|rfl|rfl|rfl|rfl|rfl|rfl|rfl|rfl|rfl|rfl|rfl|rfl|rfl|rfl|rfl|rfl
  · obtain ⟨rfl, hpos, rfl⟩ := tstep_acq hstep
    refine ⟨memInv_update hm (by decide), ?_⟩
    simp only [RWLock.gate] at hpos
    simp only [Num3, RWLock.gate, RWLock.setGate, cc_c31_c30, cc_c31_c31, cc_c32_c30, cc_c32_c31, cc_c33_c30, cc_c33_c31, cc_c34_c30, cc_c34_c31, cc_relRmCs_c30, cc_relRmCs_c31, cc_csR_c30, cc_csR_c31, cc_rsProg_c30, cc_rsProg_c31, cc_decR_c30, cc_decR_c31, cc_relRes_c30, cc_relRes_c31, cc_relRm_c30, cc_relRm_c31, cc_x1_c30, cc_x1_c31, cc_x2_c30, cc_x2_c31, cc_csW_c30, cc_csW_c31, cc_relE_c30, cc_relE_c31] at hn ⊢
    omega
  · obtain ⟨rfl, hpos, rfl⟩ := tstep_acq hstep
    refine ⟨memInv_update hm (by decide), ?_⟩
    simp only [RWLock.gate] at hpos
    simp only [Num3, RWLock.gate, RWLock.setGate, cc_c31_c31, cc_c31_c32, cc_c32_c31, cc_c32_c32, cc_c33_c31, cc_c33_c32, cc_c34_c31, cc_c34_c32, cc_relRmCs_c31, cc_relRmCs_c32, cc_csR_c31, cc_csR_c32, cc_rsProg_c31, cc_rsProg_c32, cc_decR_c31, cc_decR_c32, cc_relRes_c31, cc_relRes_c32, cc_relRm_c31, cc_relRm_c32, cc_x1_c31, cc_x1_c32, cc_x2_c31, cc_x2_c32, cc_csW_c31, cc_csW_c32, cc_relE_c31, cc_relE_c32] at hn ⊢
    omega
  · obtain ⟨rfl, hbr⟩ := tstep_incRead hstep
    rcases hbr with ⟨hc, rfl⟩ | ⟨hc, rfl⟩
    · refine ⟨memInv_update hm (by decide), ?_⟩
      simp only [Num3, RWLock.gate, RWLock.setGate, cc_c31_c32, cc_c31_c33, cc_c31_c34, cc_c32_c32, cc_c32_c33, cc_c32_c34, cc_c33_c32, cc_c33_c33, cc_c33_c34, cc_c34_c32, cc_c34_c33, cc_c34_c34, cc_relRmCs_c32, cc_relRmCs_c33, cc_relRmCs_c34, cc_csR_c32, cc_csR_c33, cc_csR_c34, cc_rsProg_c32, cc_rsProg_c33, cc_rsProg_c34, cc_decR_c32, cc_decR_c33, cc_decR_c34, cc_relRes_c32, cc_relRes_c33, cc_relRes_c34, cc_relRm_c32, cc_relRm_c33, cc_relRm_c34, cc_x1_c32, cc_x1_c33, cc_x1_c34, cc_x2_c32, cc_x2_c33, cc_x2_c34, cc_csW_c32, cc_csW_c33, cc_csW_c34, cc_relE_c32, cc_relE_c33, cc_relE_c34] at hn ⊢
      omega
    · refine ⟨memInv_update hm (by decide), ?_⟩
      simp only [Num3, RWLock.gate, RWLock.setGate, cc_c31_c32, cc_c31_c33, cc_c31_c34, cc_c32_c32, cc_c32_c33, cc_c32_c34, cc_c33_c32, cc_c33_c33, cc_c33_c34, cc_c34_c32, cc_c34_c33, cc_c34_c34, cc_relRmCs_c32, cc_relRmCs_c33, cc_relRmCs_c34, cc_csR_c32, cc_csR_c33, cc_csR_c34, cc_rsProg_c32, cc_rsProg_c33, cc_rsProg_c34, cc_decR_c32, cc_decR_c33, cc_decR_c34, cc_relRes_c32, cc_relRes_c33, cc_relRes_c34, cc_relRm_c32, cc_relRm_c33, cc_relRm_c34, cc_x1_c32, cc_x1_c33, cc_x1_c34, cc_x2_c32, cc_x2_c33, cc_x2_c34, cc_csW_c32, cc_csW_c33, cc_csW_c34, cc_relE_c32, cc_relE_c33, cc_relE_c34] at hn ⊢
      omega
  · obtain ⟨rfl, hpos, rfl⟩ := tstep_acq hstep
    refine ⟨memInv_update hm (by decide), ?_⟩
    simp only [RWLock.gate] at hpos
    simp only [Num3, RWLock.gate, RWLock.setGate, cc_c31_c33, cc_c31_c34, cc_c32_c33, cc_c32_c34, cc_c33_c33, cc_c33_c34, cc_c34_c33, cc_c34_c34, cc_relRmCs_c33, cc_relRmCs_c34, cc_csR_c33, cc_csR_c34, cc_rsProg_c33, cc_rsProg_c34, cc_decR_c33, cc_decR_c34, cc_relRes_c33, cc_relRes_c34, cc_relRm_c33, cc_relRm_c34, cc_x1_c33, cc_x1_c34, cc_x2_c33, cc_x2_c34, cc_csW_c33, cc_csW_c34, cc_relE_c33, cc_relE_c34] at hn ⊢
    omega
  · obtain ⟨rfl, rfl⟩ := tstep_rel hstep
    refine ⟨memInv_update hm (by decide), ?_⟩
    simp only [Num3, RWLock.gate, RWLock.setGate, cc_c31_c34, cc_c31_relRmCs, cc_c32_c34, cc_c32_relRmCs, cc_c33_c34, cc_c33_relRmCs, cc_c34_c34, cc_c34_relRmCs, cc_relRmCs_c34, cc_relRmCs_relRmCs, cc_csR_c34, cc_csR_relRmCs, cc_rsProg_c34, cc_rsProg_relRmCs, cc_decR_c34, cc_decR_relRmCs, cc_relRes_c34, cc_relRes_relRmCs, cc_relRm_c34, cc_relRm_relRmCs, cc_x1_c34, cc_x1_relRmCs, cc_x2_c34, cc_x2_relRmCs, cc_csW_c34, cc_csW_relRmCs, cc_relE_c34, cc_relE_relRmCs] at hn ⊢
    omega
  · obtain ⟨rfl, rfl⟩ := tstep_rel hstep
    refine ⟨memInv_update hm (by decide), ?_⟩
    simp only [Num3, RWLock.gate, RWLock.setGate, cc_c31_relRmCs, cc_c31_csR, cc_c32_relRmCs, cc_c32_csR, cc_c33_relRmCs, cc_c33_csR, cc_c34_relRmCs, cc_c34_csR, cc_relRmCs_relRmCs, cc_relRmCs_csR, cc_csR_relRmCs, cc_csR_csR, cc_rsProg_relRmCs, cc_rsProg_csR, cc_decR_relRmCs, cc_decR_csR, cc_relRes_relRmCs, cc_relRes_csR, cc_relRm_relRmCs, cc_relRm_csR, cc_x1_relRmCs, cc_x1_csR, cc_x2_relRmCs, cc_x2_csR, cc_csW_relRmCs, cc_csW_csR, cc_relE_relRmCs, cc_relE_csR] at hn ⊢
    omega
  · obtain ⟨rfl, rfl⟩ := tstep_cs hstep
    refine ⟨memInv_update hm (by decide), ?_⟩
    simp only [Num3, cc_c31_csR, cc_c31_rsProg, cc_c32_csR, cc_c32_rsProg, cc_c33_csR, cc_c33_rsProg, cc_c34_csR, cc_c34_rsProg, cc_relRmCs_csR, cc_relRmCs_rsProg, cc_csR_csR, cc_csR_rsProg, cc_rsProg_csR, cc_rsProg_rsProg, cc_decR_csR, cc_decR_rsProg, cc_relRes_csR, cc_relRes_rsProg, cc_relRm_csR, cc_relRm_rsProg, cc_x1_csR, cc_x1_rsProg, cc_x2_csR, cc_x2_rsProg, cc_csW_csR, cc_csW_rsProg, cc_relE_csR, cc_relE_rsProg] at hn ⊢
    omega
  · obtain ⟨rfl, hpos, rfl⟩ := tstep_acq hstep
    refine ⟨memInv_update hm (by decide), ?_⟩
    simp only [RWLock.gate] at hpos
    simp only [Num3, RWLock.gate, RWLock.setGate, cc_c31_rsProg, cc_c31_decR, cc_c32_rsProg, cc_c32_decR, cc_c33_rsProg, cc_c33_decR, cc_c34_rsProg, cc_c34_decR, cc_relRmCs_rsProg, cc_relRmCs_decR, cc_csR_rsProg, cc_csR_decR, cc_rsProg_rsProg, cc_rsProg_decR, cc_decR_rsProg, cc_decR_decR, cc_relRes_rsProg, cc_relRes_decR, cc_relRm_rsProg, cc_relRm_decR, cc_x1_rsProg, cc_x1_decR, cc_x2_rsProg, cc_x2_decR, cc_csW_rsProg, cc_csW_decR, cc_relE_rsProg, cc_relE_decR] at hn ⊢
    omega
  · obtain ⟨rfl, hbr⟩ := tstep_decRead hstep
    rcases hbr with ⟨hc, rfl⟩ | ⟨hc, rfl⟩
    · refine ⟨memInv_update hm (by decide), ?_⟩
      simp only [Num3, RWLock.gate, RWLock.setGate, cc_c31_decR, cc_c31_relRes, cc_c31_relRm, cc_c32_decR, cc_c32_relRes, cc_c32_relRm, cc_c33_decR, cc_c33_relRes, cc_c33_relRm, cc_c34_decR, cc_c34_relRes, cc_c34_relRm, cc_relRmCs_decR, cc_relRmCs_relRes, cc_relRmCs_relRm, cc_csR_decR, cc_csR_relRes, cc_csR_relRm, cc_rsProg_decR, cc_rsProg_relRes, cc_rsProg_relRm, cc_decR_decR, cc_decR_relRes, cc_decR_relRm, cc_relRes_decR, cc_relRes_relRes, cc_relRes_relRm, cc_relRm_decR, cc_relRm_relRes, cc_relRm_relRm, cc_x1_decR, cc_x1_relRes, cc_x1_relRm, cc_x2_decR, cc_x2_relRes, cc_x2_relRm, cc_csW_decR, cc_csW_relRes, cc_csW_relRm, cc_relE_decR, cc_relE_relRes, cc_relE_relRm] at hn ⊢
      omega
    · refine ⟨memInv_update hm (by decide), ?_⟩
      simp only [Num3, RWLock.gate, RWLock.setGate, cc_c31_decR, cc_c31_relRes, cc_c31_relRm, cc_c32_decR, cc_c32_relRes, cc_c32_relRm, cc_c33_decR, cc_c33_relRes, cc_c33_relRm, cc_c34_decR, cc_c34_relRes, cc_c34_relRm, cc_relRmCs_decR, cc_relRmCs_relRes, cc_relRmCs_relRm, cc_csR_decR, cc_csR_relRes, cc_csR_relRm, cc_rsProg_decR, cc_rsProg_relRes, cc_rsProg_relRm, cc_decR_decR, cc_decR_relRes, cc_decR_relRm, cc_relRes_decR, cc_relRes_relRes, cc_relRes_relRm, cc_relRm_decR, cc_relRm_relRes, cc_relRm_relRm, cc_x1_decR, cc_x1_relRes, cc_x1_relRm, cc_x2_decR, cc_x2_relRes, cc_x2_relRm, cc_csW_decR, cc_csW_relRes, cc_csW_relRm, cc_relE_decR, cc_relE_relRes, cc_relE_relRm] at hn ⊢
      omega
  · obtain ⟨rfl, rfl⟩ := tstep_rel hstep
    refine ⟨memInv_update hm (by decide), ?_⟩
    simp only [Num3, RWLock.gate, RWLock.setGate, cc_c31_relRes, cc_c31_relRm, cc_c32_relRes, cc_c32_relRm, cc_c33_relRes, cc_c33_relRm, cc_c34_relRes, cc_c34_relRm, cc_relRmCs_relRes, cc_relRmCs_relRm, cc_csR_relRes, cc_csR_relRm, cc_rsProg_relRes, cc_rsProg_relRm, cc_decR_relRes, cc_decR_relRm, cc_relRes_relRes, cc_relRes_relRm, cc_relRm_relRes, cc_relRm_relRm, cc_x1_relRes, cc_x1_relRm, cc_x2_relRes, cc_x2_relRm, cc_csW_relRes, cc_csW_relRm, cc_relE_relRes, cc_relE_relRm] at hn ⊢
    omega
  · obtain ⟨rfl, rfl⟩ := tstep_rel hstep
    refine ⟨memInv_update hm (by decide), ?_⟩
    simp only [Num3, RWLock.gate, RWLock.setGate, cc_c31_relRm, cc_c31_pdone, cc_c32_relRm, cc_c32_pdone, cc_c33_relRm, cc_c33_pdone, cc_c34_relRm, cc_c34_pdone, cc_relRmCs_relRm, cc_relRmCs_pdone, cc_csR_relRm, cc_csR_pdone, cc_rsProg_relRm, cc_rsProg_pdone, cc_decR_relRm, cc_decR_pdone, cc_relRes_relRm, cc_relRes_pdone, cc_relRm_relRm, cc_relRm_pdone, cc_x1_relRm, cc_x1_pdone, cc_x2_relRm, cc_x2_pdone, cc_csW_relRm, cc_csW_pdone, cc_relE_relRm, cc_relE_pdone] at hn ⊢
    omega
  · obtain ⟨rfl, hpos, rfl⟩ := tstep_acq hstep
    refine ⟨memInv_update hm (by decide), ?_⟩
    simp only [RWLock.gate] at hpos
    simp only [Num3, RWLock.gate, RWLock.setGate, cc_c31_x0, cc_c31_x1, cc_c32_x0, cc_c32_x1, cc_c33_x0, cc_c33_x1, cc_c34_x0, cc_c34_x1, cc_relRmCs_x0, cc_relRmCs_x1, cc_csR_x0, cc_csR_x1, cc_rsProg_x0, cc_rsProg_x1, cc_decR_x0, cc_decR_x1, cc_relRes_x0, cc_relRes_x1, cc_relRm_x0, cc_relRm_x1, cc_x1_x0, cc_x1_x1, cc_x2_x0, cc_x2_x1, cc_csW_x0, cc_csW_x1, cc_relE_x0, cc_relE_x1] at hn ⊢
    omega
  · obtain ⟨rfl, hpos, rfl⟩ := tstep_acq hstep
    refine ⟨memInv_update hm (by decide), ?_⟩
    simp only [RWLock.gate] at hpos
    simp only [Num3, RWLock.gate, RWLock.setGate, cc_c31_x1, cc_c31_x2, cc_c32_x1, cc_c32_x2, cc_c33_x1, cc_c33_x2, cc_c34_x1, cc_c34_x2, cc_relRmCs_x1, cc_relRmCs_x2, cc_csR_x1, cc_csR_x2, cc_rsProg_x1, cc_rsProg_x2, cc_decR_x1, cc_decR_x2, cc_relRes_x1, cc_relRes_x2, cc_relRm_x1, cc_relRm_x2, cc_x1_x1, cc_x1_x2, cc_x2_x1, cc_x2_x2, cc_csW_x1, cc_csW_x2, cc_relE_x1, cc_relE_x2] at hn ⊢
    omega
  · obtain ⟨rfl, rfl⟩ := tstep_rel hstep
    refine ⟨memInv_update hm (by decide), ?_⟩
    simp only [Num3, RWLock.gate, RWLock.setGate, cc_c31_x2, cc_c31_csW, cc_c32_x2, cc_c32_csW, cc_c33_x2, cc_c33_csW, cc_c34_x2, cc_c34_csW, cc_relRmCs_x2, cc_relRmCs_csW, cc_csR_x2, cc_csR_csW, cc_rsProg_x2, cc_rsProg_csW, cc_decR_x2, cc_decR_csW, cc_relRes_x2, cc_relRes_csW, cc_relRm_x2, cc_relRm_csW, cc_x1_x2, cc_x1_csW, cc_x2_x2, cc_x2_csW, cc_csW_x2, cc_csW_csW, cc_relE_x2, cc_relE_csW] at hn ⊢
    omega
  · obtain ⟨rfl, rfl⟩ := tstep_cs hstep
    refine ⟨memInv_update hm (by decide), ?_⟩
    simp only [Num3, cc_c31_csW, cc_c31_relE, cc_c32_csW, cc_c32_relE, cc_c33_csW, cc_c33_relE, cc_c34_csW, cc_c34_relE, cc_relRmCs_csW, cc_relRmCs_relE, cc_csR_csW, cc_csR_relE, cc_rsProg_csW, cc_rsProg_relE, cc_decR_csW, cc_decR_relE, cc_relRes_csW, cc_relRes_relE, cc_relRm_csW, cc_relRm_relE, cc_x1_csW, cc_x1_relE, cc_x2_csW, cc_x2_relE, cc_csW_csW, cc_csW_relE, cc_relE_csW, cc_relE_relE] at hn ⊢
    omega
  · obtain ⟨rfl, rfl⟩ := tstep_rel hstep
    refine ⟨memInv_update hm (by decide), ?_⟩
    simp only [Num3, RWLock.gate, RWLock.setGate, cc_c31_relE, cc_c31_pdone, cc_c32_relE, cc_c32_pdone, cc_c33_relE, cc_c33_pdone, cc_c34_relE, cc_c34_pdone, cc_relRmCs_relE, cc_relRmCs_pdone, cc_csR_relE, cc_csR_pdone, cc_rsProg_relE, cc_rsProg_pdone, cc_decR_relE, cc_decR_pdone, cc_relRes_relE, cc_relRes_pdone, cc_relRm_relE, cc_relRm_pdone, cc_x1_relE, cc_x1_pdone, cc_x2_relE, cc_x2_pdone, cc_csW_relE, cc_csW_pdone, cc_relE_relE, cc_relE_pdone] at hn ⊢
    omega
  · exact (tstep_done hstep).elim


/-- No atomic statement writes the `m_mode` field. -/
theorem tstep_mode {s s' : RWLock} {t t' : Prog} (h : TStep s t s' t') :
    s'.m_mode = s.m_mode := by
  cases h with
  | acq g _ _ _ => cases g <;> rfl
  | rel g _ => cases g <;> rfl
  | incRead_eq _ _ _ => rfl
  | incRead_ne _ _ _ => rfl
  | decRead_eq _ _ _ => rfl
  | decRead_ne _ _ _ => rfl
  | incWrite_eq _ _ _ => rfl
  | incWrite_ne _ _ _ => rfl
  | decWrite_eq _ _ _ => rfl
  | decWrite_ne _ _ _ => rfl
  | leaveCS _ => rfl

/-- No global step writes the `m_mode` field. -/
theorem sysStep_mode {a b : Sys} (h : SysStep a b) :
    b.lock.m_mode = a.lock.m_mode := by
  cases h with
  | thread t t' rest hts hts2 hstep => exact tstep_mode hstep
  | startReader rest hlock hts hts2 => rw [hlock]
  | startWriter rest hlock hts hts2 => rw [hlock]

/-- The mode stays what the constructor set it to. -/
theorem reachable_mode {m : RWLockMode} {n : Nat} {sys : Sys}
    (h : Reachable m n sys) : sys.lock.m_mode = m := by
  induction h with
  | refl => rfl
  | tail _ hstep ih => rw [sysStep_mode hstep, ih]

/-- Per-mode global invariant, as three mode-guarded conjuncts. -/
def SysInv (sys : Sys) : Prop :=
  (sys.lock.m_mode = RWLockMode.ReadersPriority →
    MemInv locs1 sys.threads ∧ Num1 sys.lock sys.threads) ∧
  (sys.lock.m_mode = RWLockMode.WritersPriority →
    MemInv locs2 sys.threads ∧ Num2 sys.lock sys.threads) ∧
  (sys.lock.m_mode = RWLockMode.FairOrder →
    MemInv locs3 sys.threads ∧ Num3 sys.lock sys.threads)

theorem readerSession_rp : readerSession RWLockMode.ReadersPriority = a10 := rfl

theorem readerSession_wp : readerSession RWLockMode.WritersPriority = b20 := rfl

theorem readerSession_fo : readerSession RWLockMode.FairOrder = c30 := rfl

theorem writerSession_rp : writerSession RWLockMode.ReadersPriority = w10 := rfl

theorem writerSession_wp : writerSession RWLockMode.WritersPriority = v0 := rfl

theorem writerSession_fo : writerSession RWLockMode.FairOrder = x0 := rfl

theorem Num1_spawnR {s : RWLock} {rest : Multiset Prog}
    (hn : Num1 s (Prog.done ::ₘ rest)) : Num1 s (a10 ::ₘ rest) := by
  simp only [Num1, cc_a11_pdone, cc_a12_pdone, cc_relRmCs_pdone, cc_csR_pdone,
    cc_rsProg_pdone, cc_decR_pdone, cc_relRes_pdone, cc_relRm_pdone,
    cc_csW_pdone, cc_relE_pdone, cc_a11_a10, cc_a12_a10, cc_relRmCs_a10,
    cc_csR_a10, cc_rsProg_a10, cc_decR_a10, cc_relRes_a10, cc_relRm_a10,
    cc_csW_a10, cc_relE_a10] at hn ⊢
  omega

theorem Num1_spawnW {s : RWLock} {rest : Multiset Prog}
    (hn : Num1 s (Prog.done ::ₘ rest)) : Num1 s (w10 ::ₘ rest) := by
  simp only [Num1, cc_a11_pdone, cc_a12_pdone, cc_relRmCs_pdone, cc_csR_pdone,
    cc_rsProg_pdone, cc_decR_pdone, cc_relRes_pdone, cc_relRm_pdone,
    cc_csW_pdone, cc_relE_pdone, cc_a11_w10, cc_a12_w10, cc_relRmCs_w10,
    cc_csR_w10, cc_rsProg_w10, cc_decR_w10, cc_relRes_w10, cc_relRm_w10,
    cc_csW_w10, cc_relE_w10] at hn ⊢
  omega

theorem Num2_spawnR {s : RWLock} {rest : Multiset Prog}
    (hn : Num2 s (Prog.done ::ₘ rest)) : Num2 s (b20 ::ₘ rest) := by
  simp only [Num2, cc_b21_pdone, cc_b22_pdone, cc_b23_pdone, cc_b24_pdone,
    cc_b25_pdone, cc_csR_pdone, cc_rsProg_pdone, cc_decR_pdone, cc_relRes_pdone,
    cc_relRm_pdone, cc_v1_pdone, cc_v2_pdone, cc_v3_pdone, cc_v4_pdone,
    cc_csW2_pdone, cc_v6_pdone, cc_v7_pdone, cc_v8_pdone, cc_v9_pdone,
    cc_v10_pdone, cc_b21_b20, cc_b22_b20, cc_b23_b20, cc_b24_b20, cc_b25_b20,
    cc_csR_b20, cc_rsProg_b20, cc_decR_b20, cc_relRes_b20, cc_relRm_b20,
    cc_v1_b20, cc_v2_b20, cc_v3_b20, cc_v4_b20, cc_csW2_b20, cc_v6_b20,
    cc_v7_b20, cc_v8_b20, cc_v9_b20, cc_v10_b20] at hn ⊢
  omega

theorem Num2_spawnW {s : RWLock} {rest : Multiset Prog}
    (hn : Num2 s (Prog.done ::ₘ rest)) : Num2 s (v0 ::ₘ rest) := by
  simp only [Num2, cc_b21_pdone, cc_b22_pdone, cc_b23_pdone, cc_b24_pdone,
    cc_b25_pdone, cc_csR_pdone, cc_rsProg_pdone, cc_decR_pdone, cc_relRes_pdone,
    cc_relRm_pdone, cc_v1_pdone, cc_v2_pdone, cc_v3_pdone, cc_v4_pdone,
    cc_csW2_pdone, cc_v6_pdone, cc_v7_pdone, cc_v8_pdone, cc_v9_pdone,
    cc_v10_pdone, cc_b21_v0, cc_b22_v0, cc_b23_v0, cc_b24_v0, cc_b25_v0,
    cc_csR_v0, cc_rsProg_v0, cc_decR_v0, cc_relRes_v0, cc_relRm_v0,
    cc_v1_v0, cc_v2_v0, cc_v3_v0, cc_v4_v0, cc_csW2_v0, cc_v6_v0,
    cc_v7_v0, cc_v8_v0, cc_v9_v0, cc_v10_v0] at hn ⊢
  omega

theorem Num3_spawnR {s : RWLock} {rest : Multiset Prog}
    (hn : Num3 s (Prog.done ::ₘ rest)) : Num3 s (c30 ::ₘ rest) := by
  simp only [Num3, cc_c31_pdone, cc_c32_pdone, cc_c33_pdone, cc_c34_pdone,
    cc_relRmCs_pdone, cc_csR_pdone, cc_rsProg_pdone, cc_decR_pdone,
    cc_relRes_pdone, cc_relRm_pdone, cc_x1_pdone, cc_x2_pdone, cc_csW_pdone,
    cc_relE_pdone, cc_c31_c30, cc_c32_c30, cc_c33_c30, cc_c34_c30,
    cc_relRmCs_c30, cc_csR_c30, cc_rsProg_c30, cc_decR_c30, cc_relRes_c30,
    cc_relRm_c30, cc_x1_c30, cc_x2_c30, cc_csW_c30, cc_relE_c30] at hn ⊢
  omega

theorem Num3_spawnW {s : RWLock} {rest : Multiset Prog}
    (hn : Num3 s (Prog.done ::ₘ rest)) : Num3 s (x0 ::ₘ rest) := by
  simp only [Num3, cc_c31_pdone, cc_c32_pdone, cc_c33_pdone, cc_c34_pdone,
    cc_relRmCs_pdone, cc_csR_pdone, cc_rsProg_pdone, cc_decR_pdone,
    cc_relRes_pdone, cc_relRm_pdone, cc_x1_pdone, cc_x2_pdone, cc_csW_pdone,
    cc_relE_pdone, cc_c31_x0, cc_c32_x0, cc_c33_x0, cc_c34_x0,
    cc_relRmCs_x0, cc_csR_x0, cc_rsProg_x0, cc_decR_x0, cc_relRes_x0,
    cc_relRm_x0, cc_x1_x0, cc_x2_x0, cc_csW_x0, cc_relE_x0] at hn ⊢
  omega

/-- One global step preserves the invariant. -/
theorem Inv_step {a b : Sys} (h : SysStep a b) (hi : SysInv a) : SysInv b := by
  obtain ⟨hi1, hi2, hi3⟩ := hi
  cases h with
  | thread t t' rest hts hts2 hstep =>
      have hmode := tstep_mode hstep
      refine ⟨?_, ?_, ?_⟩ <;> intro heq
      · obtain ⟨hmem, hnum⟩ := hi1 (by rw [← hmode, heq])
        rw [hts] at hmem hnum
        rw [hts2]
        exact Num1_pres hmem hnum hstep
      · obtain ⟨hmem, hnum⟩ := hi2 (by rw [← hmode, heq])
        rw [hts] at hmem hnum
        rw [hts2]
        exact Num2_pres hmem hnum hstep
      · obtain ⟨hmem, hnum⟩ := hi3 (by rw [← hmode, heq])
        rw [hts] at hmem hnum
        rw [hts2]
        exact Num3_pres hmem hnum hstep
  | startReader rest hlock hts hts2 =>
      refine ⟨?_, ?_, ?_⟩ <;> intro heq
      · have heqa : a.lock.m_mode = RWLockMode.ReadersPriority := by rw [← hlock, heq]
        obtain ⟨hmem, hnum⟩ := hi1 heqa
        rw [hts] at hmem hnum
        rw [hts2, hlock, heqa, readerSession_rp]
        exact ⟨memInv_update hmem (by decide), Num1_spawnR hnum⟩
      · have heqa : a.lock.m_mode = RWLockMode.WritersPriority := by rw [← hlock, heq]
        obtain ⟨hmem, hnum⟩ := hi2 heqa
        rw [hts] at hmem hnum
        rw [hts2, hlock, heqa, readerSession_wp]
        exact ⟨memInv_update hmem (by decide), Num2_spawnR hnum⟩
      · have heqa : a.lock.m_mode = RWLockMode.FairOrder := by rw [← hlock, heq]
        obtain ⟨hmem, hnum⟩ := hi3 heqa
        rw [hts] at hmem hnum
        rw [hts2, hlock, heqa, readerSession_fo]
        exact ⟨memInv_update hmem (by decide), Num3_spawnR hnum⟩
  | startWriter rest hlock hts hts2 =>
      refine ⟨?_, ?_, ?_⟩ <;> intro heq
      · have heqa : a.lock.m_mode = RWLockMode.ReadersPriority := by rw [← hlock, heq]
        obtain ⟨hmem, hnum⟩ := hi1 heqa
        rw [hts] at hmem hnum
        rw [hts2, hlock, heqa, writerSession_rp]
        exact ⟨memInv_update hmem (by decide), Num1_spawnW hnum⟩
      · have heqa : a.lock.m_mode = RWLockMode.WritersPriority := by rw [← hlock, heq]
        obtain ⟨hmem, hnum⟩ := hi2 heqa
        rw [hts] at hmem hnum
        rw [hts2, hlock, heqa, writerSession_wp]
        exact ⟨memInv_update hmem (by decide), Num2_spawnW hnum⟩
      · have heqa : a.lock.m_mode = RWLockMode.FairOrder := by rw [← hlock, heq]
        obtain ⟨hmem, hnum⟩ := hi3 heqa
        rw [hts] at hmem hnum
        rw [hts2, hlock, heqa, writerSession_fo]
        exact ⟨memInv_update hmem (by decide), Num3_spawnW hnum⟩

/-- The freshly constructed lock satisfies the invariant. -/
theorem Inv_init (m : RWLockMode) (n : Nat) : SysInv (initSys m n) := by
  have hmem : ∀ locs : List Prog, Prog.done ∈ locs →
      MemInv locs (Multiset.replicate n Prog.done) := by
    intro locs hd p hp
    rw [Multiset.eq_of_mem_replicate hp]
    exact hd
  refine ⟨?_, ?_, ?_⟩ <;> intro heq
  · refine ⟨hmem locs1 (by decide), ?_⟩
    simp only [Num1, initSys, RWLock.new, Semaphore.init, cr_a11, cr_a12,
      cr_relRmCs, cr_csR, cr_rsProg, cr_decR, cr_relRes, cr_relRm, cr_csW,
      cr_relE]
    norm_num
  · refine ⟨hmem locs2 (by decide), ?_⟩
    simp only [Num2, initSys, RWLock.new, Semaphore.init, cr_b21, cr_b22,
      cr_b23, cr_b24, cr_b25, cr_csR, cr_rsProg, cr_decR, cr_relRes, cr_relRm,
      cr_v1, cr_v2, cr_v3, cr_v4, cr_csW2, cr_v6, cr_v7, cr_v8, cr_v9, cr_v10]
    norm_num
  · refine ⟨hmem locs3 (by decide), ?_⟩
    simp only [Num3, initSys, RWLock.new, Semaphore.init, cr_c31, cr_c32,
      cr_c33, cr_c34, cr_relRmCs, cr_csR, cr_rsProg, cr_decR, cr_relRes,
      cr_relRm, cr_x1, cr_x2, cr_csW, cr_relE]
    norm_num

/-- Every reachable state satisfies the invariant. -/
theorem reachable_inv {m : RWLockMode} {n : Nat} {sys : Sys}
    (h : Reachable m n sys) : SysInv sys := by
  induction h with
  | refl => exact Inv_init m n
  | tail _ hstep ih => exact Inv_step hstep ih

/-- Writing a semaphore field never writes the `m_mode` field. -/
theorem setGate_mode (s : RWLock) (g : Gate) (v : Nat) :
    (s.setGate g v).m_mode = s.m_mode := by cases g <;> rfl

/-- No micro-program run writes the `m_mode` field. -/
theorem runTr_mode : ∀ (p : Prog) (s : RWLock) (r : RWLock × List MicroOp),
    runTr p s = some r → r.1.m_mode = s.m_mode := by
  intro p
  induction p with
  | done =>
      intro s r h
      simp only [runTr, Option.some.injEq] at h
      rw [← h]
  | acq g k ih =>
      intro s r h
      rw [runTr] at h
      rcases htry : Semaphore.tryAcquire (s.gate g) with _ | a
      · rw [htry] at h
        cases h
      · rw [htry] at h
        simp only [Option.map_eq_some'] at h
        obtain ⟨r0, h0, rfl⟩ := h
        have hmode := ih _ _ h0
        rw [setGate_mode] at hmode
        simpa using hmode
  | rel g k ih =>
      intro s r h
      rw [runTr] at h
      simp only [Option.map_eq_some'] at h
      obtain ⟨r0, h0, rfl⟩ := h
      have hmode := ih _ _ h0
      rw [setGate_mode] at hmode
      simpa using hmode
  | incReadBr k₁ k₂ ih₁ ih₂ =>
      intro s r h
      rw [runTr] at h
      by_cases hc : s.m_readcount + 1 = 1
      · rw [if_pos hc] at h
        simp only [Option.map_eq_some'] at h
        obtain ⟨r0, h0, rfl⟩ := h
        simpa using ih₁ _ _ h0
      · rw [if_neg hc] at h
        simp only [Option.map_eq_some'] at h
        obtain ⟨r0, h0, rfl⟩ := h
        simpa using ih₂ _ _ h0
  | decReadBr k₁ k₂ ih₁ ih₂ =>
      intro s r h
      rw [runTr] at h
      by_cases hc : s.m_readcount - 1 = 0
      · rw [if_pos hc] at h
        simp only [Option.map_eq_some'] at h
        obtain ⟨r0, h0, rfl⟩ := h
        simpa using ih₁ _ _ h0
      · rw [if_neg hc] at h
        simp only [Option.map_eq_some'] at h
        obtain ⟨r0, h0, rfl⟩ := h
        simpa using ih₂ _ _ h0
  | incWriteBr k₁ k₂ ih₁ ih₂ =>
      intro s r h
      rw [runTr] at h
      by_cases hc : s.m_writecount + 1 = 1
      · rw [if_pos hc] at h
        simp only [Option.map_eq_some'] at h
        obtain ⟨r0, h0, rfl⟩ := h
        simpa using ih₁ _ _ h0
      · rw [if_neg hc] at h
        simp only [Option.map_eq_some'] at h
        obtain ⟨r0, h0, rfl⟩ := h
        simpa using ih₂ _ _ h0
  | decWriteBr k₁ k₂ ih₁ ih₂ =>
      intro s r h
      rw [runTr] at h
      by_cases hc : s.m_writecount - 1 = 0
      · rw [if_pos hc] at h
        simp only [Option.map_eq_some'] at h
        obtain ⟨r0, h0, rfl⟩ := h
        simpa using ih₁ _ _ h0
      · rw [if_neg hc] at h
        simp only [Option.map_eq_some'] at h
        obtain ⟨r0, h0, rfl⟩ := h
        simpa using ih₂ _ _ h0
  | cs k ih =>
      intro s r h
      rw [runTr] at h
      simp only [Option.map_eq_some'] at h
      obtain ⟨r0, h0, rfl⟩ := h
      simpa using ih _ _ h0

/-- The location of a reader between the return of `AcquireShared` and its
call of `ReleaseShared`, for a lock in mode `m`. -/
def readingLoc (m : RWLockMode) : Prog := Prog.cs (releaseSharedP m Prog.done)

/-- The location of a writer between the return of `AcquireExclusive` and its
call of `ReleaseExclusive`, for a lock in mode `m`. -/
def writingLoc (m : RWLockMode) : Prog := Prog.cs (releaseExclusiveP m Prog.done)

theorem readingLoc_eq (m : RWLockMode) : readingLoc m = csR := by
  cases m <;> rfl

theorem writingLoc_rp : writingLoc RWLockMode.ReadersPriority = csW := rfl

theorem writingLoc_wp : writingLoc RWLockMode.WritersPriority = csW2 := rfl

theorem writingLoc_fo : writingLoc RWLockMode.FairOrder = csW := rfl

attribute [ext] RWLock

/-- C1: Mutual exclusion.  In every reachable state of every interleaving
under any policy, at most one thread is between `AcquireExclusive` and its
`ReleaseExclusive`; while one is, no thread is between `AcquireShared` and its
`ReleaseShared`; the resource semaphore is unavailable whenever a writer or a
reader holds it, and held by readers or by one writer but never both. -/
theorem mutual_exclusion (m : RWLockMode) (n : Nat) (sys : Sys)
    (h : Reachable m n sys) :
    Multiset.count (writingLoc m) sys.threads ≤ 1 ∧
    (1 ≤ Multiset.count (writingLoc m) sys.threads →
      Multiset.count (readingLoc m) sys.threads = 0) ∧
    sys.lock.m_resource + Multiset.count (writingLoc m) sys.threads ≤ 1 ∧
    (1 ≤ Multiset.count (readingLoc m) sys.threads → sys.lock.m_resource = 0) := by
  have hi := reachable_inv h
  have hm := reachable_mode h
  obtain ⟨hi1, hi2, hi3⟩ := hi
  rw [readingLoc_eq]
  cases m with
  | ReadersPriority =>
      obtain ⟨hmem2, hnum⟩ := hi1 hm
      rw [writingLoc_rp]
      unfold Num1 at hnum
      omega
  | WritersPriority =>
      obtain ⟨hmem2, hnum⟩ := hi2 hm
      rw [writingLoc_wp]
      unfold Num2 at hnum
      omega
  | FairOrder =>
      obtain ⟨hmem2, hnum⟩ := hi3 hm
      rw [writingLoc_fo]
      unfold Num3 at hnum
      omega

theorem mutual_exclusion_w :
    Multiset.count (writingLoc RWLockMode.FairOrder)
      (initSys RWLockMode.FairOrder 1).threads ≤ 1 ∧
    (1 ≤ Multiset.count (writingLoc RWLockMode.FairOrder)
        (initSys RWLockMode.FairOrder 1).threads →
      Multiset.count (readingLoc RWLockMode.FairOrder)
        (initSys RWLockMode.FairOrder 1).threads = 0) ∧
    (initSys RWLockMode.FairOrder 1).lock.m_resource +
      Multiset.count (writingLoc RWLockMode.FairOrder)
        (initSys RWLockMode.FairOrder 1).threads ≤ 1 ∧
    (1 ≤ Multiset.count (readingLoc RWLockMode.FairOrder)
        (initSys RWLockMode.FairOrder 1).threads →
      (initSys RWLockMode.FairOrder 1).lock.m_resource = 0) :=
  mutual_exclusion RWLockMode.FairOrder 1 (initSys RWLockMode.FairOrder 1)
    Relation.ReflTransGen.refl

/-- C7: Balanced accounting.  Under every policy, after any interleaved
execution in which all started sessions have run to completion (every thread
is back at `done`, so every `AcquireShared` was paired with its
`ReleaseShared` and every `AcquireExclusive` with its `ReleaseExclusive`),
the lock state equals the freshly constructed one: `m_readcount = 0` and all
four semaphores available. -/
theorem balanced_accounting (m : RWLockMode) (n : Nat) (sys : Sys)
    (h : Reachable m n sys) (hall : ∀ p ∈ sys.threads, p = Prog.done) :
    sys.lock = RWLock.new m := by
  have hi := reachable_inv h
  have hm := reachable_mode h
  have hz : ∀ x : Prog, x ≠ Prog.done → Multiset.count x sys.threads = 0 := by
    intro x hx
    rw [Multiset.count_eq_zero]
    intro hmem
    exact hx (hall x hmem)
  obtain ⟨hi1, hi2, hi3⟩ := hi
  cases m with
  | ReadersPriority =>
      obtain ⟨hmem2, hnum⟩ := hi1 hm
      unfold Num1 at hnum
      rw [hz a11 (by decide), hz a12 (by decide), hz relRmCs (by decide),
        hz csR (by decide), hz rsProg (by decide), hz decR (by decide),
        hz relRes (by decide), hz relRm (by decide), hz csW (by decide),
        hz relE (by decide)] at hnum
      refine RWLock.ext hm ?_ ?_ ?_ ?_ ?_ ?_ <;>
        simp only [RWLock.new, Semaphore.init] <;> omega
  | WritersPriority =>
      obtain ⟨hmem2, hnum⟩ := hi2 hm
      unfold Num2 at hnum
      rw [hz b21 (by decide), hz b22 (by decide), hz b23 (by decide),
        hz b24 (by decide), hz b25 (by decide), hz csR (by decide),
        hz rsProg (by decide), hz decR (by decide), hz relRes (by decide),
        hz relRm (by decide), hz v1 (by decide), hz v2 (by decide),
        hz v3 (by decide), hz v4 (by decide), hz csW2 (by decide),
        hz v6 (by decide), hz v7 (by decide), hz v8 (by decide),
        hz v9 (by decide), hz v10 (by decide)] at hnum
      refine RWLock.ext hm ?_ ?_ ?_ ?_ ?_ ?_ <;>
        simp only [RWLock.new, Semaphore.init] <;> omega
  | FairOrder =>
      obtain ⟨hmem2, hnum⟩ := hi3 hm
      unfold Num3 at hnum
      rw [hz c31 (by decide), hz c32 (by decide), hz c33 (by decide),
        hz c34 (by decide), hz relRmCs (by decide), hz csR (by decide),
        hz rsProg (by decide), hz decR (by decide), hz relRes (by decide),
        hz relRm (by decide), hz x1 (by decide), hz x2 (by decide),
        hz csW (by decide), hz relE (by decide)] at hnum
      refine RWLock.ext hm ?_ ?_ ?_ ?_ ?_ ?_ <;>
        simp only [RWLock.new, Semaphore.init] <;> omega

theorem balanced_accounting_w :
    (initSys RWLockMode.FairOrder 2).lock = RWLock.new RWLockMode.FairOrder :=
  balanced_accounting RWLockMode.FairOrder 2 (initSys RWLockMode.FairOrder 2)
    Relation.ReflTransGen.refl (fun _ hp => Multiset.eq_of_mem_replicate hp)

/-- C8: Policy immutability.  No micro-program run (in particular none of the
four public operations) writes the `m_mode` field, and in every reachable
state the mode equals the construction-time mode, so every dispatch switches
on that same mode. -/
theorem mode_immutable :
    (∀ (p : Prog) (s : RWLock) (r : RWLock × List MicroOp),
      runTr p s = some r → r.1.m_mode = s.m_mode) ∧
    (∀ (m : RWLockMode) (n : Nat) (sys : Sys), Reachable m n sys →
      sys.lock.m_mode = m ∧
      (∀ k, acquireSharedP sys.lock.m_mode k = acquireSharedP m k ∧
            releaseSharedP sys.lock.m_mode k = releaseSharedP m k ∧
            acquireExclusiveP sys.lock.m_mode k = acquireExclusiveP m k ∧
            releaseExclusiveP sys.lock.m_mode k = releaseExclusiveP m k)) := by
  refine ⟨runTr_mode, ?_⟩
  intro m n sys h
  have hm := reachable_mode h
  rw [hm]
  exact ⟨rfl, fun k => ⟨rfl, rfl, rfl, rfl⟩⟩

theorem mode_immutable_w :
    (RWLock.new RWLockMode.WritersPriority, ([] : List MicroOp)).1.m_mode =
      (RWLock.new RWLockMode.WritersPriority).m_mode ∧
    (initSys RWLockMode.FairOrder 1).lock.m_mode = RWLockMode.FairOrder :=
  ⟨mode_immutable.1 Prog.done (RWLock.new RWLockMode.WritersPriority) _ rfl,
   (mode_immutable.2 RWLockMode.FairOrder 1 (initSys RWLockMode.FairOrder 1)
      Relation.ReflTransGen.refl).1⟩

/-- C9: A lock constructed without an explicit mode uses `FairOrder`, and any
mode other than `ReadersPriority` and `WritersPriority` (i.e. the `default`
branch of each switch) dispatches all four operations to the third variant. -/
theorem default_mode_fairorder :
    (RWLock.new).m_mode = RWLockMode.FairOrder ∧
    ∀ m : RWLockMode, m ≠ RWLockMode.ReadersPriority →
      m ≠ RWLockMode.WritersPriority →
      ∀ k : Prog, acquireSharedP m k = acquireShared3P k ∧
        releaseSharedP m k = releaseShared3P k ∧
        acquireExclusiveP m k = acquireExclusive3P k ∧
        releaseExclusiveP m k = releaseExclusive3P k := by
  refine ⟨rfl, ?_⟩
  intro m h1 h2 k
  cases m with
  | ReadersPriority => exact absurd rfl h1
  | WritersPriority => exact absurd rfl h2
  | FairOrder => exact ⟨rfl, rfl, rfl, rfl⟩

theorem default_mode_fairorder_w :
    acquireSharedP RWLockMode.FairOrder Prog.done = acquireShared3P Prog.done ∧
    releaseSharedP RWLockMode.FairOrder Prog.done = releaseShared3P Prog.done ∧
    acquireExclusiveP RWLockMode.FairOrder Prog.done = acquireExclusive3P Prog.done ∧
    releaseExclusiveP RWLockMode.FairOrder Prog.done = releaseExclusive3P Prog.done :=
  default_mode_fairorder.2 RWLockMode.FairOrder (by decide) (by decide) Prog.done

/-- C10: `ReleaseShared` is the same protocol in all three policies: the three
variant bodies are identical programs, the dispatch returns that one program
for every mode, and hence the run is independent of the constructed mode. -/
theorem releaseShared_uniform :
    (∀ k : Prog, releaseShared1P k = releaseShared2P k ∧
      releaseShared2P k = releaseShared3P k) ∧
    (∀ (m : RWLockMode) (k : Prog), releaseSharedP m k = releaseShared1P k) ∧
    (∀ (m m' : RWLockMode) (k : Prog) (s : RWLock),
      runTr (releaseSharedP m k) s = runTr (releaseSharedP m' k) s) := by
  refine ⟨fun k => ⟨rfl, rfl⟩, ?_, ?_⟩
  · intro m k
    cases m <;> rfl
  · intro m m' k s
    cases m <;> cases m' <;> rfl

/-- `AcquireShared1` completed: exact event order and state effect
(ReadersPriority reader acquisition). -/
theorem acquireShared1_spec (s s' : RWLock) (tr : List MicroOp)
    (h : runTr (acquireShared1P Prog.done) s = some (s', tr)) :
    tr = MicroOp.acq Gate.rmutex :: MicroOp.incRead ::
        (if s.m_readcount + 1 = 1
         then [MicroOp.acq Gate.resource, MicroOp.rel Gate.rmutex]
         else [MicroOp.rel Gate.rmutex]) ∧
    0 < s.m_rmutex ∧
    s'.m_readcount = s.m_readcount + 1 ∧
    s'.m_rmutex = s.m_rmutex ∧ s'.m_order = s.m_order ∧
    s'.m_wmutex = s.m_wmutex ∧ s'.m_writecount = s.m_writecount ∧
    s'.m_mode = s.m_mode ∧
    (s.m_readcount + 1 = 1 → 0 < s.m_resource ∧ s'.m_resource = s.m_resource - 1) ∧
    (s.m_readcount + 1 ≠ 1 → s'.m_resource = s.m_resource) := by
  simp only [acquireShared1P, runTr, RWLock.gate, RWLock.setGate,
    Semaphore.tryAcquire, Semaphore.release] at h
  split_ifs at h <;> simp_all <;> obtain ⟨rfl, rfl⟩ := h <;> simp_all <;> omega

/-- `ReleaseShared1` completed: exact event order and state effect. -/
theorem releaseShared1_spec (s s' : RWLock) (tr : List MicroOp)
    (h : runTr (releaseShared1P Prog.done) s = some (s', tr)) :
    tr = MicroOp.acq Gate.rmutex :: MicroOp.decRead ::
        (if s.m_readcount - 1 = 0
         then [MicroOp.rel Gate.resource, MicroOp.rel Gate.rmutex]
         else [MicroOp.rel Gate.rmutex]) ∧
    0 < s.m_rmutex ∧
    s'.m_readcount = s.m_readcount - 1 ∧
    s'.m_rmutex = s.m_rmutex ∧ s'.m_order = s.m_order ∧
    s'.m_wmutex = s.m_wmutex ∧ s'.m_writecount = s.m_writecount ∧
    s'.m_mode = s.m_mode ∧
    (s.m_readcount - 1 = 0 → s'.m_resource = s.m_resource + 1) ∧
    (s.m_readcount - 1 ≠ 0 → s'.m_resource = s.m_resource) := by
  simp only [releaseShared1P, runTr, RWLock.gate, RWLock.setGate,
    Semaphore.tryAcquire, Semaphore.release] at h
  split_ifs at h <;> simp_all <;> obtain ⟨rfl, rfl⟩ := h <;> simp_all <;> omega

/-- `AcquireExclusive1`/`ReleaseExclusive1` touch only the resource
semaphore. -/
theorem exclusive1_spec :
    (∀ (s s' : RWLock) (tr : List MicroOp),
      runTr (acquireExclusive1P Prog.done) s = some (s', tr) →
        tr = [MicroOp.acq Gate.resource] ∧ 0 < s.m_resource ∧
        s' = s.setGate Gate.resource (s.m_resource - 1)) ∧
    (∀ s : RWLock,
      runTr (releaseExclusive1P Prog.done) s =
        some (s.setGate Gate.resource (s.m_resource + 1), [MicroOp.rel Gate.resource])) := by
  constructor
  · intro s s' tr h
    simp only [acquireExclusive1P, runTr, RWLock.gate, RWLock.setGate,
      Semaphore.tryAcquire] at h
    split_ifs at h
    simp_all
  · intro s
    rfl

/-- `AcquireExclusive2` completed: exact event order and state effect
(WritersPriority writer acquisition). -/
theorem acquireExclusive2_spec (s s' : RWLock) (tr : List MicroOp)
    (h : runTr (acquireExclusive2P Prog.done) s = some (s', tr)) :
    tr = MicroOp.acq Gate.wmutex :: MicroOp.incWrite ::
        ((if s.m_writecount + 1 = 1 then [MicroOp.acq Gate.order] else []) ++
         [MicroOp.rel Gate.wmutex, MicroOp.acq Gate.resource]) ∧
    0 < s.m_wmutex ∧ 0 < s.m_resource ∧
    s'.m_writecount = s.m_writecount + 1 ∧
    s'.m_wmutex = s.m_wmutex ∧ s'.m_rmutex = s.m_rmutex ∧
    s'.m_readcount = s.m_readcount ∧ s'.m_mode = s.m_mode ∧
    s'.m_resource = s.m_resource - 1 ∧
    (s.m_writecount + 1 = 1 → 0 < s.m_order ∧ s'.m_order = s.m_order - 1) ∧
    (s.m_writecount + 1 ≠ 1 → s'.m_order = s.m_order) := by
  simp only [acquireExclusive2P, runTr, RWLock.gate, RWLock.setGate,
    Semaphore.tryAcquire, Semaphore.release] at h
  split_ifs at h <;> simp_all <;> obtain ⟨rfl, rfl⟩ := h <;> simp_all <;> omega

/-- `ReleaseExclusive2` completed: exact event order and state effect. -/
theorem releaseExclusive2_spec (s s' : RWLock) (tr : List MicroOp)
    (h : runTr (releaseExclusive2P Prog.done) s = some (s', tr)) :
    tr = MicroOp.rel Gate.resource :: MicroOp.acq Gate.wmutex :: MicroOp.decWrite ::
        ((if s.m_writecount - 1 = 0 then [MicroOp.rel Gate.order] else []) ++
         [MicroOp.rel Gate.wmutex]) ∧
    0 < s.m_wmutex ∧
    s'.m_resource = s.m_resource + 1 ∧
    s'.m_writecount = s.m_writecount - 1 ∧
    s'.m_wmutex = s.m_wmutex ∧ s'.m_rmutex = s.m_rmutex ∧
    s'.m_readcount = s.m_readcount ∧ s'.m_mode = s.m_mode ∧
    (s.m_writecount - 1 = 0 → s'.m_order = s.m_order + 1) ∧
    (s.m_writecount - 1 ≠ 0 → s'.m_order = s.m_order) := by
  simp only [releaseExclusive2P, runTr, RWLock.gate, RWLock.setGate,
    Semaphore.tryAcquire, Semaphore.release] at h
  split_ifs at h <;> simp_all <;> obtain ⟨rfl, rfl⟩ := h <;> simp_all <;> omega

/-- `AcquireShared2` completed: registration steps, then rmutex released
before order. -/
theorem acquireShared2_spec (s s' : RWLock) (tr : List MicroOp)
    (h : runTr (acquireShared2P Prog.done) s = some (s', tr)) :
    tr = (MicroOp.acq Gate.order :: MicroOp.acq Gate.rmutex :: MicroOp.incRead ::
          (if s.m_readcount + 1 = 1 then [MicroOp.acq Gate.resource] else [])) ++
         [MicroOp.rel Gate.rmutex, MicroOp.rel Gate.order] := by
  simp only [acquireShared2P, runTr, RWLock.gate, RWLock.setGate,
    Semaphore.tryAcquire, Semaphore.release] at h
  split_ifs at h <;> simp_all

/-- `AcquireShared3` completed: the same registration steps, but order is
released before rmutex. -/
theorem acquireShared3_spec (s s' : RWLock) (tr : List MicroOp)
    (h : runTr (acquireShared3P Prog.done) s = some (s', tr)) :
    tr = (MicroOp.acq Gate.order :: MicroOp.acq Gate.rmutex :: MicroOp.incRead ::
          (if s.m_readcount + 1 = 1 then [MicroOp.acq Gate.resource] else [])) ++
         [MicroOp.rel Gate.order, MicroOp.rel Gate.rmutex] := by
  simp only [acquireShared3P, runTr, RWLock.gate, RWLock.setGate,
    Semaphore.tryAcquire, Semaphore.release] at h
  split_ifs at h <;> simp_all

/-- `AcquireShared2` and `AcquireShared3` block in the same states and have the
same state effect. -/
theorem acquireShared23_same_effect (s : RWLock) :
    (runTr (acquireShared2P Prog.done) s).map Prod.fst =
      (runTr (acquireShared3P Prog.done) s).map Prod.fst := by
  simp only [acquireShared2P, acquireShared3P, runTr, RWLock.gate, RWLock.setGate,
    Semaphore.tryAcquire, Semaphore.release]
  split_ifs <;> rfl

/-- One call in a usage history of a single semaphore. -/
inductive SemOp where
  | acq
  | rel
deriving DecidableEq, Repr

/-- Run a sequence of `Semaphore` calls to completion, starting from
availability `a`; `none` means some `Acquire` blocks forever. -/
def runSem : List SemOp → Nat → Option Nat
  | [], a => some a
  | SemOp.acq :: l, a =>
      match Semaphore.tryAcquire a with
      | none => none
      | some a2 => runSem l a2
  | SemOp.rel :: l, a => runSem l (Semaphore.release a)

/-- Usage discipline: in every prefix, no more releases than acquires (each
release is preceded by its matching acquire). -/
def SemBalanced (l : List SemOp) : Prop :=
  ∀ n : Nat, List.count SemOp.rel (List.take n l) ≤ List.count SemOp.acq (List.take n l)

theorem runSem_count : ∀ (l : List SemOp) (a0 a : Nat), runSem l a0 = some a →
    (a : Int) = a0 + List.count SemOp.rel l - List.count SemOp.acq l := by
  intro l
  induction l with
  | nil =>
      intro a0 a h
      simp only [runSem, Option.some.injEq] at h
      subst h
      simp
  | cons op l ih =>
      intro a0 a h
      cases op with
      | acq =>
          rw [runSem] at h
          rcases htry : Semaphore.tryAcquire a0 with _ | a2
          · rw [htry] at h
            cases h
          · rw [htry] at h
            rw [Semaphore.tryAcquire_eq_some] at htry
            obtain ⟨hpos, rfl⟩ := htry
            have := ih _ _ h
            simp_all [List.count_cons]
            omega
      | rel =>
          rw [runSem] at h
          have := ih _ _ h
          simp_all [List.count_cons, Semaphore.release]
          omega

theorem runSem_append : ∀ (l₁ l₂ : List SemOp) (a : Nat),
    runSem (l₁ ++ l₂) a = (runSem l₁ a).bind (fun a2 => runSem l₂ a2) := by
  intro l₁
  induction l₁ with
  | nil => intro l₂ a; simp [runSem]
  | cons op l ih =>
      intro l₂ a
      cases op with
      | acq =>
          rw [List.cons_append, runSem, runSem]
          rcases htry : Semaphore.tryAcquire a with _ | a2 <;> simp [htry, ih]
      | rel =>
          rw [List.cons_append, runSem, runSem]
          exact ih l₂ _

/-- C2 (amended): for every sequence of `Acquire`/`Release` calls that obeys
the usage discipline (in every prefix, no more releases than acquires) and
runs to completion, availability stays in {0,1}, and if the sequence ends
with a `Release` the final availability is exactly 1. -/
theorem semaphore_binary (l : List SemOp) (a : Nat) (hbal : SemBalanced l)
    (hrun : runSem l Semaphore.init = some a) :
    (a = 0 ∨ a = 1) ∧ (∀ l0, l = l0 ++ [SemOp.rel] → a = 1) := by
  have hc := runSem_count l Semaphore.init a hrun
  have hb := hbal l.length
  rw [List.take_length] at hb
  constructor
  · simp only [Semaphore.init] at hc
    omega
  · intro l0 hl
    subst hl
    rw [runSem_append] at hrun
    rcases hr0 : runSem l0 Semaphore.init with _ | a0
    · rw [hr0] at hrun
      cases hrun
    · rw [hr0] at hrun
      simp only [Option.bind_some, runSem, Semaphore.release, Option.some.injEq] at hrun
      have hc0 := runSem_count l0 Semaphore.init a0 hr0
      have hb0 := hbal l0.length
      rw [List.take_left] at hb0
      simp_all [List.count_append, List.count_cons, Semaphore.init]
      omega


/-- C4: Under ReadersPriority, `AcquireShared` increments `m_readcount` while
holding rmutex and acquires the resource semaphore exactly when the count
became 1, then releases rmutex; `ReleaseShared` decrements under rmutex and
releases the resource exactly when the count reached 0; `AcquireExclusive`
and `ReleaseExclusive` touch only the resource semaphore. -/
theorem readersPriority_protocol :
    (∀ (s s' : RWLock) (tr : List MicroOp),
      runTr (acquireShared1P Prog.done) s = some (s', tr) →
        tr = MicroOp.acq Gate.rmutex :: MicroOp.incRead ::
            (if s.m_readcount + 1 = 1
             then [MicroOp.acq Gate.resource, MicroOp.rel Gate.rmutex]
             else [MicroOp.rel Gate.rmutex]) ∧
        0 < s.m_rmutex ∧
        s'.m_readcount = s.m_readcount + 1 ∧
        s'.m_rmutex = s.m_rmutex ∧ s'.m_order = s.m_order ∧
        s'.m_wmutex = s.m_wmutex ∧ s'.m_writecount = s.m_writecount ∧
        s'.m_mode = s.m_mode ∧
        (s.m_readcount + 1 = 1 → 0 < s.m_resource ∧ s'.m_resource = s.m_resource - 1) ∧
        (s.m_readcount + 1 ≠ 1 → s'.m_resource = s.m_resource)) ∧
    (∀ (s s' : RWLock) (tr : List MicroOp),
      runTr (releaseShared1P Prog.done) s = some (s', tr) →
        tr = MicroOp.acq Gate.rmutex :: MicroOp.decRead ::
            (if s.m_readcount - 1 = 0
             then [MicroOp.rel Gate.resource, MicroOp.rel Gate.rmutex]
             else [MicroOp.rel Gate.rmutex]) ∧
        0 < s.m_rmutex ∧
        s'.m_readcount = s.m_readcount - 1 ∧
        s'.m_rmutex = s.m_rmutex ∧ s'.m_order = s.m_order ∧
        s'.m_wmutex = s.m_wmutex ∧ s'.m_writecount = s.m_writecount ∧
        s'.m_mode = s.m_mode ∧
        (s.m_readcount - 1 = 0 → s'.m_resource = s.m_resource + 1) ∧
        (s.m_readcount - 1 ≠ 0 → s'.m_resource = s.m_resource)) ∧
    (∀ (s s' : RWLock) (tr : List MicroOp),
      runTr (acquireExclusive1P Prog.done) s = some (s', tr) →
        tr = [MicroOp.acq Gate.resource] ∧ 0 < s.m_resource ∧
        s' = s.setGate Gate.resource (s.m_resource - 1)) ∧
    (∀ s : RWLock,
      runTr (releaseExclusive1P Prog.done) s =
        some (s.setGate Gate.resource (s.m_resource + 1), [MicroOp.rel Gate.resource])) :=
  ⟨acquireShared1_spec, releaseShared1_spec, exclusive1_spec.1, exclusive1_spec.2⟩

theorem readersPriority_protocol_w :
    0 < (RWLock.new RWLockMode.ReadersPriority).m_rmutex ∧
    ({ m_mode := RWLockMode.ReadersPriority, m_order := 1, m_resource := 0,
       m_rmutex := 1, m_wmutex := 1, m_readcount := 1, m_writecount := 0 } : RWLock).m_readcount =
      (RWLock.new RWLockMode.ReadersPriority).m_readcount + 1 ∧
    runTr (releaseExclusive1P Prog.done) (RWLock.new RWLockMode.ReadersPriority) =
      some ((RWLock.new RWLockMode.ReadersPriority).setGate Gate.resource
        ((RWLock.new RWLockMode.ReadersPriority).m_resource + 1),
        [MicroOp.rel Gate.resource]) := by
  have h := readersPriority_protocol.1 (RWLock.new RWLockMode.ReadersPriority)
    { m_mode := RWLockMode.ReadersPriority, m_order := 1, m_resource := 0,
      m_rmutex := 1, m_wmutex := 1, m_readcount := 1, m_writecount := 0 }
    [MicroOp.acq Gate.rmutex, MicroOp.incRead, MicroOp.acq Gate.resource,
     MicroOp.rel Gate.rmutex] (by decide)
  exact ⟨h.2.1, h.2.2.1, readersPriority_protocol.2.2.2 (RWLock.new RWLockMode.ReadersPriority)⟩

/-- C5: Under WritersPriority, `AcquireExclusive` performs, in order: acquire
wmutex, increment `m_writecount`, acquire the order semaphore exactly when the
count became 1, release wmutex, acquire the resource semaphore;
`ReleaseExclusive` performs: release the resource, then under wmutex
decrement the count and release the order semaphore exactly when it reached
0. -/
theorem writersPriority_exclusive_protocol :
    (∀ (s s' : RWLock) (tr : List MicroOp),
      runTr (acquireExclusive2P Prog.done) s = some (s', tr) →
        tr = MicroOp.acq Gate.wmutex :: MicroOp.incWrite ::
            ((if s.m_writecount + 1 = 1 then [MicroOp.acq Gate.order] else []) ++
             [MicroOp.rel Gate.wmutex, MicroOp.acq Gate.resource]) ∧
        0 < s.m_wmutex ∧ 0 < s.m_resource ∧
        s'.m_writecount = s.m_writecount + 1 ∧
        s'.m_wmutex = s.m_wmutex ∧ s'.m_rmutex = s.m_rmutex ∧
        s'.m_readcount = s.m_readcount ∧ s'.m_mode = s.m_mode ∧
        s'.m_resource = s.m_resource - 1 ∧
        (s.m_writecount + 1 = 1 → 0 < s.m_order ∧ s'.m_order = s.m_order - 1) ∧
        (s.m_writecount + 1 ≠ 1 → s'.m_order = s.m_order)) ∧
    (∀ (s s' : RWLock) (tr : List MicroOp),
      runTr (releaseExclusive2P Prog.done) s = some (s', tr) →
        tr = MicroOp.rel Gate.resource :: MicroOp.acq Gate.wmutex :: MicroOp.decWrite ::
            ((if s.m_writecount - 1 = 0 then [MicroOp.rel Gate.order] else []) ++
             [MicroOp.rel Gate.wmutex]) ∧
        0 < s.m_wmutex ∧
        s'.m_resource = s.m_resource + 1 ∧
        s'.m_writecount = s.m_writecount - 1 ∧
        s'.m_wmutex = s.m_wmutex ∧ s'.m_rmutex = s.m_rmutex ∧
        s'.m_readcount = s.m_readcount ∧ s'.m_mode = s.m_mode ∧
        (s.m_writecount - 1 = 0 → s'.m_order = s.m_order + 1) ∧
        (s.m_writecount - 1 ≠ 0 → s'.m_order = s.m_order)) :=
  ⟨acquireExclusive2_spec, releaseExclusive2_spec⟩

theorem writersPriority_exclusive_protocol_w :
    0 < (RWLock.new RWLockMode.WritersPriority).m_wmutex ∧
    0 < (RWLock.new RWLockMode.WritersPriority).m_resource ∧
    ({ m_mode := RWLockMode.WritersPriority, m_order := 0, m_resource := 0,
       m_rmutex := 1, m_wmutex := 1, m_readcount := 0, m_writecount := 1 } : RWLock).m_writecount =
      (RWLock.new RWLockMode.WritersPriority).m_writecount + 1 ∧
    ({ m_mode := RWLockMode.WritersPriority, m_order := 1, m_resource := 1,
       m_rmutex := 1, m_wmutex := 1, m_readcount := 0, m_writecount := 0 } : RWLock).m_resource =
      ({ m_mode := RWLockMode.WritersPriority, m_order := 0, m_resource := 0,
         m_rmutex := 1, m_wmutex := 1, m_readcount := 0, m_writecount := 1 } : RWLock).m_resource + 1 := by
  have h1 := writersPriority_exclusive_protocol.1 (RWLock.new RWLockMode.WritersPriority)
    { m_mode := RWLockMode.WritersPriority, m_order := 0, m_resource := 0,
      m_rmutex := 1, m_wmutex := 1, m_readcount := 0, m_writecount := 1 }
    [MicroOp.acq Gate.wmutex, MicroOp.incWrite, MicroOp.acq Gate.order,
     MicroOp.rel Gate.wmutex, MicroOp.acq Gate.resource] (by decide)
  have h2 := writersPriority_exclusive_protocol.2
    { m_mode := RWLockMode.WritersPriority, m_order := 0, m_resource := 0,
      m_rmutex := 1, m_wmutex := 1, m_readcount := 0, m_writecount := 1 }
    { m_mode := RWLockMode.WritersPriority, m_order := 1, m_resource := 1,
      m_rmutex := 1, m_wmutex := 1, m_readcount := 0, m_writecount := 0 }
    [MicroOp.rel Gate.resource, MicroOp.acq Gate.wmutex, MicroOp.decWrite,
     MicroOp.rel Gate.order, MicroOp.rel Gate.wmutex] (by decide)
  exact ⟨h1.2.1, h1.2.2.1, h1.2.2.2.1, h2.2.2.1⟩

/-- C6: FairOrder `AcquireShared` releases the order semaphore before rmutex,
the reverse of the WritersPriority variant, and both variants otherwise
perform the same steps (acquire order, acquire rmutex, increment
`m_readcount`, acquire the resource exactly when the count became 1) with the
same state effect. -/
theorem fairOrder_release_order :
    (∀ (s s' : RWLock) (tr : List MicroOp),
      runTr (acquireShared3P Prog.done) s = some (s', tr) →
        tr = (MicroOp.acq Gate.order :: MicroOp.acq Gate.rmutex :: MicroOp.incRead ::
              (if s.m_readcount + 1 = 1 then [MicroOp.acq Gate.resource] else [])) ++
             [MicroOp.rel Gate.order, MicroOp.rel Gate.rmutex]) ∧
    (∀ (s s' : RWLock) (tr : List MicroOp),
      runTr (acquireShared2P Prog.done) s = some (s', tr) →
        tr = (MicroOp.acq Gate.order :: MicroOp.acq Gate.rmutex :: MicroOp.incRead ::
              (if s.m_readcount + 1 = 1 then [MicroOp.acq Gate.resource] else [])) ++
             [MicroOp.rel Gate.rmutex, MicroOp.rel Gate.order]) ∧
    (∀ s : RWLock,
      (runTr (acquireShared2P Prog.done) s).map Prod.fst =
        (runTr (acquireShared3P Prog.done) s).map Prod.fst) :=
  ⟨acquireShared3_spec, acquireShared2_spec, acquireShared23_same_effect⟩

theorem fairOrder_release_order_w :
    ([MicroOp.acq Gate.order, MicroOp.acq Gate.rmutex, MicroOp.incRead,
      MicroOp.acq Gate.resource, MicroOp.rel Gate.order, MicroOp.rel Gate.rmutex] =
      (MicroOp.acq Gate.order :: MicroOp.acq Gate.rmutex :: MicroOp.incRead ::
        (if (RWLock.new RWLockMode.FairOrder).m_readcount + 1 = 1
         then [MicroOp.acq Gate.resource] else [])) ++
      [MicroOp.rel Gate.order, MicroOp.rel Gate.rmutex]) ∧
    (runTr (acquireShared2P Prog.done) (RWLock.new RWLockMode.FairOrder)).map Prod.fst =
      (runTr (acquireShared3P Prog.done) (RWLock.new RWLockMode.FairOrder)).map Prod.fst := by
  refine ⟨?_, fairOrder_release_order.2.2 (RWLock.new RWLockMode.FairOrder)⟩
  exact fairOrder_release_order.1 (RWLock.new RWLockMode.FairOrder)
    { m_mode := RWLockMode.FairOrder, m_order := 1, m_resource := 0,
      m_rmutex := 1, m_wmutex := 1, m_readcount := 1, m_writecount := 0 }
    [MicroOp.acq Gate.order, MicroOp.acq Gate.rmutex, MicroOp.incRead,
     MicroOp.acq Gate.resource, MicroOp.rel Gate.order, MicroOp.rel Gate.rmutex]
    (by decide)

/-- C2 counterexample: the claim as stated fails on the code.  From the
initial state (availability 1), a single `Release` call sets availability to
2, not 1: `Release` increments, it does not saturate at 1. -/
theorem semaphore_release_cex :
    runSem [SemOp.rel] Semaphore.init = some 2 ∧
    Semaphore.release Semaphore.init = 2 ∧ Semaphore.release Semaphore.init ≠ 1 := by
  decide

/-- C3: `Acquire` blocks exactly while availability is 0; when it completes
it has decremented the (then positive) availability by exactly one, so it
never completes without decrementing and never goes below 0; from the
single-slot state 1 it sets availability to exactly 0. -/
theorem semaphore_acquire (a : Nat) :
    (Semaphore.tryAcquire a = none ↔ a = 0) ∧
    (∀ r, Semaphore.tryAcquire a = some r → 0 < a ∧ r = a - 1) ∧
    (a = 1 → Semaphore.tryAcquire a = some 0) := by
  refine ⟨Semaphore.tryAcquire_eq_none, ?_, ?_⟩
  · intro r h
    rw [Semaphore.tryAcquire_eq_some] at h
    exact ⟨h.1, h.2⟩
  · intro h
    subst h
    rfl

theorem semaphore_acquire_w :
    (0 < 1 ∧ 0 = 1 - 1) ∧ Semaphore.tryAcquire 1 = some 0 :=
  ⟨(semaphore_acquire 1).2.1 0 (by decide), (semaphore_acquire 1).2.2 rfl⟩

theorem semaphore_binary_w :
    runSem [SemOp.acq, SemOp.rel] Semaphore.init = some 1 ∧
    ((1 : Nat) = 0 ∨ (1 : Nat) = 1) ∧ (1 : Nat) = 1 := by
  have hbal : SemBalanced [SemOp.acq, SemOp.rel] := by
    intro n
    rcases n with _ | _ | n <;> simp [List.take]
  have h := semaphore_binary [SemOp.acq, SemOp.rel] 1 hbal (by decide)
  exact ⟨by decide, h.1, h.2 [SemOp.acq] rfl⟩
